import Mathlib

/-!
Oomph: detection runtime, VelocityB, acknowledgements, the script-message gate,
the movement simulation and the chunk acknowledgements

A shallow embedding of parts of the oomph anti-cheat proxy.

Conventions of the embedding

* Go `float64` / `float32` values are carried as exact rationals (`ℚ`): the
  arithmetic is the real arithmetic the code approximates, without rounding,
  infinities or NaN. `math.Min` / `math.Max` are `min` / `max`.
* Go `int64` values are integers; an `int64` subtraction wraps (`wrapInt64`).
* Calls that leave the function (hooks, remote events, disconnects, helper
  methods whose body is not part of the sources) are recorded in a trace that
  the function returns next to the new state.
* The world a player is simulated in, and the helpers of the simulation whose
  bodies are not part of the sources, are the fields of a `World` value that
  the simulation takes as an argument.
* A Go loop is a function defined by well-founded recursion on the measure that
  makes the loop terminate in exact arithmetic.
-/

namespace Oomph

/-! ## Machine integers -/

/-- Two's-complement wrap of an integer into the `int64` range. -/
def wrapInt64 (x : Int) : Int := (x + 2 ^ 63) % 2 ^ 64 - 2 ^ 63

/-! ## Detection runtime (`src/player/detection.go`) -/

/-- The mutable metadata of a detection (`DetectionMetadata`). -/
structure DetectionMetadata where
  Violations : ℚ
  MaxViolations : ℚ
  Buffer : ℚ
  FailBuffer : ℚ
  MaxBuffer : ℚ
  TrustDuration : Int
  LastFlagged : Int
deriving DecidableEq

/-- What `FailDetection` does outside the metadata, in call order. -/
inductive Effect where
  /-- The call `p.EventHandler().HandleFlag(ctx, d, extraData)`. -/
  | flagHook
  /-- The call `p.SendRemoteEvent(NewFlaggedEvent(...))` with the violations it carries. -/
  | flaggedEvent (violations : ℚ)
  /-- The call `p.EventHandler().HandlePunishment(ctx, d, &message)`. -/
  | punishmentHook
  /-- The call `p.Disconnect(message)`. -/
  | disconnect
  /-- The call `p.Close()`. -/
  | close
deriving DecidableEq

/-- The user-supplied event handler: each hook sees the detection's metadata at
the time of the call and answers whether it cancelled the event context. -/
structure EventHandler where
  HandleFlag : DetectionMetadata → Bool
  HandlePunishment : DetectionMetadata → Bool

/-- `Player.PassDetection`: `m.Buffer = math.Max(0, m.Buffer-sub)`. It makes no
outside call, so its trace is empty. -/
def PassDetection (m : DetectionMetadata) (sub : ℚ) : DetectionMetadata × List Effect :=
  ({ m with Buffer := max 0 (m.Buffer - sub) }, [])

/-- The buffer as `FailDetection` leaves it: `math.Min(m.Buffer+1.0, m.MaxBuffer)`. -/
def raisedBuffer (m : DetectionMetadata) : ℚ := min (m.Buffer + 1) m.MaxBuffer

/-- The amount `FailDetection` adds to `Violations` at server tick `serverTick`. -/
def violationIncrement (serverTick : Int) (m : DetectionMetadata) : ℚ :=
  if m.TrustDuration > 0 then
    max 0 ((m.TrustDuration : ℚ) - ((wrapInt64 (serverTick - m.LastFlagged) : Int) : ℚ))
      / (m.TrustDuration : ℚ)
  else 1

/-- The metadata at the moment the flag hook is called: buffer raised and
violations incremented. -/
def flagState (serverTick : Int) (m : DetectionMetadata) : DetectionMetadata :=
  { m with Buffer := raisedBuffer m,
           Violations := m.Violations + violationIncrement serverTick m }

/-- `Player.FailDetection` for a detection with metadata `m` and the given
`Punishable()` answer, at server tick `serverTick`. -/
def FailDetection (h : EventHandler) (serverTick : Int) (punishable : Bool)
    (m : DetectionMetadata) : DetectionMetadata × List Effect :=
  let m1 : DetectionMetadata := { m with Buffer := raisedBuffer m }
  if m1.Buffer < m1.FailBuffer then (m1, [])
  else
    let oldVl := m1.Violations
    let m2 := flagState serverTick m
    if h.HandleFlag m2 then ({ m2 with Violations := oldVl }, [Effect.flagHook])
    else
      let m3 : DetectionMetadata := { m2 with LastFlagged := serverTick }
      let ev : List Effect :=
        if m3.Violations ≥ 1 / 2 then [Effect.flaggedEvent m3.Violations] else []
      if punishable = true ∧ m3.Violations ≥ m3.MaxViolations then
        if h.HandlePunishment m3 then (m3, Effect.flagHook :: ev ++ [Effect.punishmentHook])
        else (m3, Effect.flagHook :: ev ++ [Effect.punishmentHook, Effect.disconnect, Effect.close])
      else (m3, Effect.flagHook :: ev)

/-! ## Older detection framework (`src/detection/base.go`) -/

/-- The fields of `BaseDetection` that `Fail` reads or writes. -/
structure BaseDetection where
  Violations : ℚ
  MaxViolations : ℚ
  Buffer : ℚ
  FailBuffer : ℚ
  MaxBuffer : ℚ
  Punishable : Bool
  trustDuration : Int
  lastFlagged : Int
deriving DecidableEq

/-- The hooks `OnFlagged` and `OnPunishment` of the older framework. -/
structure BaseEventHandler where
  OnFlagged : BaseDetection → Bool
  OnPunishment : BaseDetection → Bool

/-- `BaseDetection.Fail` at client frame `clientFrame`. The violation increment
divides by `trustDuration` without a guard; a zero divisor has no value in
exact arithmetic, and the result is then `none`. -/
def BaseDetection.Fail (h : BaseEventHandler) (clientFrame : Int) (d : BaseDetection) :
    Option (BaseDetection × List Effect) :=
  let d1 : BaseDetection := { d with Buffer := min (d.Buffer + 1) d.MaxBuffer }
  if d1.Buffer < d1.FailBuffer then some (d1, [])
  else if h.OnFlagged d1 then some (d1, [Effect.flagHook])
  else if d1.trustDuration = 0 then none
  else
    let inc : ℚ :=
      max 0 ((d1.trustDuration : ℚ) - ((wrapInt64 (clientFrame - d1.lastFlagged) : Int) : ℚ))
        / (d1.trustDuration : ℚ)
    let d2 : BaseDetection :=
      { d1 with Violations := d1.Violations + inc, lastFlagged := clientFrame }
    let ev : List Effect :=
      if d2.Violations ≥ 1 / 2 then [Effect.flaggedEvent d2.Violations] else []
    if d2.Violations < d2.MaxViolations then some (d2, Effect.flagHook :: ev)
    else if ¬ d2.Punishable = true then some (d2, Effect.flagHook :: ev)
    else if h.OnPunishment d2 then some (d2, Effect.flagHook :: ev ++ [Effect.punishmentHook])
    else some (d2, Effect.flagHook :: ev ++ [Effect.punishmentHook, Effect.disconnect])

/-! ## Packets -/

/-- The client packets the embedded functions distinguish; every other kind is
`Other` with its packet id. -/
inductive Packet where
  | ScriptMessage (Identifier : String)
  | NetworkStackLatency (Timestamp : Int)
  | PlayerAuthInput (InputData : Nat)
  | Other (id : Nat)
deriving DecidableEq

/-! ## VelocityB (`src/check/velocity_b.go`) -/

/-- A three-component vector (`mgl64.Vec3`). -/
structure Vec3 where
  X : ℚ
  Y : ℚ
  Z : ℚ
deriving DecidableEq

/-- The part of the session's movement record that VelocityB reads. -/
structure SessionMovement where
  Motion : Vec3
  PreviousServerPredictedMotion : Vec3
deriving DecidableEq

/-- The part of the session that VelocityB reads: `s.Movement`, `s.Ticks.Motion`
and the two flags it queries with `s.HasFlag`. -/
structure Session where
  Movement : SessionMovement
  TicksMotion : Nat
  FlagTeleporting : Bool
  FlagCollidedHorizontally : Bool
deriving DecidableEq

/-- The embedded `check` record: the `violations` field that `Process` writes,
and the fields only the helper methods touch. -/
structure check (β : Type) where
  violations : ℚ
  fields : β

/-- The helper methods `Process` calls whose bodies are not part of the sources;
each maps the check record to the new record (and the value returned). -/
structure CheckHelpers (β : Type) where
  Buff : check β → ℚ → check β × ℚ
  updateAndGetViolationAfterTicks : check β → Nat → ℚ → check β × ℚ
  Flag : check β → ℚ → ℚ → ℚ → check β
  Round : ℚ → Nat → ℚ

/-- The helper calls made by `Process`, in call order. -/
inductive CheckCall where
  | violationAfterTicks (tick : Nat) (maxTime : ℚ)
  | buff (n : ℚ)
  | flag (violations : ℚ) (x : ℚ) (z : ℚ)
deriving DecidableEq

/-- The outer condition of `Process`: one tick after a motion impulse, with both
horizontal components of the expected motion above 0.01 in magnitude. -/
def VelocityB.triggered (s : Session) : Prop :=
  s.TicksMotion = 1 ∧ |s.Movement.PreviousServerPredictedMotion.X| > 1 / 100
    ∧ |s.Movement.PreviousServerPredictedMotion.Z| > 1 / 100

instance (s : Session) : Decidable (VelocityB.triggered s) := by
  unfold VelocityB.triggered; infer_instance

/-- The quotient `xVal` of `Process`. -/
def VelocityB.xVal (s : Session) : ℚ :=
  s.Movement.Motion.X / s.Movement.PreviousServerPredictedMotion.X

/-- The quotient `zVal` of `Process`. -/
def VelocityB.zVal (s : Session) : ℚ :=
  s.Movement.Motion.Z / s.Movement.PreviousServerPredictedMotion.Z

/-- The inner condition of `Process`, selecting the failing branch. -/
def VelocityB.failing (s : Session) : Prop :=
  ((VelocityB.xVal s ≤ 9999 / 10000 ∧ VelocityB.zVal s ≤ 9999 / 10000)
      ∨ (VelocityB.xVal s ≥ 3 / 2 ∨ VelocityB.zVal s ≥ 3 / 2))
    ∧ ¬ s.FlagTeleporting = true ∧ ¬ s.FlagCollidedHorizontally = true

instance (s : Session) : Decidable (VelocityB.failing s) := by
  unfold VelocityB.failing; infer_instance

/-- `VelocityB.Process` on packet `pk`, for the session `s` and client tick
`clientTick` the processor reports. -/
def VelocityB.Process {β : Type} (e : CheckHelpers β) (s : Session) (clientTick : Nat)
    (v : check β) (pk : Packet) : check β × List CheckCall :=
  match pk with
  | Packet.PlayerAuthInput _ =>
    if VelocityB.triggered s then
      if VelocityB.failing s then
        let r1 := e.updateAndGetViolationAfterTicks v clientTick 400
        let r2 := e.Buff r1.1 r1.2
        if r2.2 ≥ 3 then
          let r3 := e.updateAndGetViolationAfterTicks r2.1 clientTick 100
          (e.Flag r3.1 r3.2 (e.Round (VelocityB.xVal s) 6) (e.Round (VelocityB.zVal s) 6),
            [CheckCall.violationAfterTicks clientTick 400, CheckCall.buff r1.2,
             CheckCall.violationAfterTicks clientTick 100,
             CheckCall.flag r3.2 (e.Round (VelocityB.xVal s) 6) (e.Round (VelocityB.zVal s) 6)])
        else
          (r2.1, [CheckCall.violationAfterTicks clientTick 400, CheckCall.buff r1.2])
      else
        let r := e.Buff v (-(1 / 10))
        ({ r.1 with violations := max (r.1.violations - 1 / 20) 0 },
          [CheckCall.buff (-(1 / 10))])
    else (v, [])
  | _ => (v, [])

/-! ## Acknowledgements (`src/player/processor.go`) -/

/-- The part of the player `ClientProcess` touches on a latency packet: the
`clicking` flag, the pending map `acknowledgements` (timestamp to callback, in
insertion order, one entry per timestamp) and the callbacks invoked so far. -/
structure Player (κ : Type) where
  clicking : Bool
  acknowledgements : List (Int × κ)
  executed : List κ

/-- Go's `m[k]`: the callback stored for timestamp `t`, if any. -/
def ackLookup {κ : Type} (t : Int) : List (Int × κ) → Option κ
  | [] => none
  | e :: m => if e.1 = t then some e.2 else ackLookup t m

/-- Go's `delete(m, k)`. -/
def ackDelete {κ : Type} (t : Int) : List (Int × κ) → List (Int × κ)
  | [] => []
  | e :: m => if e.1 = t then ackDelete t m else e :: ackDelete t m

/-- `Player.ClientProcess`. The cases of the switch other than
`*packet.NetworkStackLatency` are `other`. -/
def ClientProcess {κ : Type} (other : Player κ → Packet → Player κ × Bool)
    (p : Player κ) (pk : Packet) : Player κ × Bool :=
  let p1 : Player κ := { p with clicking := false }
  match pk with
  | Packet.NetworkStackLatency t =>
    match ackLookup t p1.acknowledgements with
    | some call =>
      ({ p1 with acknowledgements := ackDelete t p1.acknowledgements,
                 executed := p1.executed ++ [call] }, true)
    | none => (p1, false)
  | pk => other p1 pk

/-- The player after the client sent `NetworkStackLatency` packets with the
timestamps `ts`, in that order. -/
def clientAcks {κ : Type} (other : Player κ → Packet → Player κ × Bool)
    (p : Player κ) (ts : List Int) : Player κ :=
  ts.foldl (fun q t => (ClientProcess other q (Packet.NetworkStackLatency t)).1) p

/-- Modelled from the spec: `Player.Acknowledgement`, whose body is not part of
the sources. "The engine emits a network-stack-latency probe with a freshly
generated timestamp `t` and remembers `t → callback`"; the timestamp generator
is the caller's. -/
def Acknowledgement {κ : Type} (p : Player κ) (t : Int) (cb : κ) : Player κ :=
  { p with acknowledgements := ackDelete t p.acknowledgements ++ [(t, cb)] }

/-- In the list `l`, every occurrence of `b` has an occurrence of `a` before it:
`a` comes before `b`, or `b` does not occur. -/
def ComesBefore {α : Type} (a b : α) (l : List α) : Prop :=
  ∀ l1 l2 : List α, l = l1 ++ b :: l2 → a ∈ l1

/-- The callbacks `clientAcks` invokes, in order, when the pending map is `m`
and the client acks the timestamps `ts`. -/
def firedCallbacks {κ : Type} (m : List (Int × κ)) : List Int → List κ
  | [] => []
  | t :: ts =>
    match ackLookup t m with
    | some c => c :: firedCallbacks (ackDelete t m) ts
    | none => firedCallbacks m ts

/-! ## Script-message gate (`src/player/packet.go`) -/

/-- Go's `strings.Contains`. -/
def stringsContains (s substr : String) : Bool := decide (substr.data <:+: s.data)

/-- What `HandleClientPacket` does outside the player record, in call order. -/
inductive PacketEffect where
  /-- The call `p.Disconnect(reason)`. -/
  | disconnect (reason : String)
  /-- The call `p.RunDetections(pk)`. -/
  | runDetections (pk : Packet)
  /-- A call made by one of the other cases of the switch. -/
  | handler (name : String)
deriving DecidableEq

/-- The outcome of a case of the switch in `HandleClientPacket`: the calls it
made, the value it returned if it returned from inside the switch, and the
value it left in `cancel`. -/
structure SwitchOutcome where
  effects : List PacketEffect
  returned : Option Bool
  cancel : Bool

/-- `Player.HandleClientPacket`. The cases of the switch other than
`*packet.ScriptMessage` are `other`. -/
def HandleClientPacket (other : Packet → SwitchOutcome) (pk : Packet) :
    List PacketEffect × Bool :=
  match pk with
  | Packet.ScriptMessage Identifier =>
    if stringsContains Identifier "oomph:" then ([PacketEffect.disconnect "\t"], true)
    else ([PacketEffect.runDetections pk], false)
  | pk =>
    match (other pk).returned with
    | some r => ((other pk).effects, r)
    | none => ((other pk).effects ++ [PacketEffect.runDetections pk], (other pk).cancel)

/-! ## Example values -/

/-- Helper methods for the examples: `Buff` adds to a buffer kept in `fields`
(floored at zero) and returns it, the violation weight is always one, `Flag`
raises the violations by the weight and `Round` is the identity. -/
def exampleHelpers : CheckHelpers ℚ where
  Buff := fun c n => ({ c with fields := max 0 (c.fields + n) }, max 0 (c.fields + n))
  updateAndGetViolationAfterTicks := fun c _ _ => (c, 1)
  Flag := fun c w _ _ => { c with violations := c.violations + w }
  Round := fun q _ => q

/-- The session one tick after the server sent the motion `(0.4, 0.0, 0.3)`, the
client reporting `motion`. -/
def knockbackSession (motion : Vec3) : Session where
  Movement := { Motion := motion, PreviousServerPredictedMotion := Vec3.mk (2 / 5) 0 (3 / 10) }
  TicksMotion := 1
  FlagTeleporting := false
  FlagCollidedHorizontally := false

/-- The remaining cases of `ClientProcess` for the examples: nothing is done and
the packet is passed on. -/
def exampleOther : Player String → Packet → Player String × Bool := fun q _ => (q, false)

/-- A player with no pending acknowledgement. -/
def freshPlayer : Player String := { clicking := false, acknowledgements := [], executed := [] }

/-- The player after registering the callbacks `"A"`, `"B"` and `"C"`, in this
order, under the timestamps `-1`, `-3` and `-5`. -/
def threePending : Player String :=
  Acknowledgement (Acknowledgement (Acknowledgement freshPlayer (-1) "A") (-3) "B") (-5) "C"

/-! ## Movement simulation (`src/player/movement.go`, `src/player/network.go`) -/

namespace Movement

/-! ### Vectors and boxes (`mgl32.Vec3`, `cube.BBox`) -/

/-- `mgl32.Vec3.Add`. -/
def Vec3.Add (a b : Vec3) : Vec3 := Vec3.mk (a.X + b.X) (a.Y + b.Y) (a.Z + b.Z)

/-- `mgl32.Vec3.Sub`. -/
def Vec3.Sub (a b : Vec3) : Vec3 := Vec3.mk (a.X - b.X) (a.Y - b.Y) (a.Z - b.Z)

/-- `mgl32.Vec3.LenSqr`. -/
def Vec3.LenSqr (a : Vec3) : ℚ := a.X * a.X + a.Y * a.Y + a.Z * a.Z

/-- An axis-aligned box (`cube.BBox`). -/
structure BBox where
  min : Vec3
  max : Vec3
deriving DecidableEq

/-- `cube.BBox.Translate`: the box moved by `v`. -/
def BBox.Translate (b : BBox) (v : Vec3) : BBox := BBox.mk (Vec3.Add b.min v) (Vec3.Add b.max v)

/-- `cube.BBox.Extend`: the box stretched in the direction of `v`, a negative
component lowering the minimum and a positive one raising the maximum. -/
def BBox.Extend (b : BBox) (v : Vec3) : BBox :=
  BBox.mk
    (Vec3.mk (if v.X < 0 then b.min.X + v.X else b.min.X)
             (if v.Y < 0 then b.min.Y + v.Y else b.min.Y)
             (if v.Z < 0 then b.min.Z + v.Z else b.min.Z))
    (Vec3.mk (if v.X > 0 then b.max.X + v.X else b.max.X)
             (if v.Y > 0 then b.max.Y + v.Y else b.max.Y)
             (if v.Z > 0 then b.max.Z + v.Z else b.max.Z))

/-- `mgl32.FloatEqualThreshold`, with `mgl32.MinNormal = 2^-126`. -/
def FloatEqualThreshold (a b epsilon : ℚ) : Bool :=
  if a = b then true
  else if a * b = 0 ∨ |a - b| < 1 / 2 ^ 126 then decide (|a - b| < epsilon * epsilon)
  else decide (|a - b| / (|a| + |b|) < epsilon)

/-- The axis argument of `utils.DoBoxCollision`. -/
inductive CollisionAxis where
  | CollisionX
  | CollisionY
  | CollisionZ
deriving DecidableEq

/-! ### Constants of package `game` -/

/-- Modelled from the spec: `game.StepClipMultiplier`, which is not part of the
sources. "Step-clip offset decays by 0.4 each tick." -/
def StepClipMultiplier : ℚ := 2 / 5

/-- Modelled from the spec: `game.StepHeight`, which is not part of the sources.
"Step-height default 0.6." -/
def StepHeight : ℚ := 3 / 5

/-- Modelled from the spec: `game.GravityMultiplier`, which is not part of the
sources. "`vy := (vy − gravity) · 0.98`." -/
def GravityMultiplier : ℚ := 49 / 50

/-- Modelled from the spec: `game.Vec3HzDistSqr`, which is not part of the
sources: the "horizontal distance²" of a vector. -/
def Vec3HzDistSqr (v : Vec3) : ℚ := v.X * v.X + v.Z * v.Z

/-- Modelled from the spec: `game.ClampFloat`, which is not part of the sources:
"clamp horizontal to ±0.2". -/
def ClampFloat (v lo hi : ℚ) : ℚ := max lo (min v hi)

/-- The `float32` value of `math32.Pi`. -/
def float32Pi : ℚ := 13176795 / 4194304

/-! ### The world and the helpers outside the sources -/

/-- A block position (`cube.Pos`). -/
structure BlockPos where
  X : Int
  Y : Int
  Z : Int
deriving DecidableEq

/-- `cube.PosFromVec3`: the block containing the point. -/
def PosFromVec3 (v : Vec3) : BlockPos := BlockPos.mk ⌊v.X⌋ ⌊v.Y⌋ ⌊v.Z⌋

/-- `cube.Pos.Side(cube.FaceDown)`. -/
def BlockPos.down (b : BlockPos) : BlockPos := BlockPos.mk b.X (b.Y - 1) b.Z

/-- What the simulation asks about a block (`world.Block`): its runtime id,
whether it is a `world.Liquid`, its friction when it is a `block.Frictional`,
and the answer of `utils.BlockClimbable`. -/
structure WorldBlock where
  RuntimeID : Nat
  Liquid : Bool
  Friction : Option ℚ
  Climbable : Bool
deriving DecidableEq

/-- The world the player is simulated in and the helpers whose bodies are not
part of the sources: the queries `p.Block`, `p.GetNearbyBBoxes` and
`p.GetNearbyBlocks`, `utils.DoBoxCollision`, `game.MCSin`, `game.MCCos`,
`math32.Sqrt` and the constant `game.DefaultAirFriction`. -/
structure World where
  Block : BlockPos → WorldBlock
  GetNearbyBBoxes : BBox → List BBox
  GetNearbyBlocks : BBox → List (BlockPos × WorldBlock)
  DoBoxCollision : CollisionAxis → BBox → List BBox → ℚ → BBox × ℚ
  MCSin : ℚ → ℚ
  MCCos : ℚ → ℚ
  Sqrt : ℚ → ℚ
  DefaultAirFriction : ℚ

/-! ### Player state -/

/-- The record `MovementInfo`, without the field `LastUsedInput` that the
simulation does not read. `MotionTicks` and `RefreshBlockTicks` are `uint32`,
`JumpCooldownTicks` is `int32`. -/
structure MovementInfo where
  CanExempt : Bool
  InUnsupportedRewindScenario : Bool
  ForwardImpulse : ℚ
  LeftImpulse : ℚ
  JumpVelocity : ℚ
  FlyingSpeed : ℚ
  Gravity : ℚ
  Speed : ℚ
  StepClipOffset : ℚ
  MotionTicks : Nat
  RefreshBlockTicks : Nat
  JumpCooldownTicks : Int
  Sneaking : Bool
  SneakBindPressed : Bool
  Jumping : Bool
  JumpBindPressed : Bool
  Sprinting : Bool
  SprintBindPressed : Bool
  Teleporting : Bool
  Immobile : Bool
  CanFly : Bool
  Flying : Bool
  NoClip : Bool
  IsCollided : Bool
  VerticallyCollided : Bool
  HorizontallyCollided : Bool
  XCollision : Bool
  ZCollision : Bool
  OnGround : Bool
  InVoid : Bool
  ClientPredictedMovement : Vec3
  ClientMovement : Vec3
  ServerSentMovement : Vec3
  ServerMovement : Vec3
  OldServerMovement : Vec3
  ServerPosition : Vec3
deriving DecidableEq

/-- The values of `p.movementMode` (`utils.ModeFullAuthoritative` is the one the
sources name). -/
inductive AuthorityMode where
  | ModeClientAuthoritative
  | ModeSemiAuthoritative
  | ModeFullAuthoritative
deriving DecidableEq

/-- The packets the movement code writes to the connection. -/
inductive Written where
  /-- An `UpdateBlock` for a nearby block. -/
  | UpdateBlock (Position : BlockPos) (NewBlockRuntimeID : Nat)
  /-- The last sent `SetActorData`, with its tick set to zero. -/
  | ActorData (id : Nat)
  /-- The last sent `UpdateAttributes`, with its tick set to zero. -/
  | Attributes (id : Nat)
  /-- The packet `CorrectPlayerMovePrediction`. -/
  | CorrectPlayerMovePrediction (Position : Vec3) (Delta : Vec3) (OnGround : Bool) (Tick : Int)
  /-- The chat message of `p.SendOomphDebug`. -/
  | OomphDebug
deriving DecidableEq

/-- The part of the player the movement code reads or writes. `Position`,
`AABB` and `Rotation` are what `p.Position()`, `p.AABB()` and
`p.entity.Rotation()` return, `ClientFrame` what `p.ClientFrame()` returns, and
`written` holds the packets passed to `p.conn.WritePacket`, oldest first. -/
structure Player where
  inLoadedChunkTicks : Int
  ready : Bool
  inLoadedChunk : Bool
  movementMode : AuthorityMode
  debuggerMovement : Bool
  mInfo : MovementInfo
  Position : Vec3
  AABB : BBox
  Rotation : Vec3
  ClientFrame : Int
  lastSentActorData : Option Nat
  lastSentAttributes : Option Nat
  written : List Written
deriving DecidableEq

end Movement

namespace Movement

/-! ### Machine integers of the movement record -/

/-- Wrap of an integer into the `uint32` range. -/
def wrapUint32 (x : Int) : Nat := (x % 2 ^ 32).toNat

/-- Two's-complement wrap of an integer into the `int32` range. -/
def wrapInt32 (x : Int) : Int := (x + 2 ^ 31) % 2 ^ 32 - 2 ^ 31

/-! ### The simulation -/

/-- The player with `p.mInfo.ServerMovement` replaced. -/
def Player.setServerMovement (p : Player) (v : Vec3) : Player :=
  { p with mInfo := { p.mInfo with ServerMovement := v } }

/-- `MovementInfo.UpdateTickStatus`. -/
def MovementInfo.UpdateTickStatus (m : MovementInfo) : MovementInfo :=
  { m with MotionTicks := wrapUint32 (m.MotionTicks + 1),
           RefreshBlockTicks := wrapUint32 (m.RefreshBlockTicks + 1),
           JumpCooldownTicks := wrapInt32 (m.JumpCooldownTicks - 1) }

/-- `MovementInfo.getFrictionInfluencedSpeed`. -/
def MovementInfo.getFrictionInfluencedSpeed (m : MovementInfo) (f : ℚ) : ℚ :=
  if m.OnGround then m.Speed * (273 / 500 / f) ^ 3 else m.FlyingSpeed

/-- `Player.setMovementToClient`. -/
def setMovementToClient (p : Player) : Player :=
  { p with mInfo := { p.mInfo with ServerPosition := p.Position,
                                   ServerMovement := p.mInfo.ClientPredictedMovement } }

/-- `Player.checkUnsupportedMovementScenarios`. -/
def checkUnsupportedMovementScenarios (w : World) (p : Player) : Player :=
  let blocks := w.GetNearbyBlocks p.AABB
  let p1 : Player :=
    if blocks.any (fun e => e.2.Liquid) then
      { p with mInfo := { p.mInfo with InUnsupportedRewindScenario := true } }
    else p
  if p1.mInfo.InUnsupportedRewindScenario then setMovementToClient p1 else p1

/-- `Player.checkCollisions`. -/
def checkCollisions (old : Vec3) (p : Player) : Player :=
  let XCollision := ! FloatEqualThreshold old.X p.mInfo.ServerMovement.X (1 / 100000)
  let ZCollision := ! FloatEqualThreshold old.Z p.mInfo.ServerMovement.Z (1 / 100000)
  let VerticallyCollided := decide (old.Y ≠ p.mInfo.ServerMovement.Y)
  let m1 : MovementInfo :=
    { p.mInfo with XCollision := XCollision, ZCollision := ZCollision,
                   HorizontallyCollided := XCollision || ZCollision,
                   VerticallyCollided := VerticallyCollided,
                   OnGround := VerticallyCollided && decide (old.Y < 0) }
  let v := m1.ServerMovement
  let v1 : Vec3 := if m1.VerticallyCollided then { v with Y := 0 } else v
  let v2 : Vec3 := if m1.XCollision then { v1 with X := 0 } else v1
  let v3 : Vec3 := if m1.ZCollision then { v2 with Z := 0 } else v2
  { p with mInfo := { m1 with ServerMovement := v3 } }

/-- `Player.simulateJump`. -/
def simulateJump (w : World) (p : Player) : Player :=
  let v : Vec3 := { p.mInfo.ServerMovement with Y := p.mInfo.JumpVelocity }
  if ! p.mInfo.Sprinting then p.setServerMovement v
  else
    let force := p.Rotation.Z * (17453292 / 1000000000)
    p.setServerMovement
      { v with X := v.X - w.MCSin force * (1 / 5), Z := v.Z + w.MCCos force * (1 / 5) }

/-- `Player.simulateGravity`. -/
def simulateGravity (p : Player) : Player :=
  p.setServerMovement
    { p.mInfo.ServerMovement with
      Y := (p.mInfo.ServerMovement.Y - p.mInfo.Gravity) * GravityMultiplier }

/-- `Player.simulateHorizontalFriction`. -/
def simulateHorizontalFriction (p : Player) (friction : ℚ) : Player :=
  p.setServerMovement
    { p.mInfo.ServerMovement with
      X := p.mInfo.ServerMovement.X * friction, Z := p.mInfo.ServerMovement.Z * friction }

/-- `Player.collideWithBlocks`. -/
def collideWithBlocks (w : World) (vel : Vec3) (bb : BBox) (list : List BBox) : Vec3 :=
  if list.length = 0 then vel
  else
    let ry : BBox × ℚ :=
      if vel.Y ≠ 0 then w.DoBoxCollision CollisionAxis.CollisionY bb list vel.Y else (bb, vel.Y)
    let flag : Bool := decide (|vel.X| < |vel.Z|)
    let rz1 : BBox × ℚ :=
      if flag = true ∧ vel.Z ≠ 0 then w.DoBoxCollision CollisionAxis.CollisionZ ry.1 list vel.Z
      else (ry.1, vel.Z)
    let rx : BBox × ℚ :=
      if vel.X ≠ 0 then w.DoBoxCollision CollisionAxis.CollisionX rz1.1 list vel.X
      else (rz1.1, vel.X)
    let rz2 : BBox × ℚ :=
      if flag = false ∧ rz1.2 ≠ 0 then w.DoBoxCollision CollisionAxis.CollisionZ rx.1 list rz1.2
      else (rx.1, rz1.2)
    Vec3.mk rx.2 ry.2 rz2.2

/-- The velocity `newVel` that `collide` gets from the normal resolve. -/
def collideNormal (w : World) (p : Player) : Vec3 :=
  if Vec3.LenSqr p.mInfo.ServerMovement > 0 then
    collideWithBlocks w p.mInfo.ServerMovement p.AABB
      (w.GetNearbyBBoxes (p.AABB.Extend p.mInfo.ServerMovement))
  else p.mInfo.ServerMovement

/-- The condition of the step-up branch of `collide`:
`hasGroundState && (xCollision || zCollision)`. -/
def stepConsidered (w : World) (p : Player) : Bool :=
  let currVel := p.mInfo.ServerMovement
  let newVel := collideNormal w p
  let xCollision := decide (currVel.X ≠ newVel.X)
  let yCollision := decide (currVel.Y ≠ newVel.Y)
  let zCollision := decide (currVel.Z ≠ newVel.Z)
  let hasGroundState := p.mInfo.OnGround || (yCollision && decide (currVel.Y < 0))
  hasGroundState && (xCollision || zCollision)

/-- The velocity `stepVel` that the step-up branch of `collide` computes. -/
def collideStep (w : World) (p : Player) : Vec3 :=
  let currVel := p.mInfo.ServerMovement
  let stepVel : Vec3 := Vec3.mk currVel.X StepHeight currVel.Z
  let list := w.GetNearbyBBoxes (p.AABB.Extend stepVel)
  let r1 := w.DoBoxCollision CollisionAxis.CollisionY p.AABB list stepVel.Y
  let r2 := w.DoBoxCollision CollisionAxis.CollisionX r1.1 list stepVel.X
  let r3 := w.DoBoxCollision CollisionAxis.CollisionZ r2.1 list stepVel.Z
  let r4 := w.DoBoxCollision CollisionAxis.CollisionY r3.1 list (-(r1.2))
  Vec3.mk r2.2 (r1.2 + r4.2) r3.2

/-- `Player.collide`. -/
def collide (w : World) (p : Player) : Player :=
  let newVel := collideNormal w p
  if stepConsidered w p then
    let stepVel := collideStep w p
    if Vec3HzDistSqr newVel < Vec3HzDistSqr stepVel then
      { p with mInfo := { p.mInfo with StepClipOffset := p.mInfo.StepClipOffset + stepVel.Y,
                                       ServerMovement := stepVel },
               AABB := p.AABB.Translate stepVel }
    else
      { p with mInfo := { p.mInfo with ServerMovement := newVel },
               AABB := p.AABB.Translate newVel }
  else
    { p with mInfo := { p.mInfo with ServerMovement := newVel },
             AABB := p.AABB.Translate newVel }

/-- Rounding to the nearest integer, a tie going to the even one. -/
def roundHalfEven (y : ℚ) : ℤ :=
  if y - ⌊y⌋ < 1 / 2 then ⌊y⌋
  else if y - ⌊y⌋ > 1 / 2 then ⌊y⌋ + 1
  else if ⌊y⌋ % 2 = 0 then ⌊y⌋ else ⌊y⌋ + 1

/-- The spacing of the float32 values around `x`: 24 significant bits, with
the exponent not below that of the smallest normal number. -/
def float32Ulp (x : ℚ) : ℚ := (2 : ℚ) ^ (max (Int.log 2 |x|) (-126) - 23)

/-- The float32 nearest to `x`, a tie going to the even significand. Values
beyond the largest finite float32 are outside the model. -/
def float32Round (x : ℚ) : ℚ := roundHalfEven (x / float32Ulp x) * float32Ulp x

/-- One pass of the body of a back-off loop on one component, with
`d2 = 0.05`. The results of `d0 -= d2` and `d0 += d2` are rounded to float32:
above `2 ^ 20` the rounding gives `d0` back, and whether the loop exits
depends on it. -/
def backOffStep (d : ℚ) : ℚ :=
  if d < 1 / 20 ∧ d ≥ -(1 / 20) then 0
  else if d > 0 then float32Round (d - 1 / 20)
  else float32Round (d + 1 / 20)

/-- The loop `for cond(a) { a = step(a) }` with at most `fuel` passes of its
body: the value on exit, or `none` when the condition still holds after them. -/
def loopFuel {α : Type} (cond : α → Bool) (step : α → α) : Nat → α → Option α
  | 0, a => if cond a then none else some a
  | fuel + 1, a => if cond a then loopFuel cond step fuel (step a) else some a

/-- The condition of the first loop of `maybeBackOffFromEdge`. -/
def backOffXCond (w : World) (bb : BBox) (d0 : ℚ) : Bool :=
  decide (d0 ≠ 0 ∧ (w.GetNearbyBBoxes (bb.Translate (Vec3.mk d0 (-StepHeight) 0))).length = 0)

/-- The condition of the second loop of `maybeBackOffFromEdge`. -/
def backOffZCond (w : World) (bb : BBox) (d1 : ℚ) : Bool :=
  decide (d1 ≠ 0 ∧ (w.GetNearbyBBoxes (bb.Translate (Vec3.mk 0 (-StepHeight) d1))).length = 0)

/-- The condition of the third loop of `maybeBackOffFromEdge`. -/
def backOffXZCond (w : World) (bb : BBox) (d : ℚ × ℚ) : Bool :=
  decide (d.1 ≠ 0 ∧ d.2 ≠ 0
    ∧ (w.GetNearbyBBoxes (bb.Translate (Vec3.mk d.1 (-StepHeight) d.2))).length = 0)

/-- The body of the third loop of `maybeBackOffFromEdge`. -/
def backOffStepXZ (d : ℚ × ℚ) : ℚ × ℚ := (backOffStep d.1, backOffStep d.2)

/-- The first loop of `maybeBackOffFromEdge`, on `d0`, with at most `fuel`
passes. -/
def backOffX (w : World) (bb : BBox) (fuel : Nat) (d0 : ℚ) : Option ℚ :=
  loopFuel (backOffXCond w bb) backOffStep fuel d0

/-- The second loop of `maybeBackOffFromEdge`, on `d1`, with at most `fuel`
passes. -/
def backOffZ (w : World) (bb : BBox) (fuel : Nat) (d1 : ℚ) : Option ℚ :=
  loopFuel (backOffZCond w bb) backOffStep fuel d1

/-- The third loop of `maybeBackOffFromEdge`, on the pair `(d0, d1)`, with at
most `fuel` passes. -/
def backOffXZ (w : World) (bb : BBox) (fuel : Nat) (d : ℚ × ℚ) : Option (ℚ × ℚ) :=
  loopFuel (backOffXZCond w bb) backOffStepXZ fuel d

/-- A number of passes that is enough for a back-off loop started at `d`
whenever every pass brings the component at least `1 / 64` closer to zero, as
the float32 subtraction of `0.05` does up to `2 ^ 20`. -/
def backOffFuel (d : ℚ) : Nat := (⌈|d| * 64⌉).toNat

/-- The three loops of `maybeBackOffFromEdge` in sequence, each with the passes
of `backOffFuel`: the pair `(d0, d1)` they end with, or `none` when one of them
has not exited. -/
def backOffLoops (w : World) (bb : BBox) (x z : ℚ) : Option (ℚ × ℚ) :=
  match backOffX w bb (backOffFuel x) x with
  | none => none
  | some d0 =>
    match backOffZ w bb (backOffFuel z) z with
    | none => none
    | some d1 => backOffXZ w bb (backOffFuel d0) (d0, d1)

/-- `Player.maybeBackOffFromEdge`. Where a loop does not exit the Go function
does not return; `backOffLoops` is `none` there, and the player is left as it
is. -/
def maybeBackOffFromEdge (w : World) (p : Player) : Player :=
  if (! p.mInfo.Sneaking || ! p.mInfo.OnGround) = true ∨ p.mInfo.ServerMovement.Y > 0 then p
  else
    let currentVel := p.mInfo.ServerMovement
    if currentVel.Y > 0 then p
    else
      match backOffLoops w p.AABB currentVel.X currentVel.Z with
      | none => p
      | some d => p.setServerMovement (Vec3.mk d.1 currentVel.Y d.2)

end Movement

namespace Movement

/-- `Player.simulateAddedMovementForce`. -/
def simulateAddedMovementForce (w : World) (p : Player) (f : ℚ) : Player :=
  let v := p.mInfo.ForwardImpulse ^ 2 + p.mInfo.LeftImpulse ^ 2
  if v < 1 / 10000 then p
  else
    let v1 := w.Sqrt v
    let v2 := if v1 < 1 then 1 else v1
    let v3 := f / v2
    let mf := p.mInfo.ForwardImpulse * v3
    let ms := p.mInfo.LeftImpulse * v3
    let sin := w.MCSin (p.Rotation.Z * float32Pi / 180)
    let cos := w.MCCos (p.Rotation.Z * float32Pi / 180)
    p.setServerMovement
      { p.mInfo.ServerMovement with
        X := p.mInfo.ServerMovement.X + (ms * cos - mf * sin),
        Z := p.mInfo.ServerMovement.Z + (ms * sin + mf * cos) }

/-- The state of `travel` when it reaches `p.collide()`: the player, and the
locals `blockFriction` and `nearClimableBlock`. -/
structure TravelStage where
  player : Player
  blockFriction : ℚ
  nearClimableBlock : Bool

/-- The first part of `Player.travel`, up to and including
`p.maybeBackOffFromEdge()`. -/
def travelBeforeCollide (w : World) (p : Player) : TravelStage :=
  let p1 : Player :=
    if p.mInfo.StepClipOffset > 0 then
      { p with mInfo := { p.mInfo with
          StepClipOffset := p.mInfo.StepClipOffset * StepClipMultiplier } }
    else p
  let blockFriction : ℚ :=
    if p1.mInfo.OnGround then
      match (w.Block (PosFromVec3 p1.mInfo.ServerPosition).down).Friction with
      | some f => w.DefaultAirFriction * f
      | none => w.DefaultAirFriction * (3 / 5)
    else w.DefaultAirFriction
  let v3 := p1.mInfo.getFrictionInfluencedSpeed blockFriction
  let p2 := simulateAddedMovementForce w p1 v3
  let nearClimableBlock := (w.Block (PosFromVec3 p2.mInfo.ServerPosition)).Climbable
  let p3 : Player :=
    if nearClimableBlock then
      let v := p2.mInfo.ServerMovement
      let vx : Vec3 := { v with X := ClampFloat v.X (-(1 / 5)) (1 / 5) }
      let vz : Vec3 := { vx with Z := ClampFloat vx.Z (-(1 / 5)) (1 / 5) }
      let vy : Vec3 := if vz.Y < -(1 / 5) then { vz with Y := -(1 / 5) } else vz
      let vs : Vec3 := if p2.mInfo.Sneaking = true ∧ vy.Y < 0 then { vy with Y := 0 } else vy
      p2.setServerMovement vs
    else p2
  { player := maybeBackOffFromEdge w p3,
    blockFriction := blockFriction,
    nearClimableBlock := nearClimableBlock }

/-- The lines `oldMov := p.mInfo.ServerMovement` to `p.checkCollisions(oldMov)`
of `Player.travel`. -/
def travelResolve (w : World) (p : Player) : Player :=
  let oldMov := p.mInfo.ServerMovement
  let p5 := collide w p
  let p6 : Player :=
    { p5 with mInfo := { p5.mInfo with
        ServerPosition := Vec3.Add p5.mInfo.ServerPosition p5.mInfo.ServerMovement } }
  checkCollisions oldMov p6

/-- The last part of `Player.travel`, after `p.checkCollisions(oldMov)`. -/
def travelAfterCollisions (w : World) (blockFriction : ℚ) (nearClimableBlock : Bool)
    (p : Player) : Player :=
  let p8 := checkUnsupportedMovementScenarios w p
  let p9 : Player :=
    { p8 with mInfo := { p8.mInfo with OldServerMovement := p8.mInfo.ServerMovement } }
  let p10 : Player :=
    if ! p9.mInfo.InUnsupportedRewindScenario then
      simulateHorizontalFriction (simulateGravity p9) blockFriction
    else p9
  if nearClimableBlock && (p10.mInfo.HorizontallyCollided || p10.mInfo.JumpBindPressed) then
    p10.setServerMovement { p10.mInfo.ServerMovement with Y := 1 / 5 }
  else p10

/-- `Player.travel`. -/
def travel (w : World) (p : Player) : Player :=
  let s := travelBeforeCollide w p
  travelAfterCollisions w s.blockFriction s.nearClimableBlock (travelResolve w s.player)

/-- The first part of `Player.aiStep`: the reset of an immobile player and the
deadzone on the three components of the server movement. -/
def aiStepDeadzone (p : Player) : Player :=
  let p1 : Player :=
    if p.mInfo.Immobile = true ∨ ¬ p.inLoadedChunk = true then
      { p with mInfo := { p.mInfo with ForwardImpulse := 0, LeftImpulse := 0, Jumping := false,
                                       ServerMovement := Vec3.mk 0 0 0 } }
    else p
  let v := p1.mInfo.ServerMovement
  let vx : Vec3 := if |v.X| < 3 / 1000 then { v with X := 0 } else v
  let vy : Vec3 := if |vx.Y| < 3 / 1000 then { vx with Y := 0 } else vx
  let vz : Vec3 := if |vy.Z| < 3 / 1000 then { vy with Z := 0 } else vy
  p1.setServerMovement vz

/-- The middle part of `Player.aiStep`: the flying speed, the seed from the
motion the server sent, and the jump. -/
def aiStepBeforeTravel (w : World) (p : Player) : Player :=
  let p1 : Player :=
    { p with mInfo := { p.mInfo with
        FlyingSpeed := if p.mInfo.Sprinting then 1 / 50 + 3 / 500 else 1 / 50 } }
  let p2 : Player :=
    if p1.mInfo.MotionTicks = 0 then p1.setServerMovement p1.mInfo.ServerSentMovement else p1
  let p3 : Player :=
    if ! p2.mInfo.JumpBindPressed then
      { p2 with mInfo := { p2.mInfo with JumpCooldownTicks := 0 } }
    else p2
  if p3.mInfo.JumpBindPressed = true ∧ p3.mInfo.OnGround = true ∧ p3.mInfo.JumpCooldownTicks ≤ 0 then
    let p4 := simulateJump w p3
    { p4 with mInfo := { p4.mInfo with JumpCooldownTicks := 10 } }
  else p3

/-- `Player.aiStep`. -/
def aiStep (w : World) (p : Player) : Player :=
  checkUnsupportedMovementScenarios w (travel w (aiStepBeforeTravel w (aiStepDeadzone p)))

/-- `Player.correctMovement`. -/
def correctMovement (w : World) (p : Player) : Player :=
  if p.movementMode ≠ AuthorityMode.ModeFullAuthoritative then p
  else if (p.mInfo.CanExempt || p.mInfo.Teleporting || p.mInfo.InUnsupportedRewindScenario) = true
  then p
  else
    let pos := p.mInfo.ServerPosition
    let delta := p.mInfo.ServerMovement
    let p1 : Player :=
      if p.mInfo.RefreshBlockTicks ≥ 30 then
        { p with
          written := p.written ++ (w.GetNearbyBlocks p.AABB).map (fun e =>
            Written.UpdateBlock
              (BlockPos.mk (wrapInt32 e.1.X) (wrapInt32 e.1.Y) (wrapInt32 e.1.Z)) e.2.RuntimeID),
          mInfo := { p.mInfo with RefreshBlockTicks := 0 } }
      else p
    let p2 : Player :=
      match p1.lastSentActorData with
      | some a => { p1 with written := p1.written ++ [Written.ActorData a] }
      | none => p1
    let p3 : Player :=
      match p2.lastSentAttributes with
      | some a => { p2 with written := p2.written ++ [Written.Attributes a] }
      | none => p2
    { p3 with written := p3.written ++
        [Written.CorrectPlayerMovePrediction (Vec3.Add pos (Vec3.mk 0 (81 / 50 + 1 / 1000) 0))
          delta p3.mInfo.OnGround p3.ClientFrame] }

/-- `Player.validateMovement`. -/
def validateMovement (w : World) (p : Player) : Player :=
  if p.movementMode ≠ AuthorityMode.ModeFullAuthoritative then p
  else
    let posDiff := Vec3.Sub p.mInfo.ServerPosition p.Position
    if Vec3.LenSqr posDiff ≤ 9 / 100 + p.mInfo.StepClipOffset ^ 2 then p
    else
      let p1 : Player :=
        if p.debuggerMovement then { p with written := p.written ++ [Written.OomphDebug] } else p
      correctMovement w p1

/-- The exemption condition of `updateMovementState`. -/
def exemptCondition (p : Player) : Bool :=
  decide (p.inLoadedChunkTicks < 100) || ! p.ready || p.mInfo.InVoid || p.mInfo.Flying
    || p.mInfo.NoClip

/-- `Player.updateMovementState`. -/
def updateMovementState (w : World) (p : Player) : Player × Bool :=
  if exemptCondition p then
    let p1 : Player :=
      { p with
        mInfo := { p.mInfo with OnGround := true, VerticallyCollided := true,
                                ServerPosition := p.Position,
                                OldServerMovement := p.mInfo.ClientMovement,
                                ServerMovement := p.mInfo.ClientPredictedMovement,
                                CanExempt := true },
        AABB := p.AABB.Translate p.mInfo.ClientMovement }
    ({ p1 with mInfo := p1.mInfo.UpdateTickStatus }, ! true)
  else
    let p1 : Player := { p with mInfo := { p.mInfo with InUnsupportedRewindScenario := false } }
    let exempt := p1.mInfo.CanExempt
    let p2 := aiStep w p1
    let p3 : Player := { p2 with mInfo := { p2.mInfo with CanExempt := false } }
    ({ p3 with mInfo := p3.mInfo.UpdateTickStatus }, ! exempt)

/-! ### Start of the game (`src/player/network.go`) -/

/-- `protocol.PlayerMovementModeServerWithRewind`. -/
def PlayerMovementModeServerWithRewind : Int := 2

/-- `protocol.PlayerMovementSettings`. -/
structure PlayerMovementSettings where
  MovementType : Int
  RewindHistorySize : Int
  ServerAuthoritativeBlockBreaking : Bool
deriving DecidableEq

/-- `minecraft.GameData`: the movement settings, the start position, and the
remaining fields, which `StartGameContext` does not name. -/
structure GameData (γ : Type) where
  PlayerMovementSettings : PlayerMovementSettings
  PlayerPosition : Vec3
  rest : γ

/-- `Player.StartGameContext`: the player after the call, and the data passed
on to `p.conn.StartGameContext`. -/
def StartGameContext {γ : Type} (p : Player) (data : GameData γ) : Player × GameData γ :=
  let data1 : GameData γ :=
    { data with PlayerMovementSettings :=
        { data.PlayerMovementSettings with MovementType := PlayerMovementModeServerWithRewind } }
  let data2 : GameData γ :=
    { data1 with PlayerMovementSettings :=
        { data1.PlayerMovementSettings with RewindHistorySize := 100 } }
  let p1 : Player :=
    { p with mInfo := { p.mInfo with
        ServerPosition := Vec3.Sub data2.PlayerPosition (Vec3.mk 0 (81 / 50) 0) } }
  let p2 : Player := { p1 with mInfo := { p1.mInfo with OnGround := true } }
  (p2, data2)

end Movement

namespace Movement

/-! ### Box collision, from the spec -/

/-- The coordinate of a vector along an axis. -/
def CollisionAxis.coord (a : CollisionAxis) (v : Vec3) : ℚ :=
  match a with
  | CollisionAxis.CollisionX => v.X
  | CollisionAxis.CollisionY => v.Y
  | CollisionAxis.CollisionZ => v.Z

/-- The vector of length `d` along an axis. -/
def CollisionAxis.vec (a : CollisionAxis) (d : ℚ) : Vec3 :=
  match a with
  | CollisionAxis.CollisionX => Vec3.mk d 0 0
  | CollisionAxis.CollisionY => Vec3.mk 0 d 0
  | CollisionAxis.CollisionZ => Vec3.mk 0 0 d

/-- The two boxes overlap along the axis `a`. -/
def overlapsOn (a : CollisionAxis) (bb nearby : BBox) : Bool :=
  decide (a.coord bb.max > a.coord nearby.min ∧ a.coord bb.min < a.coord nearby.max)

/-- The two boxes overlap in the two axes other than `a`. -/
def overlapsOthers (a : CollisionAxis) (bb nearby : BBox) : Bool :=
  match a with
  | CollisionAxis.CollisionX =>
    overlapsOn CollisionAxis.CollisionY bb nearby && overlapsOn CollisionAxis.CollisionZ bb nearby
  | CollisionAxis.CollisionY =>
    overlapsOn CollisionAxis.CollisionX bb nearby && overlapsOn CollisionAxis.CollisionZ bb nearby
  | CollisionAxis.CollisionZ =>
    overlapsOn CollisionAxis.CollisionX bb nearby && overlapsOn CollisionAxis.CollisionY bb nearby

/-- Modelled from the spec: the test `utils.DoBoxCollision` makes for one
candidate box. "If it overlaps in the other two axes and the candidate
restricts motion along `axis`, reduce `v` so the AABB lands exactly flush." -/
def axisOffset (a : CollisionAxis) (bb nearby : BBox) (delta : ℚ) : ℚ :=
  if overlapsOthers a bb nearby then
    if delta > 0 ∧ a.coord bb.max ≤ a.coord nearby.min
        ∧ a.coord nearby.min - a.coord bb.max < delta then
      a.coord nearby.min - a.coord bb.max
    else if delta < 0 ∧ a.coord bb.min ≥ a.coord nearby.max
        ∧ a.coord nearby.max - a.coord bb.min > delta then
      a.coord nearby.max - a.coord bb.min
    else delta
  else delta

/-- Modelled from the spec: `utils.DoBoxCollision`, which is not part of the
sources. "For each axis, `DoBoxCollision(axis, bb, list, v)` tests every
candidate box in `list` [...]. Return the reduced `v` and the translated bb." -/
def DoBoxCollision (a : CollisionAxis) (bb : BBox) (list : List BBox) (v : ℚ) : BBox × ℚ :=
  let d := list.foldl (fun d nearby => axisOffset a bb nearby d) v
  (bb.Translate (a.vec d), d)

/-- Modelled from the spec: the resolution order the spec describes for
`collideWithBlocks`, to compare with the one of the code. "Y first. Then
whichever of X, Z has smaller absolute velocity is resolved second. Then the
other." -/
def collideSmallerFirst (w : World) (vel : Vec3) (bb : BBox) (list : List BBox) : Vec3 :=
  let ry := w.DoBoxCollision CollisionAxis.CollisionY bb list vel.Y
  if |vel.X| < |vel.Z| then
    let rx := w.DoBoxCollision CollisionAxis.CollisionX ry.1 list vel.X
    let rz := w.DoBoxCollision CollisionAxis.CollisionZ rx.1 list vel.Z
    Vec3.mk rx.2 ry.2 rz.2
  else
    let rz := w.DoBoxCollision CollisionAxis.CollisionZ ry.1 list vel.Z
    let rx := w.DoBoxCollision CollisionAxis.CollisionX rz.1 list vel.X
    Vec3.mk rx.2 ry.2 rz.2

end Movement

/-! ## Chunk acknowledgements (`src/player/component/acknowledgement/chunks.go`) -/

namespace acknowledgement

/-- `protocol.SubChunkResultSuccess`. -/
def SubChunkResultSuccess : Nat := 1

/-- `protocol.SubChunkResultSuccessAllAir`. -/
def SubChunkResultSuccessAllAir : Nat := 6

/-- A chunk position (`protocol.ChunkPos`). -/
structure ChunkPos where
  X : Int
  Z : Int
deriving DecidableEq

/-- A decoded chunk (`chunk.Chunk`): its sub-chunks, each an opaque value. -/
structure Chunk where
  sub : List Nat
deriving DecidableEq

/-- The reasons the acknowledgements disconnect with. -/
inductive Reason where
  /-- The text `game.ErrorChunkCacheUnsupported`. -/
  | ErrorChunkCacheUnsupported
  /-- The text `game.ErrorInternalDecodeChunk`, formatted with the decode error. -/
  | ErrorInternalDecodeChunk (err : String)
deriving DecidableEq

/-- What the acknowledgements do outside the world shadow, in call order. -/
inductive Call where
  /-- The call `ack.mPlayer.Disconnect(reason)`. -/
  | Disconnect (reason : Reason)
  /-- The call `chunk.NetworkDecode` on a `LevelChunk` payload. -/
  | NetworkDecode (payload : List Nat)
  /-- The call `utils.DecodeSubChunk` on the payload of an entry. -/
  | DecodeSubChunk (payload : List Nat)
  /-- The call `ack.mPlayer.World().GetChunk(pos)`. -/
  | GetChunk (pos : ChunkPos)
  /-- The call `chunk.New`. -/
  | NewChunk (pos : ChunkPos)
  /-- The call `ack.mPlayer.World().AddChunk(pos, c)`. -/
  | AddChunk (pos : ChunkPos)
  /-- The call `ack.mPlayer.Dbg.Notify` with the given format. -/
  | Notify (format : String)
  /-- The call `fmt.Println(c)`. -/
  | Println
  /-- An index out of range in `c.Sub()[index] = sub`. -/
  | IndexPanic
deriving DecidableEq

/-- The decoders and the empty chunk, whose bodies are outside the sources:
`chunk.NetworkDecode`, `utils.DecodeSubChunk` (the index it stores and the
sub-chunk it returns, or the error) and `chunk.New`. -/
structure Decoders where
  NetworkDecode : List Nat → Int → Except String Chunk
  DecodeSubChunk : List Nat → Chunk → Except String (Nat × Nat)
  New : Chunk

/-- The chunks of the world shadow, by position. -/
abbrev Chunks := List (ChunkPos × Chunk)

/-- The chunk stored at a position, if any. -/
def Chunks.get (m : Chunks) (pos : ChunkPos) : Option Chunk :=
  match m with
  | [] => none
  | e :: m => if e.1 = pos then some e.2 else Chunks.get m pos

/-- The chunks with the one at `pos` replaced, or added when there is none. -/
def Chunks.put (m : Chunks) (pos : ChunkPos) (c : Chunk) : Chunks :=
  match m with
  | [] => [(pos, c)]
  | e :: m => if e.1 = pos then (pos, c) :: m else e :: Chunks.put m pos c

/-- A `LevelChunk` packet. -/
structure LevelChunk where
  CacheEnabled : Bool
  RawPayload : List Nat
  SubChunkCount : Int
deriving DecidableEq

/-- An entry of a `SubChunk` packet (`protocol.SubChunkEntry`). -/
structure SubChunkEntry where
  Offset : Int × Int × Int
  Result : Nat
  RawPayload : List Nat
deriving DecidableEq

/-- A `SubChunk` packet. -/
structure SubChunk where
  CacheEnabled : Bool
  Position : Int × Int × Int
  SubChunkEntries : List SubChunkEntry
deriving DecidableEq

/-- The world shadow of the player and the calls made so far. -/
structure State where
  world : Chunks
  calls : List Call
deriving DecidableEq

/-- `ChunkUpdate.Run`. -/
def ChunkUpdate.Run (d : Decoders) (pk : LevelChunk) (s : State) : State :=
  if pk.CacheEnabled then
    { s with calls := s.calls ++ [Call.Disconnect Reason.ErrorChunkCacheUnsupported] }
  else
    match d.NetworkDecode pk.RawPayload pk.SubChunkCount with
    | Except.error err =>
      { s with calls := s.calls ++ [Call.NetworkDecode pk.RawPayload,
                                    Call.Disconnect (Reason.ErrorInternalDecodeChunk err)] }
    | Except.ok _ =>
      { s with calls := s.calls ++ [Call.NetworkDecode pk.RawPayload, Call.Println] }

/-- The entry loop of `SubChunkUpdate.Run` on the entries still to handle, with
the map `newChunks` so far. The result holds `newChunks`, the state, and
whether the function returned from inside the loop. The scratch buffer taken
from `internal.BufferPool` is left out. -/
def subChunkLoop (d : Decoders) (position : Int × Int × Int) :
    List SubChunkEntry → Chunks → State → Chunks × State × Bool
  | [], newChunks, s => (newChunks, s, false)
  | entry :: entries, newChunks, s =>
    if entry.Result ≠ SubChunkResultSuccess then
      subChunkLoop d position entries newChunks
        { s with calls := s.calls ++ [Call.Notify "unhandled subchunk result %d @ %v"] }
    else
      let chunkPos : ChunkPos :=
        ChunkPos.mk (Movement.wrapInt32 (position.1 + entry.Offset.1))
          (Movement.wrapInt32 (position.2.2 + entry.Offset.2.2))
      let found : (Chunk × Bool) × Chunks × List Call :=
        match Chunks.get newChunks chunkPos with
        | some c => ((c, true), newChunks, [Call.Notify "reusing chunk in map %v"])
        | none =>
          match Chunks.get s.world chunkPos with
          | some c => ((c, false), newChunks,
              [Call.GetChunk chunkPos, Call.Notify "using existing chunk %v"])
          | none => ((d.New, true), Chunks.put newChunks chunkPos d.New,
              [Call.GetChunk chunkPos, Call.NewChunk chunkPos, Call.Notify "new chunk at %v"])
      let c := found.1.1
      let isNew := found.1.2
      let newChunks1 := found.2.1
      let s1 : State := { s with calls := s.calls ++ found.2.2 }
      if entry.Result ≠ SubChunkResultSuccessAllAir then
        match d.DecodeSubChunk entry.RawPayload c with
        | Except.error err =>
          (newChunks1,
            { s1 with calls := s1.calls ++ [Call.DecodeSubChunk entry.RawPayload,
                Call.Disconnect (Reason.ErrorInternalDecodeChunk err)] }, true)
        | Except.ok r =>
          if r.1 < c.sub.length then
            let c1 : Chunk := { sub := c.sub.set r.1 r.2 }
            let calls := s1.calls ++ [Call.DecodeSubChunk entry.RawPayload,
              Call.Notify "decoded subchunk %d at %v"]
            if isNew then
              subChunkLoop d position entries (Chunks.put newChunks1 chunkPos c1)
                { s1 with calls := calls }
            else
              subChunkLoop d position entries newChunks1
                { world := Chunks.put s1.world chunkPos c1, calls := calls }
          else
            (newChunks1,
              { s1 with calls := s1.calls ++ [Call.DecodeSubChunk entry.RawPayload,
                  Call.IndexPanic] }, true)
      else subChunkLoop d position entries newChunks1 s1

/-- Modelled from the spec: the final loop of `SubChunkUpdate.Run`, which hands
every chunk of `newChunks` to `World().AddChunk` (`add_chunk(pos, chunk_value)`
of the world shadow, not part of the sources). -/
def addNewChunks : Chunks → State → State
  | [], s => s
  | e :: m, s =>
    addNewChunks m
      { world := Chunks.put s.world e.1 e.2,
        calls := s.calls ++ [Call.AddChunk e.1, Call.Notify "(sub) added chunk at %v"] }

/-- `SubChunkUpdate.Run`. -/
def SubChunkUpdate.Run (d : Decoders) (pk : SubChunk) (s : State) : State :=
  if pk.CacheEnabled then
    { s with calls := s.calls ++ [Call.Disconnect Reason.ErrorChunkCacheUnsupported] }
  else
    let r := subChunkLoop d pk.Position pk.SubChunkEntries [] s
    if r.2.2 then r.2.1 else addNewChunks r.1 r.2.1

end acknowledgement

namespace Movement

/-! ### Example worlds and players -/

/-- `cube.BBox.IntersectsWith`: the boxes overlap in all three axes. -/
def BBox.IntersectsWith (a b : BBox) : Bool :=
  overlapsOn CollisionAxis.CollisionX a b && overlapsOn CollisionAxis.CollisionY a b
    && overlapsOn CollisionAxis.CollisionZ a b

/-- An air block. -/
def airBlock : WorldBlock := { RuntimeID := 0, Liquid := false, Friction := none, Climbable := false }

/-- A world of air that holds the given block boxes: the nearby boxes of a box
are the ones it intersects, collisions are resolved by `DoBoxCollision`, and
the air friction is 0.91. The trigonometric helpers and the root are only
reached with an impulse, which the examples do not have. -/
def boxWorld (boxes : List BBox) : World where
  Block := fun _ => airBlock
  GetNearbyBBoxes := fun q => boxes.filter (fun b => q.IntersectsWith b)
  GetNearbyBlocks := fun _ => []
  DoBoxCollision := DoBoxCollision
  MCSin := fun _ => 0
  MCCos := fun _ => 1
  Sqrt := fun x => x
  DefaultAirFriction := 91 / 100

/-- The unit box at the origin, as the box of a player. -/
def unitBox : BBox := BBox.mk (Vec3.mk 0 0 0) (Vec3.mk 1 1 1)

/-- A block box diagonally ahead of `unitBox`, towards positive X and Z. -/
def cornerBox : BBox := BBox.mk (Vec3.mk (11 / 10) 0 (6 / 5)) (Vec3.mk (21 / 10) 1 (11 / 5))

end Movement

namespace Movement

/-- The step-up branch of `collide` is entered and its result replaces the
normal one: `hasGroundState && (xCollision || zCollision)` and
`game.Vec3HzDistSqr(newVel) < game.Vec3HzDistSqr(stepVel)`. -/
def stepAccepted (w : World) (p : Player) : Bool :=
  stepConsidered w p && decide (Vec3HzDistSqr (collideNormal w p) < Vec3HzDistSqr (collideStep w p))

/-- A movement record at rest: no velocity, no key pressed, gravity 0.08, jump
velocity 0.42, speed 0.1, standing on the ground at the origin. -/
def restingInfo : MovementInfo where
  CanExempt := false
  InUnsupportedRewindScenario := false
  ForwardImpulse := 0
  LeftImpulse := 0
  JumpVelocity := 21 / 50
  FlyingSpeed := 1 / 50
  Gravity := 2 / 25
  Speed := 1 / 10
  StepClipOffset := 0
  MotionTicks := 5
  RefreshBlockTicks := 0
  JumpCooldownTicks := 0
  Sneaking := false
  SneakBindPressed := false
  Jumping := false
  JumpBindPressed := false
  Sprinting := false
  SprintBindPressed := false
  Teleporting := false
  Immobile := false
  CanFly := false
  Flying := false
  NoClip := false
  IsCollided := false
  VerticallyCollided := true
  HorizontallyCollided := false
  XCollision := false
  ZCollision := false
  OnGround := true
  InVoid := false
  ClientPredictedMovement := Vec3.mk 0 0 0
  ClientMovement := Vec3.mk 0 0 0
  ServerSentMovement := Vec3.mk 0 0 0
  ServerMovement := Vec3.mk 0 0 0
  OldServerMovement := Vec3.mk 0 0 0
  ServerPosition := Vec3.mk 0 0 0

/-- A ready player in full authority mode, in a loaded chunk for 200 ticks, with
the given movement record and a box 0.6 wide and 1.8 high at the origin. -/
def playerWith (m : MovementInfo) : Player where
  inLoadedChunkTicks := 200
  ready := true
  inLoadedChunk := true
  movementMode := AuthorityMode.ModeFullAuthoritative
  debuggerMovement := false
  mInfo := m
  Position := Vec3.mk 0 0 0
  AABB := BBox.mk (Vec3.mk 0 0 0) (Vec3.mk (3 / 5) (9 / 5) (3 / 5))
  Rotation := Vec3.mk 0 0 0
  ClientFrame := 40
  lastSentActorData := none
  lastSentAttributes := none
  written := []

/-- A slab half a block high, a tenth of a block ahead of the player of
`playerWith` towards positive X. -/
def slabAhead : BBox := BBox.mk (Vec3.mk (7 / 10) 0 0) (Vec3.mk (17 / 10) (1 / 2) 1)

end Movement

namespace Movement

/-- The player of a full step of `updateMovementState` at the moment `travel`
reaches `p.collide()`. -/
def fullStepBeforeCollide (w : World) (p : Player) : Player :=
  (travelBeforeCollide w (aiStepBeforeTravel w (aiStepDeadzone
    { p with mInfo := { p.mInfo with InUnsupportedRewindScenario := false } }))).player

/-- A floor under the player of `playerWith`: a box ten blocks wide with its top
at height zero. -/
def floorBox : BBox := BBox.mk (Vec3.mk (-5) (-1) (-5)) (Vec3.mk 5 0 5)

end Movement

namespace Movement

/-- The player of `playerWith` whose server position is one block away from the
client position, with the given `CanExempt`. -/
def driftedPlayer (canExempt : Bool) : Player :=
  playerWith { restingInfo with CanExempt := canExempt, ServerPosition := Vec3.mk 1 0 0 }

end Movement

namespace Movement

/-- The step-clip offset after the first statement of `travel`:
`if p.mInfo.StepClipOffset > 0 { p.mInfo.StepClipOffset *= game.StepClipMultiplier }`. -/
def decayedOffset (o : ℚ) : ℚ := if o > 0 then o * StepClipMultiplier else o

/-- The player with `p.mInfo.StepClipOffset` replaced. -/
def Player.withOffset (p : Player) (o : ℚ) : Player :=
  { p with mInfo := { p.mInfo with StepClipOffset := o } }

/-- The step-clip offset after `updateMovementState` in the world `w`, for the
player `p` entering the step with the offset `o`. -/
def stepOffset (w : World) (p : Player) (o : ℚ) : ℚ :=
  (updateMovementState w (p.withOffset o)).1.mInfo.StepClipOffset

/-- The step-clip offset after a run of consecutive calls of
`updateMovementState`. The offset is carried from one step to the next; the
world and the rest of the player at each step are free, since the packets
handled between two steps change them. -/
def runOffset (o : ℚ) : List (World × Player) → ℚ
  | [] => o
  | s :: run => runOffset (stepOffset s.1 s.2 o) run

/-- Every step of the run is a full (non-exempt) step in which no step-up is
accepted. -/
def quietRun (o : ℚ) : List (World × Player) → Prop
  | [] => True
  | s :: run =>
    exemptCondition (s.2.withOffset o) = false
      ∧ stepAccepted s.1 (fullStepBeforeCollide s.1 (s.2.withOffset o)) = false
      ∧ quietRun (stepOffset s.1 s.2 o) run

/-- A step six tenths of a block high, a tenth of a block ahead of the player
of `playerWith` towards positive X. -/
def stepBox : BBox := BBox.mk (Vec3.mk (7 / 10) 0 (-1)) (Vec3.mk (17 / 10) (3 / 5) 2)

/-- The player of `playerWith` on the ground, walking towards positive X with
the Y velocity that gravity left. -/
def walker : Player :=
  playerWith { restingInfo with ServerMovement := Vec3.mk (3 / 10) (-(49 / 625)) 0 }

end Movement

namespace Movement

/-- The loop `for cond(a) { a = step(a) }` started at `a` exits after exactly
`n` passes. -/
def ExitsAfter {α : Type} (cond : α → Prop) (step : α → α) (a : α) (n : ℕ) : Prop :=
  (∀ i, i < n → cond (step^[i] a)) ∧ ¬ cond (step^[n] a)

end Movement

namespace Movement

/-- The first statement of the full-step branch of `updateMovementState`:
`p.mInfo.InUnsupportedRewindScenario = false`. -/
def beginFullStep (p : Player) : Player :=
  { p with mInfo := { p.mInfo with InUnsupportedRewindScenario := false } }

/-- The statements of `updateMovementState` that follow `p.aiStep()` in the
full-step branch: `p.mInfo.CanExempt = false` and `p.mInfo.UpdateTickStatus()`. -/
def finishFullStep (p : Player) : Player :=
  let p3 : Player := { p with mInfo := { p.mInfo with CanExempt := false } }
  { p3 with mInfo := p3.mInfo.UpdateTickStatus }

end Movement

namespace Movement

/-- The player of `playerWith` in the air just above the floor, falling with the
Y velocity that gravity left and drifting towards positive X. -/
def lander : Player :=
  playerWith { restingInfo with OnGround := false,
                                ServerMovement := Vec3.mk (1 / 10) (-(49 / 625)) 0 }

/-- The player of `playerWith` on the ground, leaving it with the Y velocity of a
jump and drifting towards positive X. -/
def leaper : Player :=
  playerWith { restingInfo with ServerMovement := Vec3.mk (1 / 10) (21 / 50) 0 }

end Movement

namespace Movement

/-- The player of `aiStep` when `travel` reaches its call of
`p.checkUnsupportedMovementScenarios()`, after `p.checkCollisions(oldMov)`. -/
def aiStepResolved (w : World) (p : Player) : Player :=
  travelResolve w (travelBeforeCollide w (aiStepBeforeTravel w (aiStepDeadzone p))).player

/-- The values that `aiStep` does not write before it reaches
`p.checkUnsupportedMovementScenarios()`: `p.Position()`, the movement the
client predicted, and the mark of an unsupported rewind scenario. -/
def stepFrame (p : Player) : Vec3 × Vec3 × Bool :=
  (p.Position, p.mInfo.ClientPredictedMovement, p.mInfo.InUnsupportedRewindScenario)

/-- A block that is a liquid. -/
def waterBlock : WorldBlock := { RuntimeID := 1, Liquid := true, Friction := none, Climbable := false }

/-- The world of `boxWorld` with a water block near every box and a climbable
block at every position. -/
def floodedWorld (boxes : List BBox) : World :=
  { boxWorld boxes with
    Block := fun _ => { airBlock with Climbable := true },
    GetNearbyBlocks := fun _ => [(BlockPos.mk 0 0 0, waterBlock)] }

/-- The player of `playerWith` holding the jump key in the air, where the client
is at `(1, 2, 3)` and predicted the movement `(0.1, 0.05, 0)`. -/
def swimmer : Player :=
  { playerWith { restingInfo with OnGround := false, JumpBindPressed := true,
                                  ClientPredictedMovement := Vec3.mk (1 / 10) (1 / 20) 0 } with
    Position := Vec3.mk 1 2 3 }

end Movement

namespace Movement

/-- The test of `aiStep` for simulating a jump:
`p.mInfo.JumpBindPressed && p.mInfo.OnGround && p.mInfo.JumpCooldownTicks <= 0`. -/
def jumpSimulated (p : Player) : Bool :=
  p.mInfo.JumpBindPressed && p.mInfo.OnGround && decide (p.mInfo.JumpCooldownTicks ≤ 0)

/-- The player with `p.mInfo.JumpCooldownTicks` replaced. -/
def Player.withCooldown (p : Player) (c : Int) : Player :=
  { p with mInfo := { p.mInfo with JumpCooldownTicks := c } }

/-- The jump cooldown after `updateMovementState` in the world `w`, for the
player `p` entering the step with the cooldown `c`. -/
def stepCooldown (w : World) (p : Player) (c : Int) : Int :=
  (updateMovementState w (p.withCooldown c)).1.mInfo.JumpCooldownTicks

/-- A call of `updateMovementState` simulates a jump: the step is a full one, so
`aiStep` runs, and the test of `aiStep` holds. -/
def stepJumps (p : Player) (c : Int) : Bool :=
  ! exemptCondition (p.withCooldown c) && jumpSimulated (p.withCooldown c)

/-- For each step of a run of consecutive calls of `updateMovementState`, whether
it simulates a jump. The cooldown is carried from one step to the next; the
world and the rest of the player at each step are free, since the packets
handled between two steps change them. -/
def runJumps (c : Int) : List (World × Player) → List Bool
  | [] => []
  | s :: run => stepJumps s.2 c :: runJumps (stepCooldown s.1 s.2 c) run

/-- The player of `playerWith` on the ground, holding the jump key. -/
def jumper : Player := playerWith { restingInfo with JumpBindPressed := true }

end Movement

namespace acknowledgement

/-- The chunk `c` that the loop body of `SubChunkUpdate.Run` hands to
`utils.DecodeSubChunk` for an entry: the one of `newChunks` at the position of
the entry, else the one of the world, else a new one. -/
def foundChunk (d : Decoders) (position : Int × Int × Int) (entry : SubChunkEntry)
    (newChunks : Chunks) (s : State) : Chunk :=
  match Chunks.get newChunks (ChunkPos.mk (Movement.wrapInt32 (position.1 + entry.Offset.1))
      (Movement.wrapInt32 (position.2.2 + entry.Offset.2.2))) with
  | some c => c
  | none =>
    match Chunks.get s.world (ChunkPos.mk (Movement.wrapInt32 (position.1 + entry.Offset.1))
        (Movement.wrapInt32 (position.2.2 + entry.Offset.2.2))) with
    | some c => c
    | none => d.New

/-- Decoders that fail on a chunk without sub-chunks and on a chunk whose first
sub-chunk is already `7`, and store the sub-chunk `7` at index 0 otherwise; the
empty chunk has four sub-chunks. -/
def sampleDecoders : Decoders where
  NetworkDecode := fun _ _ => Except.error "not used"
  DecodeSubChunk := fun _ c =>
    if c.sub.length = 0 then Except.error "no sub-chunks"
    else if c.sub.head? = some 7 then Except.error "first sub-chunk already stored"
    else Except.ok (0, 7)
  New := Chunk.mk [0, 0, 0, 0]

/-- A `SubChunk` packet with an all-air entry and two entries for the same chunk
position: the first of the two decodes into a new chunk, and on that chunk the
decoder fails for the second. -/
def samplePacket : SubChunk where
  CacheEnabled := false
  Position := (0, 0, 0)
  SubChunkEntries :=
    [SubChunkEntry.mk (0, 0, 0) SubChunkResultSuccessAllAir [],
     SubChunkEntry.mk (1, 0, 0) SubChunkResultSuccess [1],
     SubChunkEntry.mk (1, 0, 0) SubChunkResultSuccess [2]]

/-- A world shadow without chunks, before any call. -/
def emptyState : State := { world := [], calls := [] }

end acknowledgement

/-! ## Entity handler (`src/handler/entities.go`) -/

namespace handler

/-- `player.AuthorityMode`. -/
inductive AuthorityMode where
  | AuthorityModeNone
  | AuthorityModeSemi
  | AuthorityModeComplete
deriving DecidableEq

/-- `entity.HistoricalPosition`. -/
structure HistoricalPosition where
  Position : Vec3
  Tick : Int
deriving DecidableEq

/-- `entity.Entity`, as far as the handler touches it: the fields it reads and
writes, and the samples it hands to the method `RecievePosition`, whose body is
outside the sources, in call order. -/
structure Entity where
  IsPlayer : Bool
  Width : ℚ
  Height : ℚ
  RecvVelocity : Vec3
  received : List HistoricalPosition
deriving DecidableEq

/-- The call `e.RecievePosition(hp)`. -/
def Entity.RecievePosition (e : Entity) (hp : HistoricalPosition) : Entity :=
  { e with received := e.received ++ [hp] }

/-- The map `Entities` of the handler, by runtime id. -/
abbrev EntityMap := List (Nat × Entity)

/-- Go's `m[rid]`: the entity stored for a runtime id, if any. -/
def EntityMap.find (m : EntityMap) (rid : Nat) : Option Entity :=
  match m with
  | [] => none
  | e :: m => if e.1 = rid then some e.2 else EntityMap.find m rid

/-- Go's `m[rid] = e`. -/
def EntityMap.put (m : EntityMap) (rid : Nat) (x : Entity) : EntityMap :=
  match m with
  | [] => [(rid, x)]
  | e :: m => if e.1 = rid then (rid, x) :: m else e :: EntityMap.put m rid x

/-- `EntityHandler`. -/
structure EntityHandler where
  Entities : EntityMap
  MaxRewindTicks : Int
deriving DecidableEq

/-- The closures the handler registers with `AddCallback`, as values: the call
`h.moveEntity(pk.EntityRuntimeID, p.ServerTick, pk.Position)` with the runtime
id and position of the packet, and the assignment
`entity.RecvVelocity = pk.Velocity`. -/
inductive Callback where
  | moveEntity (rid : Nat) (pos : Vec3)
  | setRecvVelocity (rid : Nat) (vel : Vec3)
deriving DecidableEq

/-- The part of `player.Player` the handler reads, and the callbacks handed to
`AddCallback` of the acknowledgement handler, in call order. -/
structure Player where
  RuntimeId : Nat
  CombatMode : AuthorityMode
  ServerTick : Int
  callbacks : List Callback
deriving DecidableEq

/-- `EntityHandler.FindEntity`. -/
def EntityHandler.FindEntity (h : EntityHandler) (rid : Nat) : Option Entity :=
  h.Entities.find rid

/-- `EntityHandler.moveEntity`. The entity is a pointer in the map, so the
sample it receives is stored back under its runtime id. -/
def EntityHandler.moveEntity (h : EntityHandler) (rid : Nat) (tick : Int) (pos : Vec3) :
    EntityHandler :=
  match h.FindEntity rid with
  | none => h
  | some e =>
    let pos1 : Vec3 := if e.IsPlayer then { pos with Y := pos.Y - 81 / 50 } else pos
    let e1 := e.RecievePosition { Position := pos1, Tick := tick }
    { h with Entities := h.Entities.put rid e1 }

/-- Running a registered callback, with the handler and the player as they are
when the acknowledgement arrives. The velocity callback holds the entity it
found at registration; here it writes to the entity tracked under the same
runtime id. -/
def Callback.run (c : Callback) (h : EntityHandler) (p : Player) : EntityHandler :=
  match c with
  | Callback.moveEntity rid pos => h.moveEntity rid p.ServerTick pos
  | Callback.setRecvVelocity rid vel =>
    match h.FindEntity rid with
    | none => h
    | some e => { h with Entities := h.Entities.put rid { e with RecvVelocity := vel } }

/-- A tracked entity that is not a player. -/
def zombie : Entity :=
  { IsPlayer := false, Width := 3 / 5, Height := 19 / 10, RecvVelocity := Vec3.mk 0 0 0,
    received := [] }

/-- A tracked entity that is a player. -/
def otherPlayer : Entity := { zombie with IsPlayer := true, Height := 9 / 5 }

/-- A handler tracking `zombie` under the runtime id 7 and `otherPlayer` under
the runtime id 8. -/
def sampleHandler : EntityHandler :=
  { Entities := [(7, zombie), (8, otherPlayer)], MaxRewindTicks := 6 }

end handler

/-! ## The `PlayerAuthInput` case of `ClientProcess` (`src/player/processor.go`) -/

namespace processor

/-- `packet.InputFlagStartSprinting`. -/
def InputFlagStartSprinting : Nat := 2 ^ 25

/-- `packet.InputFlagStopSprinting`. -/
def InputFlagStopSprinting : Nat := 2 ^ 26

/-- `packet.InputFlagStartSneaking`. -/
def InputFlagStartSneaking : Nat := 2 ^ 27

/-- `packet.InputFlagStopSneaking`. -/
def InputFlagStopSneaking : Nat := 2 ^ 28

/-- `packet.InputFlagStartJumping`. -/
def InputFlagStartJumping : Nat := 2 ^ 31

/-- The fields of `packet.PlayerAuthInput` the case reads: the input flags and
the two components of the move vector. -/
structure PlayerAuthInput where
  InputData : Nat
  MoveVectorX : ℚ
  MoveVectorY : ℚ
deriving DecidableEq

/-- The fields of `player.Player` the case writes, and the rest of the player as
one value. The declaration of `clientTick` is outside the sources; the counter
is a natural number here. -/
structure Player (ρ : Type) where
  clicking : Bool
  clientTick : Nat
  sprinting : Bool
  sneaking : Bool
  jumping : Bool
  inVoid : Bool
  teleporting : Bool
  jumpVelocity : ℚ
  speed : ℚ
  gravity : ℚ
  moveStrafe : ℚ
  moveForward : ℚ
  rest : ρ

/-- The functions and constants the case uses whose bodies are outside the
sources: `utils.HasFlag`, the methods of the player it calls, the constants of
the package `game`, and the loop that runs the registered checks. -/
structure Helpers (ρ : Type) where
  HasFlag : Nat → Nat → Bool
  Move : PlayerAuthInput → Player ρ → Player ρ
  PositionY : Player ρ → ℚ
  Sprinting : Player ρ → Bool
  tickEffects : Player ρ → Player ρ
  tickMovement : Player ρ → Player ρ
  tickNearbyBlocks : Player ρ → Player ρ
  tickEntityLocations : Player ρ → Player ρ
  runChecks : PlayerAuthInput → Player ρ → Player ρ
  VoidLevel : ℚ
  DefaultJumpMotion : ℚ
  NormalMovementSpeed : ℚ
  NormalGravity : ℚ

/-- The test of the first branch of the toggle:
`utils.HasFlag(pk.InputData, packet.InputFlagStartSprinting)
|| utils.HasFlag(pk.InputData, packet.InputFlagStopSprinting)`. -/
def sprintFlag {ρ : Type} (H : Helpers ρ) (pk : PlayerAuthInput) : Bool :=
  H.HasFlag pk.InputData InputFlagStartSprinting || H.HasFlag pk.InputData InputFlagStopSprinting

/-- The test of the second branch of the toggle:
`utils.HasFlag(pk.InputData, packet.InputFlagStartSneaking)
|| utils.HasFlag(pk.InputData, packet.InputFlagStopSneaking)`. -/
def sneakFlag {ρ : Type} (H : Helpers ρ) (pk : PlayerAuthInput) : Bool :=
  H.HasFlag pk.InputData InputFlagStartSneaking || H.HasFlag pk.InputData InputFlagStopSneaking

/-- `ClientProcess` on a `*packet.PlayerAuthInput`, up to and including
`p.jumping = ...`. -/
def authInputToggle {ρ : Type} (H : Helpers ρ) (pk : PlayerAuthInput) (p : Player ρ) :
    Player ρ :=
  let p0 : Player ρ := { p with clicking := false }
  let p1 : Player ρ := { p0 with clientTick := p0.clientTick + 1 }
  let p2 := H.Move pk p1
  let p3 : Player ρ :=
    if sprintFlag H pk then { p2 with sprinting := ! p2.sprinting }
    else if sneakFlag H pk then { p2 with sneaking := ! p2.sneaking }
    else p2
  { p3 with jumping := H.HasFlag pk.InputData InputFlagStartJumping }

/-- `ClientProcess` on a `*packet.PlayerAuthInput`: the rest of the case, the
registered checks, and the returned value. -/
def ClientProcessAuthInput {ρ : Type} (H : Helpers ρ) (pk : PlayerAuthInput) (p : Player ρ) :
    Player ρ × Bool :=
  let p4 := authInputToggle H pk p
  let p5 : Player ρ :=
    { p4 with inVoid := decide (H.PositionY p4 ≤ H.VoidLevel),
              jumpVelocity := H.DefaultJumpMotion,
              speed := H.NormalMovementSpeed,
              gravity := H.NormalGravity }
  let p6 := H.tickEffects p5
  let p7 : Player ρ :=
    { p6 with moveStrafe := pk.MoveVectorX * (49 / 50), moveForward := pk.MoveVectorY * (49 / 50) }
  let p8 : Player ρ := if H.Sprinting p7 then { p7 with speed := p7.speed * (13 / 10) } else p7
  let p9 : Player ρ := { p8 with speed := max 0 p8.speed }
  let p10 := H.tickEntityLocations (H.tickNearbyBlocks (H.tickMovement p9))
  let p11 : Player ρ := { p10 with teleporting := false }
  (H.runChecks pk p11, false)

/-- A function on the player that writes none of the client tick, the sprinting
flag and the sneaking flag. -/
def keepsToggles {ρ : Type} (f : Player ρ → Player ρ) : Prop :=
  ∀ q, (f q).clientTick = q.clientTick ∧ (f q).sprinting = q.sprinting
    ∧ (f q).sneaking = q.sneaking

/-- Helpers that leave the player as it is, with `utils.HasFlag` as the test of
a common bit and the sprinting flag as `Sprinting()`. -/
def plainHelpers : Helpers Unit where
  HasFlag := fun flags flag => decide (flags &&& flag ≠ 0)
  Move := fun _ q => q
  PositionY := fun _ => 64
  Sprinting := fun q => q.sprinting
  tickEffects := fun q => q
  tickMovement := fun q => q
  tickNearbyBlocks := fun q => q
  tickEntityLocations := fun q => q
  runChecks := fun _ q => q
  VoidLevel := -128
  DefaultJumpMotion := 21 / 50
  NormalMovementSpeed := 1 / 10
  NormalGravity := 2 / 25

/-- A sprinting, sneaking player at client tick 9. -/
def sprinter : Player Unit :=
  { clicking := true, clientTick := 9, sprinting := true, sneaking := true, jumping := false,
    inVoid := false, teleporting := true, jumpVelocity := 0, speed := 0, gravity := 0,
    moveStrafe := 0, moveForward := 0, rest := () }

/-- An input that carries `InputFlagStartSprinting` and `InputFlagStartSneaking`. -/
def startBoth : PlayerAuthInput :=
  { InputData := InputFlagStartSprinting + InputFlagStartSneaking, MoveVectorX := 0,
    MoveVectorY := 1 }

end processor

/-! ## Theorems: detection runtime -/

/-- C1, as stated, fails: with `Buffer = MaxBuffer = 5` the bounds hold, and
`PassDetection` with the amount `-1` leaves `Buffer = 6`, above `MaxBuffer`. -/
theorem passDetection_negative_amount_exceeds_max :
    (0 ≤ (DetectionMetadata.mk 0 10 5 3 5 0 0).Buffer
      ∧ (DetectionMetadata.mk 0 10 5 3 5 0 0).Buffer ≤ (DetectionMetadata.mk 0 10 5 3 5 0 0).MaxBuffer)
    ∧ (PassDetection (DetectionMetadata.mk 0 10 5 3 5 0 0) (-1)).1.Buffer = 6
    ∧ ¬ ((PassDetection (DetectionMetadata.mk 0 10 5 3 5 0 0) (-1)).1.Buffer
          ≤ (PassDetection (DetectionMetadata.mk 0 10 5 3 5 0 0) (-1)).1.MaxBuffer) := by
  norm_num [PassDetection]

/-- Every path of `FailDetection` leaves the raised buffer in `Buffer`. -/
theorem failDetection_buffer (h : EventHandler) (serverTick : Int) (punishable : Bool)
    (m : DetectionMetadata) :
    (FailDetection h serverTick punishable m).1.Buffer = raisedBuffer m := by
  unfold FailDetection flagState
  simp only []
  split_ifs <;> rfl

/-- No path of `FailDetection` writes `MaxBuffer`. -/
theorem failDetection_maxBuffer (h : EventHandler) (serverTick : Int) (punishable : Bool)
    (m : DetectionMetadata) :
    (FailDetection h serverTick punishable m).1.MaxBuffer = m.MaxBuffer := by
  unfold FailDetection flagState
  simp only []
  split_ifs <;> rfl

/-- C1, amended: for metadata with `0 ≤ Buffer ≤ MaxBuffer`, `PassDetection`
with a non-negative amount and `FailDetection` in every player state (any hook
outcome, server tick and punishable flag) leave `0 ≤ Buffer ≤ MaxBuffer`. -/
theorem detection_buffer_bounds (m : DetectionMetadata)
    (h0 : 0 ≤ m.Buffer) (h1 : m.Buffer ≤ m.MaxBuffer) :
    (∀ sub : ℚ, 0 ≤ sub →
        0 ≤ (PassDetection m sub).1.Buffer
          ∧ (PassDetection m sub).1.Buffer ≤ (PassDetection m sub).1.MaxBuffer)
    ∧ (∀ (h : EventHandler) (serverTick : Int) (punishable : Bool),
        0 ≤ (FailDetection h serverTick punishable m).1.Buffer
          ∧ (FailDetection h serverTick punishable m).1.Buffer
              ≤ (FailDetection h serverTick punishable m).1.MaxBuffer) := by
  constructor
  · intro sub hsub
    simp only [PassDetection]
    refine ⟨le_max_left _ _, max_le (le_trans h0 h1) ?_⟩
    linarith
  · intro h serverTick punishable
    rw [failDetection_buffer, failDetection_maxBuffer]
    unfold raisedBuffer
    refine ⟨le_min (by linarith) (le_trans h0 h1), min_le_right _ _⟩

/-- The buffer bounds at the metadata with `Buffer = MaxBuffer = 5`. -/
theorem detection_buffer_bounds_witness :
    (∀ sub : ℚ, 0 ≤ sub →
        0 ≤ (PassDetection (DetectionMetadata.mk 0 10 5 3 5 0 0) sub).1.Buffer
          ∧ (PassDetection (DetectionMetadata.mk 0 10 5 3 5 0 0) sub).1.Buffer
              ≤ (PassDetection (DetectionMetadata.mk 0 10 5 3 5 0 0) sub).1.MaxBuffer)
    ∧ (∀ (h : EventHandler) (serverTick : Int) (punishable : Bool),
        0 ≤ (FailDetection h serverTick punishable (DetectionMetadata.mk 0 10 5 3 5 0 0)).1.Buffer
          ∧ (FailDetection h serverTick punishable (DetectionMetadata.mk 0 10 5 3 5 0 0)).1.Buffer
              ≤ (FailDetection h serverTick punishable
                  (DetectionMetadata.mk 0 10 5 3 5 0 0)).1.MaxBuffer) :=
  detection_buffer_bounds (DetectionMetadata.mk 0 10 5 3 5 0 0) (by norm_num) (by norm_num)

/-- C2, as stated, fails: with `TrustDuration = 10`, `LastFlagged = 5` and server
tick `0` (the metadata was last flagged at a later tick than the current one),
a `FailDetection` whose flag hook does not cancel raises `Violations` from `0`
to `3/2`, a change above `1`. -/
theorem failDetection_increment_above_one :
    (FailDetection (EventHandler.mk (fun _ => false) (fun _ => false)) 0 false
        (DetectionMetadata.mk 0 10 0 1 1 10 5)).1.Violations
      - (DetectionMetadata.mk 0 10 0 1 1 10 5).Violations = 3 / 2
    ∧ ¬ ((FailDetection (EventHandler.mk (fun _ => false) (fun _ => false)) 0 false
        (DetectionMetadata.mk 0 10 0 1 1 10 5)).1.Violations
      - (DetectionMetadata.mk 0 10 0 1 1 10 5).Violations ≤ 1) := by
  norm_num [FailDetection, flagState, raisedBuffer, violationIncrement, wrapInt64]

/-- The violation increment is never negative. -/
theorem violationIncrement_nonneg (serverTick : Int) (m : DetectionMetadata) :
    0 ≤ violationIncrement serverTick m := by
  unfold violationIncrement
  split_ifs with hT
  · have hT' : (0 : ℚ) < (m.TrustDuration : ℚ) := by exact_mod_cast hT
    exact div_nonneg (le_max_left _ _) hT'.le
  · norm_num

/-- The violation increment is at most one when the tick difference is not negative. -/
theorem violationIncrement_le_one (serverTick : Int) (m : DetectionMetadata)
    (hd : 0 ≤ wrapInt64 (serverTick - m.LastFlagged)) :
    violationIncrement serverTick m ≤ 1 := by
  unfold violationIncrement
  split_ifs with hT
  · have hT' : (0 : ℚ) < (m.TrustDuration : ℚ) := by exact_mod_cast hT
    have hd' : (0 : ℚ) ≤ ((wrapInt64 (serverTick - m.LastFlagged) : Int) : ℚ) := by
      exact_mod_cast hd
    rw [div_le_one hT']
    exact max_le hT'.le (by linarith)
  · exact le_refl 1

/-- After `FailDetection`, `Violations` is the old value or the old value plus
the violation increment. -/
theorem failDetection_violations (h : EventHandler) (serverTick : Int) (punishable : Bool)
    (m : DetectionMetadata) :
    (FailDetection h serverTick punishable m).1.Violations = m.Violations
      ∨ (FailDetection h serverTick punishable m).1.Violations
          = m.Violations + violationIncrement serverTick m := by
  unfold FailDetection flagState
  simp only []
  split_ifs <;> first | exact Or.inl rfl | exact Or.inr rfl

/-- C2, amended: for every call of `FailDetection` (any metadata, any hook
outcome) at a server tick for which the `int64` difference
`ServerTick - LastFlagged` is not negative, the change of `Violations` during
the call lies in `[0, 1]`. -/
theorem failDetection_violation_change (h : EventHandler) (serverTick : Int)
    (punishable : Bool) (m : DetectionMetadata)
    (hd : 0 ≤ wrapInt64 (serverTick - m.LastFlagged)) :
    0 ≤ (FailDetection h serverTick punishable m).1.Violations - m.Violations
      ∧ (FailDetection h serverTick punishable m).1.Violations - m.Violations ≤ 1 := by
  have h0 := violationIncrement_nonneg serverTick m
  have h1 := violationIncrement_le_one serverTick m hd
  rcases failDetection_violations h serverTick punishable m with e | e <;> rw [e] <;>
    constructor <;> linarith

/-- The change of `Violations` at server tick 7 for metadata last flagged at tick 5. -/
theorem failDetection_violation_change_witness :
    0 ≤ wrapInt64 (7 - (DetectionMetadata.mk 0 10 0 1 1 10 5).LastFlagged)
    ∧ 0 ≤ (FailDetection (EventHandler.mk (fun _ => false) (fun _ => false)) 7 false
            (DetectionMetadata.mk 0 10 0 1 1 10 5)).1.Violations
          - (DetectionMetadata.mk 0 10 0 1 1 10 5).Violations
    ∧ (FailDetection (EventHandler.mk (fun _ => false) (fun _ => false)) 7 false
            (DetectionMetadata.mk 0 10 0 1 1 10 5)).1.Violations
          - (DetectionMetadata.mk 0 10 0 1 1 10 5).Violations ≤ 1 :=
  ⟨by decide,
   failDetection_violation_change (EventHandler.mk (fun _ => false) (fun _ => false)) 7 false
     (DetectionMetadata.mk 0 10 0 1 1 10 5) (by decide)⟩

/-- C3: when `min(Buffer + 1, MaxBuffer) < FailBuffer`, `FailDetection` sets
`Buffer` to `min(Buffer + 1, MaxBuffer)`, leaves every other field of the
metadata (`Violations` and `LastFlagged` among them) unchanged and makes no
outside call: no flag hook, no punishment hook, no flagged event, no
disconnect. `BaseDetection.Fail` of the older framework does the same. -/
theorem failDetection_below_threshold (h : EventHandler) (serverTick : Int)
    (punishable : Bool) (m : DetectionMetadata)
    (hlt : min (m.Buffer + 1) m.MaxBuffer < m.FailBuffer) :
    FailDetection h serverTick punishable m
        = ({ m with Buffer := min (m.Buffer + 1) m.MaxBuffer }, [])
    ∧ (FailDetection h serverTick punishable m).1.Violations = m.Violations
    ∧ (FailDetection h serverTick punishable m).1.LastFlagged = m.LastFlagged
    ∧ (FailDetection h serverTick punishable m).2 = []
    ∧ (∀ (bh : BaseEventHandler) (clientFrame : Int) (d : BaseDetection),
        min (d.Buffer + 1) d.MaxBuffer < d.FailBuffer →
          BaseDetection.Fail bh clientFrame d
            = some ({ d with Buffer := min (d.Buffer + 1) d.MaxBuffer }, [])) := by
  have e : FailDetection h serverTick punishable m
      = ({ m with Buffer := min (m.Buffer + 1) m.MaxBuffer }, []) := by
    unfold FailDetection
    simp only [raisedBuffer]
    rw [if_pos hlt]
  refine ⟨e, ?_, ?_, ?_, ?_⟩
  · rw [e]
  · rw [e]
  · rw [e]
  · intro bh clientFrame d hd
    unfold BaseDetection.Fail
    simp only []
    rw [if_pos hd]

/-- A fail with `Buffer = 0`, `FailBuffer = 3`: only the buffer moves, to 1. -/
theorem failDetection_below_threshold_witness :
    min ((DetectionMetadata.mk 2 10 0 3 5 10 4).Buffer + 1)
        (DetectionMetadata.mk 2 10 0 3 5 10 4).MaxBuffer
      < (DetectionMetadata.mk 2 10 0 3 5 10 4).FailBuffer
    ∧ FailDetection (EventHandler.mk (fun _ => false) (fun _ => false)) 7 true
        (DetectionMetadata.mk 2 10 0 3 5 10 4)
      = (DetectionMetadata.mk 2 10 1 3 5 10 4, []) := by
  have hlt : min ((DetectionMetadata.mk 2 10 0 3 5 10 4).Buffer + 1)
        (DetectionMetadata.mk 2 10 0 3 5 10 4).MaxBuffer
      < (DetectionMetadata.mk 2 10 0 3 5 10 4).FailBuffer := by norm_num
  refine ⟨hlt, ?_⟩
  rw [(failDetection_below_threshold (EventHandler.mk (fun _ => false) (fun _ => false)) 7 true
    (DetectionMetadata.mk 2 10 0 3 5 10 4) hlt).1]
  norm_num

/-- C4: if the flag hook cancels the event context during `FailDetection`, then
after the call `Violations` and `LastFlagged` have their values from before
the call, and the call sent no flagged event, did not invoke the punishment
hook and did not disconnect or close the player. `BaseDetection.Fail` of the
older framework, whose hook runs before the increment, does the same. -/
theorem failDetection_cancelled_flag (h : EventHandler) (serverTick : Int)
    (punishable : Bool) (m : DetectionMetadata)
    (hc : h.HandleFlag (flagState serverTick m) = true) :
    (FailDetection h serverTick punishable m).1.Violations = m.Violations
    ∧ (FailDetection h serverTick punishable m).1.LastFlagged = m.LastFlagged
    ∧ (∀ v : ℚ, Effect.flaggedEvent v ∉ (FailDetection h serverTick punishable m).2)
    ∧ Effect.punishmentHook ∉ (FailDetection h serverTick punishable m).2
    ∧ Effect.disconnect ∉ (FailDetection h serverTick punishable m).2
    ∧ Effect.close ∉ (FailDetection h serverTick punishable m).2
    ∧ (∀ (bh : BaseEventHandler) (clientFrame : Int) (d : BaseDetection),
        bh.OnFlagged { d with Buffer := min (d.Buffer + 1) d.MaxBuffer } = true →
          ∃ r, BaseDetection.Fail bh clientFrame d = some r
            ∧ r.1.Violations = d.Violations ∧ r.1.lastFlagged = d.lastFlagged
            ∧ (∀ v : ℚ, Effect.flaggedEvent v ∉ r.2)
            ∧ Effect.punishmentHook ∉ r.2 ∧ Effect.disconnect ∉ r.2) := by
  have e : FailDetection h serverTick punishable m
        = ({ m with Buffer := raisedBuffer m }, [])
      ∨ FailDetection h serverTick punishable m
        = ({ flagState serverTick m with Violations := m.Violations }, [Effect.flagHook]) := by
    unfold FailDetection
    simp only []
    by_cases hb : raisedBuffer m < m.FailBuffer
    · rw [if_pos hb]; exact Or.inl rfl
    · rw [if_neg hb, if_pos hc]; exact Or.inr rfl
  refine ⟨?_, ?_, ?_, ?_, ?_, ?_, ?_⟩
  · rcases e with e | e <;> rw [e]
  · rcases e with e | e <;> rw [e]
    rfl
  · intro v; rcases e with e | e <;> rw [e] <;> simp
  · rcases e with e | e <;> rw [e] <;> simp
  · rcases e with e | e <;> rw [e] <;> simp
  · rcases e with e | e <;> rw [e] <;> simp
  · intro bh clientFrame d hd
    unfold BaseDetection.Fail
    simp only []
    by_cases hb : min (d.Buffer + 1) d.MaxBuffer < d.FailBuffer
    · rw [if_pos hb]
      exact ⟨_, rfl, rfl, rfl, by simp⟩
    · rw [if_neg hb, if_pos hd]
      exact ⟨_, rfl, rfl, rfl, by simp⟩

/-- A fail above the threshold whose flag hook cancels: violations stay 2, last-flagged stays 4. -/
theorem failDetection_cancelled_flag_witness :
    (EventHandler.mk (fun _ => true) (fun _ => false)).HandleFlag
        (flagState 7 (DetectionMetadata.mk 2 3 4 3 5 10 4)) = true
    ∧ (FailDetection (EventHandler.mk (fun _ => true) (fun _ => false)) 7 true
        (DetectionMetadata.mk 2 3 4 3 5 10 4)).1.Violations = 2
    ∧ (FailDetection (EventHandler.mk (fun _ => true) (fun _ => false)) 7 true
        (DetectionMetadata.mk 2 3 4 3 5 10 4)).1.LastFlagged = 4
    ∧ Effect.disconnect ∉ (FailDetection (EventHandler.mk (fun _ => true) (fun _ => false)) 7 true
        (DetectionMetadata.mk 2 3 4 3 5 10 4)).2 :=
  ⟨rfl,
   (failDetection_cancelled_flag (EventHandler.mk (fun _ => true) (fun _ => false)) 7 true
      (DetectionMetadata.mk 2 3 4 3 5 10 4) rfl).1,
   (failDetection_cancelled_flag (EventHandler.mk (fun _ => true) (fun _ => false)) 7 true
      (DetectionMetadata.mk 2 3 4 3 5 10 4) rfl).2.1,
   (failDetection_cancelled_flag (EventHandler.mk (fun _ => true) (fun _ => false)) 7 true
      (DetectionMetadata.mk 2 3 4 3 5 10 4) rfl).2.2.2.2.1⟩

/-- C5: `FailDetection` disconnects the player if and only if the raised buffer
reached `FailBuffer`, the flag hook did not cancel, the detection is
punishable, `Violations` after the increment is at least `MaxViolations`, and
the punishment hook did not cancel; `PassDetection` never disconnects. -/
theorem failDetection_disconnect_iff (h : EventHandler) (serverTick : Int)
    (punishable : Bool) (m : DetectionMetadata) :
    (Effect.disconnect ∈ (FailDetection h serverTick punishable m).2 ↔
        (m.FailBuffer ≤ min (m.Buffer + 1) m.MaxBuffer
          ∧ h.HandleFlag (flagState serverTick m) = false
          ∧ punishable = true
          ∧ m.MaxViolations ≤ m.Violations + violationIncrement serverTick m
          ∧ h.HandlePunishment { flagState serverTick m with LastFlagged := serverTick } = false))
    ∧ (∀ sub : ℚ, Effect.disconnect ∉ (PassDetection m sub).2) := by
  constructor
  · unfold FailDetection
    simp only [raisedBuffer]
    by_cases hb : min (m.Buffer + 1) m.MaxBuffer < m.FailBuffer
    · rw [if_pos hb]
      simp only [List.not_mem_nil, false_iff]
      intro hcon
      exact absurd hcon.1 (not_le.mpr hb)
    · rw [if_neg hb]
      have hb' := not_lt.mp hb
      simp only [flagState, raisedBuffer] at *
      split_ifs <;> simp_all
  · intro sub
    simp [PassDetection]

/-! ## Theorems: VelocityB -/

/-- C6: in every session state in which the client's reported motion equals
the expected motion on X and Z, `VelocityB.Process` never takes the failing
branch: the only helper call it can make is `Buff(-0.1)`, so it asks for no
violation weight, feeds the buffer no such weight and raises no flag. -/
theorem velocityB_round_trip {β : Type} (e : CheckHelpers β) (s : Session)
    (clientTick : Nat) (v : check β) (pk : Packet)
    (hx : s.Movement.Motion.X = s.Movement.PreviousServerPredictedMotion.X)
    (hz : s.Movement.Motion.Z = s.Movement.PreviousServerPredictedMotion.Z) :
    ((VelocityB.Process e s clientTick v pk).2 = []
        ∨ (VelocityB.Process e s clientTick v pk).2 = [CheckCall.buff (-(1 / 10))])
    ∧ (∀ c ∈ (VelocityB.Process e s clientTick v pk).2, c = CheckCall.buff (-(1 / 10))) := by
  have key : (VelocityB.Process e s clientTick v pk).2 = []
      ∨ (VelocityB.Process e s clientTick v pk).2 = [CheckCall.buff (-(1 / 10))] := by
    unfold VelocityB.Process
    cases pk with
    | PlayerAuthInput i =>
      simp only []
      by_cases ht : VelocityB.triggered s
      · rw [if_pos ht]
        have hnf : ¬ VelocityB.failing s := by
          obtain ⟨_, h1, h2⟩ := ht
          have hx0 : s.Movement.PreviousServerPredictedMotion.X ≠ 0 := by
            intro h0; rw [h0] at h1; norm_num at h1
          have hz0 : s.Movement.PreviousServerPredictedMotion.Z ≠ 0 := by
            intro h0; rw [h0] at h2; norm_num at h2
          have ex : VelocityB.xVal s = 1 := by
            unfold VelocityB.xVal; rw [hx]; exact div_self hx0
          have ez : VelocityB.zVal s = 1 := by
            unfold VelocityB.zVal; rw [hz]; exact div_self hz0
          unfold VelocityB.failing
          rw [ex, ez]
          norm_num
        rw [if_neg hnf]
        exact Or.inr rfl
      · rw [if_neg ht]
        exact Or.inl rfl
    | ScriptMessage _ => exact Or.inl rfl
    | NetworkStackLatency _ => exact Or.inl rfl
    | Other _ => exact Or.inl rfl
  refine ⟨key, ?_⟩
  intro c hc
  rcases key with k | k
  · rw [k] at hc; simp at hc
  · rw [k] at hc; simpa using hc

/-- The server sends `(0.4, 0.0, 0.3)` and the client replays it: the only call is `Buff(-0.1)`. -/
theorem velocityB_round_trip_witness :
    (knockbackSession (Vec3.mk (2 / 5) 0 (3 / 10))).Movement.Motion.X
        = (knockbackSession (Vec3.mk (2 / 5) 0 (3 / 10))).Movement.PreviousServerPredictedMotion.X
    ∧ (knockbackSession (Vec3.mk (2 / 5) 0 (3 / 10))).Movement.Motion.Z
        = (knockbackSession (Vec3.mk (2 / 5) 0 (3 / 10))).Movement.PreviousServerPredictedMotion.Z
    ∧ (∀ c ∈ (VelocityB.Process exampleHelpers (knockbackSession (Vec3.mk (2 / 5) 0 (3 / 10))) 20
          (check.mk 0 2) (Packet.PlayerAuthInput 0)).2, c = CheckCall.buff (-(1 / 10)))
    ∧ (VelocityB.Process exampleHelpers (knockbackSession (Vec3.mk (2 / 5) 0 (3 / 10))) 20
          (check.mk 0 2) (Packet.PlayerAuthInput 0)).2 = [CheckCall.buff (-(1 / 10))] :=
  ⟨rfl, rfl,
   (velocityB_round_trip exampleHelpers (knockbackSession (Vec3.mk (2 / 5) 0 (3 / 10))) 20
      (check.mk 0 2) (Packet.PlayerAuthInput 0) rfl rfl).2,
   by norm_num [VelocityB.Process, VelocityB.triggered, VelocityB.failing, VelocityB.xVal,
      VelocityB.zVal, knockbackSession, abs_of_pos]⟩

/-- C7: on a `PlayerAuthInput` with motion-ticks equal to 1 and both
`|expected_vx| > 0.01` and `|expected_vz| > 0.01`, with
`rx = client_vx / expected_vx` and `rz = client_vz / expected_vz`, the check
takes the failing branch (it asks for the violation weight of the 400-tick
window and feeds it to the buffer) if and only if
`((rx ≤ 0.9999 ∧ rz ≤ 0.9999) ∨ rx ≥ 1.5 ∨ rz ≥ 1.5)` and the player is neither
teleporting nor horizontally collided; otherwise it calls `Buff(-0.1)` and
sets violations to `max(violations - 0.05, 0)`. -/
theorem velocityB_decision_rule {β : Type} (e : CheckHelpers β) (s : Session)
    (clientTick : Nat) (v : check β) (i : Nat) (rx rz : ℚ)
    (h1 : s.TicksMotion = 1)
    (hx : |s.Movement.PreviousServerPredictedMotion.X| > 1 / 100)
    (hz : |s.Movement.PreviousServerPredictedMotion.Z| > 1 / 100)
    (hrx : rx = s.Movement.Motion.X / s.Movement.PreviousServerPredictedMotion.X)
    (hrz : rz = s.Movement.Motion.Z / s.Movement.PreviousServerPredictedMotion.Z) :
    ((((rx ≤ 9999 / 10000 ∧ rz ≤ 9999 / 10000) ∨ rx ≥ 3 / 2 ∨ rz ≥ 3 / 2)
          ∧ s.FlagTeleporting = false ∧ s.FlagCollidedHorizontally = false)
        ↔ CheckCall.violationAfterTicks clientTick 400
            ∈ (VelocityB.Process e s clientTick v (Packet.PlayerAuthInput i)).2)
    ∧ (CheckCall.violationAfterTicks clientTick 400
          ∈ (VelocityB.Process e s clientTick v (Packet.PlayerAuthInput i)).2 →
        ∃ rest, (VelocityB.Process e s clientTick v (Packet.PlayerAuthInput i)).2
          = CheckCall.violationAfterTicks clientTick 400
              :: CheckCall.buff (e.updateAndGetViolationAfterTicks v clientTick 400).2 :: rest)
    ∧ (CheckCall.violationAfterTicks clientTick 400
          ∉ (VelocityB.Process e s clientTick v (Packet.PlayerAuthInput i)).2 →
        VelocityB.Process e s clientTick v (Packet.PlayerAuthInput i)
          = ({ (e.Buff v (-(1 / 10))).1 with
                violations := max ((e.Buff v (-(1 / 10))).1.violations - 1 / 20) 0 },
             [CheckCall.buff (-(1 / 10))])) := by
  have ht : VelocityB.triggered s := ⟨h1, hx, hz⟩
  have hf : VelocityB.failing s ↔
      (((rx ≤ 9999 / 10000 ∧ rz ≤ 9999 / 10000) ∨ rx ≥ 3 / 2 ∨ rz ≥ 3 / 2)
          ∧ s.FlagTeleporting = false ∧ s.FlagCollidedHorizontally = false) := by
    unfold VelocityB.failing VelocityB.xVal VelocityB.zVal
    rw [← hrx, ← hrz]
    simp
  rw [← hf]
  unfold VelocityB.Process
  simp only []
  rw [if_pos ht]
  by_cases hfail : VelocityB.failing s
  · rw [if_pos hfail]
    split_ifs <;> simp [hfail]
  · rw [if_neg hfail]
    simp [hfail]

/-- Against the expected `(0.4, 0.0, 0.3)`, the halved motion `(0.2, 0.0, 0.15)` takes the failing branch and the exact replay does not. -/
theorem velocityB_decision_rule_witness :
    CheckCall.violationAfterTicks 20 400
        ∈ (VelocityB.Process exampleHelpers (knockbackSession (Vec3.mk (1 / 5) 0 (3 / 20))) 20
            (check.mk 0 2) (Packet.PlayerAuthInput 0)).2
    ∧ CheckCall.violationAfterTicks 20 400
        ∉ (VelocityB.Process exampleHelpers (knockbackSession (Vec3.mk (2 / 5) 0 (3 / 10))) 20
            (check.mk 0 2) (Packet.PlayerAuthInput 0)).2 :=
  ⟨(velocityB_decision_rule exampleHelpers (knockbackSession (Vec3.mk (1 / 5) 0 (3 / 20))) 20
      (check.mk 0 2) 0 (1 / 2) (1 / 2) rfl
      (by norm_num [knockbackSession, abs_of_pos]) (by norm_num [knockbackSession, abs_of_pos])
      (by norm_num [knockbackSession]) (by norm_num [knockbackSession])).1.mp
      (by norm_num [knockbackSession]),
   fun hmem =>
    absurd ((velocityB_decision_rule exampleHelpers
      (knockbackSession (Vec3.mk (2 / 5) 0 (3 / 10))) 20
      (check.mk 0 2) 0 1 1 rfl
      (by norm_num [knockbackSession, abs_of_pos]) (by norm_num [knockbackSession, abs_of_pos])
      (by norm_num [knockbackSession]) (by norm_num [knockbackSession])).1.mpr hmem)
      (by norm_num)⟩

/-! ## Theorems: acknowledgements -/

/-- After `delete(m, t)` the timestamp `t` has no entry. -/
theorem ackLookup_ackDelete_self {κ : Type} (t : Int) (m : List (Int × κ)) :
    ackLookup t (ackDelete t m) = none := by
  induction m with
  | nil => rfl
  | cons e m ih =>
    by_cases he : e.1 = t
    · simp only [ackDelete, if_pos he]; exact ih
    · simp only [ackDelete, if_neg he, ackLookup]; exact ih

/-- An entry under another timestamp is untouched by `delete(m, t)`. -/
theorem ackLookup_ackDelete_ne {κ : Type} (t t' : Int) (m : List (Int × κ)) (hne : t' ≠ t) :
    ackLookup t' (ackDelete t m) = ackLookup t' m := by
  induction m with
  | nil => rfl
  | cons e m ih =>
    by_cases he : e.1 = t
    · have he' : ¬ e.1 = t' := fun h => hne (h.symm.trans he)
      simp only [ackDelete, if_pos he, ackLookup, if_neg he']; exact ih
    · by_cases he' : e.1 = t'
      · simp only [ackDelete, if_neg he, ackLookup, if_pos he']
      · simp only [ackDelete, if_neg he, ackLookup, if_neg he']; exact ih

/-- The entries left by `delete(m, t)` are the entries of `m` under other timestamps. -/
theorem mem_ackDelete {κ : Type} (t : Int) (m : List (Int × κ)) (e : Int × κ) :
    e ∈ ackDelete t m ↔ e ∈ m ∧ e.1 ≠ t := by
  induction m with
  | nil => simp [ackDelete]
  | cons x m ih =>
    by_cases hx : x.1 = t
    · simp only [ackDelete, if_pos hx, ih, List.mem_cons]
      constructor
      · rintro ⟨h1, h2⟩; exact ⟨Or.inr h1, h2⟩
      · rintro ⟨h1 | h1, h2⟩
        · exact absurd (h1 ▸ hx) h2
        · exact ⟨h1, h2⟩
    · simp only [ackDelete, if_neg hx, List.mem_cons, ih]
      constructor
      · rintro (h1 | ⟨h1, h2⟩)
        · exact ⟨Or.inl h1, h1 ▸ hx⟩
        · exact ⟨Or.inr h1, h2⟩
      · rintro ⟨h1 | h1, h2⟩
        · exact Or.inl h1
        · exact Or.inr ⟨h1, h2⟩

/-- `ClientProcess` on an ack whose timestamp is pending. -/
theorem clientProcess_pending {κ : Type} (other : Player κ → Packet → Player κ × Bool)
    (p : Player κ) (t : Int) (c : κ) (hc : ackLookup t p.acknowledgements = some c) :
    ClientProcess other p (Packet.NetworkStackLatency t)
      = ({ clicking := false, acknowledgements := ackDelete t p.acknowledgements,
           executed := p.executed ++ [c] }, true) := by
  unfold ClientProcess
  simp only [hc]

/-- `ClientProcess` on an ack whose timestamp is not pending. -/
theorem clientProcess_not_pending {κ : Type} (other : Player κ → Packet → Player κ × Bool)
    (p : Player κ) (t : Int) (hc : ackLookup t p.acknowledgements = none) :
    ClientProcess other p (Packet.NetworkStackLatency t)
      = ({ p with clicking := false }, false) := by
  unfold ClientProcess
  simp only [hc]

/-- C8: when `ClientProcess` receives a `NetworkStackLatency` with timestamp
`t` that has a pending entry, its callback is invoked once, exactly the
entries under `t` leave the pending map and the packet is consumed; when `t`
has no pending entry nothing is invoked, the pending map is unchanged and the
packet is not consumed. Hence a repeated ack of `t` fires nothing, and acking
pending `t1, t2, t3` in the order `t2, t1, t3` fires their callbacks in the
order `t2, t1, t3`. -/
theorem ack_exactly_once {κ : Type} (other : Player κ → Packet → Player κ × Bool)
    (p : Player κ) (t : Int) :
    (∀ c, ackLookup t p.acknowledgements = some c →
        (ClientProcess other p (Packet.NetworkStackLatency t)).2 = true
        ∧ (ClientProcess other p (Packet.NetworkStackLatency t)).1.executed = p.executed ++ [c]
        ∧ ackLookup t (ClientProcess other p (Packet.NetworkStackLatency t)).1.acknowledgements
            = none
        ∧ (∀ t', t' ≠ t →
            ackLookup t' (ClientProcess other p (Packet.NetworkStackLatency t)).1.acknowledgements
              = ackLookup t' p.acknowledgements)
        ∧ (∀ e, e ∈ (ClientProcess other p (Packet.NetworkStackLatency t)).1.acknowledgements
            ↔ e ∈ p.acknowledgements ∧ e.1 ≠ t))
    ∧ (ackLookup t p.acknowledgements = none →
        (ClientProcess other p (Packet.NetworkStackLatency t)).2 = false
        ∧ (ClientProcess other p (Packet.NetworkStackLatency t)).1.executed = p.executed
        ∧ (ClientProcess other p (Packet.NetworkStackLatency t)).1.acknowledgements
            = p.acknowledgements)
    ∧ ((ClientProcess other (ClientProcess other p (Packet.NetworkStackLatency t)).1
          (Packet.NetworkStackLatency t)).2 = false
        ∧ (ClientProcess other (ClientProcess other p (Packet.NetworkStackLatency t)).1
            (Packet.NetworkStackLatency t)).1.executed
          = (ClientProcess other p (Packet.NetworkStackLatency t)).1.executed)
    ∧ (∀ (t1 t2 t3 : Int) (c1 c2 c3 : κ), t1 ≠ t2 → t1 ≠ t3 → t2 ≠ t3 →
        ackLookup t1 p.acknowledgements = some c1 →
        ackLookup t2 p.acknowledgements = some c2 →
        ackLookup t3 p.acknowledgements = some c3 →
        (clientAcks other p [t2, t1, t3]).executed = p.executed ++ [c2, c1, c3]) := by
  refine ⟨?_, ?_, ?_, ?_⟩
  · intro c hc
    rw [clientProcess_pending other p t c hc]
    exact ⟨rfl, rfl, ackLookup_ackDelete_self t _,
      fun t' ht' => ackLookup_ackDelete_ne t t' _ ht', fun e => mem_ackDelete t _ e⟩
  · intro hc
    rw [clientProcess_not_pending other p t hc]
    exact ⟨rfl, rfl, rfl⟩
  · have hnone : ackLookup t
        (ClientProcess other p (Packet.NetworkStackLatency t)).1.acknowledgements = none := by
      cases hc : ackLookup t p.acknowledgements with
      | none => rw [clientProcess_not_pending other p t hc]; exact hc
      | some c => rw [clientProcess_pending other p t c hc]; exact ackLookup_ackDelete_self t _
    rw [clientProcess_not_pending other _ t hnone]
    exact ⟨rfl, rfl⟩
  · intro t1 t2 t3 c1 c2 c3 h12 h13 h23 h1 h2 h3
    have s1 := clientProcess_pending other p t2 c2 h2
    have h1' : ackLookup t1 (ackDelete t2 p.acknowledgements) = some c1 := by
      rw [ackLookup_ackDelete_ne t2 t1 _ h12]; exact h1
    have h3' : ackLookup t3 (ackDelete t1 (ackDelete t2 p.acknowledgements)) = some c3 := by
      rw [ackLookup_ackDelete_ne t1 t3 _ (Ne.symm h13),
        ackLookup_ackDelete_ne t2 t3 _ (Ne.symm h23)]
      exact h3
    simp only [clientAcks, List.foldl]
    rw [s1, clientProcess_pending other _ t1 c1 h1', clientProcess_pending other _ t3 c3 h3']
    simp

/-- Three pending callbacks: acking `-3` fires `"B"` alone, and the acks `-3, -1, -5` fire `"B"`, `"A"`, `"C"`. -/
theorem ack_exactly_once_witness :
    ackLookup (-3) threePending.acknowledgements = some "B"
    ∧ (ClientProcess exampleOther threePending (Packet.NetworkStackLatency (-3))).2 = true
    ∧ (ClientProcess exampleOther threePending (Packet.NetworkStackLatency (-3))).1.executed
        = threePending.executed ++ ["B"]
    ∧ (clientAcks exampleOther threePending [-3, -1, -5]).executed
        = threePending.executed ++ ["B", "A", "C"] :=
  ⟨by decide,
   ((ack_exactly_once exampleOther threePending (-3)).1 "B" (by decide)).1,
   ((ack_exactly_once exampleOther threePending (-3)).1 "B" (by decide)).2.1,
   (ack_exactly_once exampleOther threePending (-3)).2.2.2 (-1) (-3) (-5) "A" "B" "C"
     (by decide) (by decide) (by decide) (by decide) (by decide) (by decide)⟩

/-- C9, as stated, fails: with `"A"` registered before `"B"` (timestamps `-1`
and `-3`), a client that acks `-3` and then `-1` makes `"B"` execute before
`"A"`. -/
theorem ack_order_not_registration_order :
    (clientAcks exampleOther
        (Acknowledgement (Acknowledgement freshPlayer (-1) "A") (-3) "B") [-3, -1]).executed
      = ["B", "A"]
    ∧ ¬ ComesBefore "A" "B"
        (clientAcks exampleOther
          (Acknowledgement (Acknowledgement freshPlayer (-1) "A") (-3) "B") [-3, -1]).executed := by
  have e : (clientAcks exampleOther
        (Acknowledgement (Acknowledgement freshPlayer (-1) "A") (-3) "B") [-3, -1]).executed
      = ["B", "A"] := by decide
  refine ⟨e, ?_⟩
  rw [e]
  intro hcb
  have := hcb [] ["A"] rfl
  simp at this

/-- A list that starts with `a` has `a` before every `b`, for `a ≠ b`. -/
theorem comesBefore_cons_self {α : Type} (a b : α) (l : List α) (hab : a ≠ b) :
    ComesBefore a b (a :: l) := by
  intro l1 l2 h
  cases l1 with
  | nil =>
    simp only [List.nil_append, List.cons.injEq] at h
    exact absurd h.1 hab
  | cons x l1 =>
    simp only [List.cons_append, List.cons.injEq] at h
    rw [← h.1]
    exact List.mem_cons_self _ _

/-- Putting an element other than `b` in front keeps `a` before `b`. -/
theorem comesBefore_cons_of_ne {α : Type} (a b c : α) (l : List α) (hcb : c ≠ b)
    (h : ComesBefore a b l) : ComesBefore a b (c :: l) := by
  intro l1 l2 e
  cases l1 with
  | nil =>
    simp only [List.nil_append, List.cons.injEq] at e
    exact absurd e.1 hcb
  | cons x l1 =>
    simp only [List.cons_append, List.cons.injEq] at e
    exact List.mem_cons_of_mem _ (h l1 l2 e.2)

/-- Dropping a head other than `a` keeps `a` before `b`. -/
theorem comesBefore_tail {α : Type} (a b x : α) (l : List α) (hxa : x ≠ a)
    (h : ComesBefore a b (x :: l)) : ComesBefore a b l := by
  intro l1 l2 e
  have hm : a ∈ x :: l1 := h (x :: l1) l2 (by rw [e]; rfl)
  rcases List.mem_cons.mp hm with h1 | h1
  · exact absurd h1.symm hxa
  · exact h1

/-- A list in which `a` comes before `b` does not start with `b`. -/
theorem comesBefore_head_ne {α : Type} (a b x : α) (l : List α)
    (h : ComesBefore a b (x :: l)) : x ≠ b := by
  intro hxb
  have hm : a ∈ ([] : List α) := h [] l (by rw [hxb]; rfl)
  simp at hm

/-- A prefix without `b` keeps `a` before `b`. -/
theorem comesBefore_append {α : Type} (a b : α) (pre l : List α) (hb : b ∉ pre)
    (h : ComesBefore a b l) : ComesBefore a b (pre ++ l) := by
  induction pre with
  | nil => simpa using h
  | cons x pre ih =>
    have hx : x ≠ b := fun e => hb (by rw [e]; exact List.mem_cons_self _ _)
    have hpre : b ∉ pre := fun e => hb (List.mem_cons_of_mem _ e)
    exact comesBefore_cons_of_ne a b x (pre ++ l) hx (ih hpre)

/-- The callbacks invoked by a run of acks are appended to the ones invoked before. -/
theorem clientAcks_executed {κ : Type} (other : Player κ → Packet → Player κ × Bool)
    (ts : List Int) (p : Player κ) :
    (clientAcks other p ts).executed = p.executed ++ firedCallbacks p.acknowledgements ts := by
  induction ts generalizing p with
  | nil => simp [clientAcks, firedCallbacks]
  | cons t ts ih =>
    have step : clientAcks other p (t :: ts)
        = clientAcks other (ClientProcess other p (Packet.NetworkStackLatency t)).1 ts := rfl
    rw [step, ih]
    cases hc : ackLookup t p.acknowledgements with
    | none =>
      rw [clientProcess_not_pending other p t hc]
      simp only [firedCallbacks, hc]
    | some c =>
      rw [clientProcess_pending other p t c hc]
      simp only [firedCallbacks, hc, List.append_assoc, List.singleton_append]

/-- The order of the callbacks fired follows the order of the client's acks. -/
theorem firedCallbacks_order {κ : Type} (tA tB : Int) (A B : κ) (hne : tA ≠ tB)
    (ts : List Int) (m : List (Int × κ))
    (hA : ackLookup tA m = some A) (hB : ackLookup tB m = some B)
    (hB1 : ∀ t c, ackLookup t m = some c → c = B → t = tB)
    (hts : ComesBefore tA tB ts) :
    ComesBefore A B (firedCallbacks m ts) := by
  induction ts generalizing m with
  | nil =>
    intro l1 l2 e
    simp [firedCallbacks] at e
  | cons t ts ih =>
    have htB : t ≠ tB := comesBefore_head_ne tA tB t ts hts
    by_cases htA : t = tA
    · have hAB : A ≠ B := fun e => hne (hB1 tA A hA e)
      simp only [firedCallbacks, htA, hA]
      exact comesBefore_cons_self A B _ hAB
    · have hts' : ComesBefore tA tB ts := comesBefore_tail tA tB t ts htA hts
      cases hc : ackLookup t m with
      | none =>
        simp only [firedCallbacks, hc]
        exact ih m hA hB hB1 hts'
      | some c =>
        simp only [firedCallbacks, hc]
        have hcB : c ≠ B := fun e => htB (hB1 t c hc e)
        refine comesBefore_cons_of_ne A B c _ hcB (ih (ackDelete t m) ?_ ?_ ?_ hts')
        · rw [ackLookup_ackDelete_ne t tA m (Ne.symm htA)]; exact hA
        · rw [ackLookup_ackDelete_ne t tB m (Ne.symm htB)]; exact hB
        · intro t' c' h' e'
          by_cases htt : t' = t
          · rw [htt, ackLookup_ackDelete_self] at h'
            exact absurd h' (by simp)
          · rw [ackLookup_ackDelete_ne t t' m htt] at h'
            exact hB1 t' c' h' e'

/-- C9, amended: the order of execution is the order of the client's acks, not
the order of registration. For callbacks `A`, pending under timestamp `tA`,
and `B`, pending under `tB ≠ tA` only and not executed yet, and for every
sequence of client `NetworkStackLatency` packets in which every ack of `tB`
comes after an ack of `tA`, `A` executes before `B` (or `B` does not
execute). -/
theorem ack_order_follows_client_acks {κ : Type}
    (other : Player κ → Packet → Player κ × Bool) (p : Player κ)
    (tA tB : Int) (A B : κ) (ts : List Int)
    (hne : tA ≠ tB)
    (hA : ackLookup tA p.acknowledgements = some A)
    (hB : ackLookup tB p.acknowledgements = some B)
    (hB1 : ∀ t c, ackLookup t p.acknowledgements = some c → c = B → t = tB)
    (hBn : B ∉ p.executed)
    (hts : ComesBefore tA tB ts) :
    ComesBefore A B (clientAcks other p ts).executed := by
  rw [clientAcks_executed]
  exact comesBefore_append A B _ _ hBn
    (firedCallbacks_order tA tB A B hne ts p.acknowledgements hA hB hB1 hts)

/-- Three pending callbacks acked in the order `-5, -1, -3`: `"A"` executes before `"B"`. -/
theorem ack_order_follows_client_acks_witness :
    (clientAcks exampleOther threePending [-5, -1, -3]).executed = ["C", "A", "B"]
    ∧ ComesBefore "A" "B" (clientAcks exampleOther threePending [-5, -1, -3]).executed :=
  ⟨by decide,
   ack_order_follows_client_acks exampleOther threePending (-1) (-3) "A" "B" [-5, -1, -3]
     (by decide) (by decide) (by decide)
     (by
       intro t c h e
       by_cases h1 : (-1 : Int) = t
       · have hc : ackLookup t threePending.acknowledgements = some "A" := by
           rw [← h1]; decide
         rw [hc] at h
         rw [← Option.some.inj h] at e
         exact absurd e (by decide)
       · by_cases h3 : (-3 : Int) = t
         · exact h3.symm
         · by_cases h5 : (-5 : Int) = t
           · have hc : ackLookup t threePending.acknowledgements = some "C" := by
               rw [← h5]; decide
             rw [hc] at h
             rw [← Option.some.inj h] at e
             exact absurd e (by decide)
           · have hc : ackLookup t threePending.acknowledgements = none := by
               simp [threePending, Acknowledgement, freshPlayer, ackDelete, ackLookup, h1, h3, h5]
             rw [hc] at h
             exact absurd h (by simp))
     (by decide)
     (comesBefore_cons_of_ne (-1) (-3) (-5) _ (by decide)
       (comesBefore_cons_self (-1) (-3) _ (by decide)))⟩

/-! ## Theorems: script-message gate -/

/-- C10: for every client `ScriptMessage` whose identifier contains the
substring `"oomph:"`, `HandleClientPacket` disconnects the player, consumes the
packet (returns true) and does not call `RunDetections`; for an identifier that
does not contain `"oomph:"` it does not disconnect, hands the packet to
`RunDetections` and does not consume it (returns false). -/
theorem script_message_gate (other : Packet → SwitchOutcome) (Identifier : String) :
    ("oomph:".data <:+: Identifier.data →
        (HandleClientPacket other (Packet.ScriptMessage Identifier)).2 = true
        ∧ (∃ reason, PacketEffect.disconnect reason
              ∈ (HandleClientPacket other (Packet.ScriptMessage Identifier)).1)
        ∧ (∀ pk, PacketEffect.runDetections pk
              ∉ (HandleClientPacket other (Packet.ScriptMessage Identifier)).1)
        ∧ HandleClientPacket other (Packet.ScriptMessage Identifier)
            = ([PacketEffect.disconnect "\t"], true))
    ∧ (¬ "oomph:".data <:+: Identifier.data →
        (HandleClientPacket other (Packet.ScriptMessage Identifier)).2 = false
        ∧ (∀ reason, PacketEffect.disconnect reason
              ∉ (HandleClientPacket other (Packet.ScriptMessage Identifier)).1)
        ∧ HandleClientPacket other (Packet.ScriptMessage Identifier)
            = ([PacketEffect.runDetections (Packet.ScriptMessage Identifier)], false)) := by
  constructor
  · intro hc
    have e : HandleClientPacket other (Packet.ScriptMessage Identifier)
        = ([PacketEffect.disconnect "\t"], true) := by
      simp [HandleClientPacket, stringsContains, hc]
    rw [e]
    simp
  · intro hc
    have e : HandleClientPacket other (Packet.ScriptMessage Identifier)
        = ([PacketEffect.runDetections (Packet.ScriptMessage Identifier)], false) := by
      simp [HandleClientPacket, stringsContains, hc]
    rw [e]
    simp

/-- The identifier `xoomph:flagged` is rejected and `oomph_latency` is passed to the detections. -/
theorem script_message_gate_witness :
    "oomph:".data <:+: "xoomph:flagged".data
    ∧ HandleClientPacket (fun _ => SwitchOutcome.mk [] none false)
        (Packet.ScriptMessage "xoomph:flagged") = ([PacketEffect.disconnect "\t"], true)
    ∧ ¬ "oomph:".data <:+: "oomph_latency".data
    ∧ HandleClientPacket (fun _ => SwitchOutcome.mk [] none false)
        (Packet.ScriptMessage "oomph_latency")
        = ([PacketEffect.runDetections (Packet.ScriptMessage "oomph_latency")], false) :=
  ⟨by decide,
   ((script_message_gate (fun _ => SwitchOutcome.mk [] none false) "xoomph:flagged").1
      (by decide)).2.2.2,
   by decide,
   ((script_message_gate (fun _ => SwitchOutcome.mk [] none false) "oomph_latency").2
      (by decide)).2.2⟩

/-! ## Theorems: start of the game -/

namespace Movement

/-- C11: for every `GameData` passed to `StartGameContext`, the data forwarded
to the connection has `MovementType = PlayerMovementModeServerWithRewind` and
`RewindHistorySize = 100` whatever the input values were, every other field is
forwarded unchanged, and the player's server position is the start position
lowered by 1.62 on Y, with on-ground set. -/
theorem startGameContext_overrides {γ : Type} (p : Player) (data : GameData γ) :
    (StartGameContext p data).2.PlayerMovementSettings.MovementType
        = PlayerMovementModeServerWithRewind
    ∧ (StartGameContext p data).2.PlayerMovementSettings.RewindHistorySize = 100
    ∧ (StartGameContext p data).2.PlayerMovementSettings.ServerAuthoritativeBlockBreaking
        = data.PlayerMovementSettings.ServerAuthoritativeBlockBreaking
    ∧ (StartGameContext p data).2.PlayerPosition = data.PlayerPosition
    ∧ (StartGameContext p data).2.rest = data.rest
    ∧ (StartGameContext p data).1.mInfo.ServerPosition
        = Vec3.mk data.PlayerPosition.X (data.PlayerPosition.Y - 81 / 50) data.PlayerPosition.Z
    ∧ (StartGameContext p data).1.mInfo.OnGround = true := by
  refine ⟨rfl, rfl, rfl, rfl, rfl, ?_, rfl⟩
  simp [StartGameContext, Vec3.Sub]

end Movement

/-! ## Theorems: chunk acknowledgements -/

namespace acknowledgement

/-- C12: for every `LevelChunk` or `SubChunk` packet with `CacheEnabled` set,
running its acknowledgement (`ChunkUpdate.Run`, `SubChunkUpdate.Run`)
disconnects the player with the reason `ErrorChunkCacheUnsupported` and makes
no other call: nothing is decoded, and the world shadow is left as it was. -/
theorem cache_enabled_rejected (d : Decoders) (s : State) :
    (∀ pk : LevelChunk, pk.CacheEnabled = true →
        (ChunkUpdate.Run d pk s).world = s.world
        ∧ (ChunkUpdate.Run d pk s).calls
            = s.calls ++ [Call.Disconnect Reason.ErrorChunkCacheUnsupported])
    ∧ (∀ pk : SubChunk, pk.CacheEnabled = true →
        (SubChunkUpdate.Run d pk s).world = s.world
        ∧ (SubChunkUpdate.Run d pk s).calls
            = s.calls ++ [Call.Disconnect Reason.ErrorChunkCacheUnsupported]) := by
  constructor
  · intro pk h
    simp [ChunkUpdate.Run, h]
  · intro pk h
    simp [SubChunkUpdate.Run, h]

/-- A cached `LevelChunk` and a cached `SubChunk` with one entry, run against a
world shadow holding one chunk. -/
theorem cache_enabled_rejected_witness :
    (ChunkUpdate.Run (Decoders.mk (fun _ _ => Except.ok (Chunk.mk [])) (fun _ _ => Except.ok (0, 0))
        (Chunk.mk [0])) (LevelChunk.mk true [1, 2] 4)
        (State.mk [(ChunkPos.mk 0 0, Chunk.mk [7])] [])).calls
      = [] ++ [Call.Disconnect Reason.ErrorChunkCacheUnsupported]
    ∧ (SubChunkUpdate.Run (Decoders.mk (fun _ _ => Except.ok (Chunk.mk []))
        (fun _ _ => Except.ok (0, 0)) (Chunk.mk [0]))
        (SubChunk.mk true (0, 0, 0) [SubChunkEntry.mk (0, 0, 0) 1 [9]])
        (State.mk [(ChunkPos.mk 0 0, Chunk.mk [7])] [])).world
      = [(ChunkPos.mk 0 0, Chunk.mk [7])] :=
  ⟨((cache_enabled_rejected _ _).1 (LevelChunk.mk true [1, 2] 4) rfl).2,
   ((cache_enabled_rejected _ _).2
      (SubChunk.mk true (0, 0, 0) [SubChunkEntry.mk (0, 0, 0) 1 [9]]) rfl).1⟩

end acknowledgement

/-! ## Theorems: collisions -/

namespace Movement

/-- C13, as stated, fails: for the velocity `(0.2, -0.1, 0.4)` against a box
diagonally ahead, the code resolves Y, then Z (the larger of the two
horizontal components), then X, and returns `(0.1, -0.1, 0.4)`; resolving the
smaller component X before Z, as the claim has it, gives `(0.2, -0.1, 0.2)`. -/
theorem collideWithBlocks_larger_axis_first :
    collideWithBlocks (boxWorld [cornerBox]) (Vec3.mk (1 / 5) (-(1 / 10)) (2 / 5)) unitBox
        [cornerBox] = Vec3.mk (1 / 10) (-(1 / 10)) (2 / 5)
    ∧ collideSmallerFirst (boxWorld [cornerBox]) (Vec3.mk (1 / 5) (-(1 / 10)) (2 / 5)) unitBox
        [cornerBox] = Vec3.mk (1 / 5) (-(1 / 10)) (1 / 5)
    ∧ collideWithBlocks (boxWorld [cornerBox]) (Vec3.mk (1 / 5) (-(1 / 10)) (2 / 5)) unitBox
        [cornerBox]
      ≠ collideSmallerFirst (boxWorld [cornerBox]) (Vec3.mk (1 / 5) (-(1 / 10)) (2 / 5)) unitBox
        [cornerBox] := by
  have e1 : collideWithBlocks (boxWorld [cornerBox]) (Vec3.mk (1 / 5) (-(1 / 10)) (2 / 5)) unitBox
      [cornerBox] = Vec3.mk (1 / 10) (-(1 / 10)) (2 / 5) := by
    norm_num [collideWithBlocks, boxWorld, DoBoxCollision, axisOffset, overlapsOthers, overlapsOn,
      CollisionAxis.coord, CollisionAxis.vec, BBox.Translate, Vec3.Add, unitBox, cornerBox,
      abs_of_pos]
  have e2 : collideSmallerFirst (boxWorld [cornerBox]) (Vec3.mk (1 / 5) (-(1 / 10)) (2 / 5))
      unitBox [cornerBox] = Vec3.mk (1 / 5) (-(1 / 10)) (1 / 5) := by
    norm_num [collideSmallerFirst, boxWorld, DoBoxCollision, axisOffset, overlapsOthers,
      overlapsOn, CollisionAxis.coord, CollisionAxis.vec, BBox.Translate, Vec3.Add, unitBox,
      cornerBox, abs_of_pos]
  refine ⟨e1, e2, ?_⟩
  rw [e1, e2]
  intro h
  have hx := congrArg Vec3.X h
  norm_num at hx

/-- C13, amended: for every velocity with non-zero components and every
non-empty list of boxes, `collideWithBlocks` resolves Y first, then whichever
of X and Z has the larger absolute velocity (X when they are equal), then the
remaining horizontal axis, each later axis being resolved against the bounding
box translated by the earlier ones. -/
theorem collideWithBlocks_axis_order (w : World) (vel : Vec3) (bb : BBox) (list : List BBox)
    (hl : list ≠ []) (hx : vel.X ≠ 0) (hy : vel.Y ≠ 0) (hz : vel.Z ≠ 0) :
    (|vel.X| < |vel.Z| →
      collideWithBlocks w vel bb list
        = Vec3.mk
            (w.DoBoxCollision CollisionAxis.CollisionX
              (w.DoBoxCollision CollisionAxis.CollisionZ
                (w.DoBoxCollision CollisionAxis.CollisionY bb list vel.Y).1 list vel.Z).1
              list vel.X).2
            (w.DoBoxCollision CollisionAxis.CollisionY bb list vel.Y).2
            (w.DoBoxCollision CollisionAxis.CollisionZ
              (w.DoBoxCollision CollisionAxis.CollisionY bb list vel.Y).1 list vel.Z).2)
    ∧ (¬ |vel.X| < |vel.Z| →
      collideWithBlocks w vel bb list
        = Vec3.mk
            (w.DoBoxCollision CollisionAxis.CollisionX
              (w.DoBoxCollision CollisionAxis.CollisionY bb list vel.Y).1 list vel.X).2
            (w.DoBoxCollision CollisionAxis.CollisionY bb list vel.Y).2
            (w.DoBoxCollision CollisionAxis.CollisionZ
              (w.DoBoxCollision CollisionAxis.CollisionX
                (w.DoBoxCollision CollisionAxis.CollisionY bb list vel.Y).1 list vel.X).1
              list vel.Z).2) := by
  have hlen : ¬ list.length = 0 := by
    intro h
    exact hl (List.length_eq_zero.mp h)
  constructor
  · intro hlt
    simp [collideWithBlocks, hlen, hx, hy, hz, hlt]
  · intro hlt
    simp [collideWithBlocks, hlen, hx, hy, hz, hlt]

/-- The axis order at the velocity `(0.2, -0.1, 0.4)`, where Z is the larger
horizontal component. -/
theorem collideWithBlocks_axis_order_witness :
    collideWithBlocks (boxWorld [cornerBox]) (Vec3.mk (1 / 5) (-(1 / 10)) (2 / 5)) unitBox
        [cornerBox]
      = Vec3.mk
          ((boxWorld [cornerBox]).DoBoxCollision CollisionAxis.CollisionX
            ((boxWorld [cornerBox]).DoBoxCollision CollisionAxis.CollisionZ
              ((boxWorld [cornerBox]).DoBoxCollision CollisionAxis.CollisionY unitBox [cornerBox]
                (Vec3.mk (1 / 5) (-(1 / 10)) (2 / 5)).Y).1 [cornerBox]
              (Vec3.mk (1 / 5) (-(1 / 10)) (2 / 5)).Z).1
            [cornerBox] (Vec3.mk (1 / 5) (-(1 / 10)) (2 / 5)).X).2
          ((boxWorld [cornerBox]).DoBoxCollision CollisionAxis.CollisionY unitBox [cornerBox]
            (Vec3.mk (1 / 5) (-(1 / 10)) (2 / 5)).Y).2
          ((boxWorld [cornerBox]).DoBoxCollision CollisionAxis.CollisionZ
            ((boxWorld [cornerBox]).DoBoxCollision CollisionAxis.CollisionY unitBox [cornerBox]
              (Vec3.mk (1 / 5) (-(1 / 10)) (2 / 5)).Y).1 [cornerBox]
            (Vec3.mk (1 / 5) (-(1 / 10)) (2 / 5)).Z).2 :=
  (collideWithBlocks_axis_order (boxWorld [cornerBox]) (Vec3.mk (1 / 5) (-(1 / 10)) (2 / 5))
    unitBox [cornerBox] (by simp) (by norm_num) (by norm_num) (by norm_num)).1
    (by norm_num [abs_of_pos])

/-- C14, as stated, fails for the Y axis: a player on the ground moving with
`(0.3, 0, 0)` into a slab half a block high has Y velocity zero on entry to
`collide`; the step-up is accepted with the stepped velocity `(0.3, 0.5, 0)`,
and after `collide` and `checkCollisions` `VerticallyCollided` is true. -/
theorem zero_y_velocity_collides_by_step_up :
    (playerWith { restingInfo with ServerMovement := Vec3.mk (3 / 10) 0 0 }).mInfo.ServerMovement.Y
        = 0
    ∧ (collide (boxWorld [slabAhead])
        (playerWith { restingInfo with ServerMovement := Vec3.mk (3 / 10) 0 0 })).mInfo.ServerMovement
        = Vec3.mk (3 / 10) (1 / 2) 0
    ∧ (travelResolve (boxWorld [slabAhead])
        (playerWith { restingInfo with ServerMovement := Vec3.mk (3 / 10) 0 0 })).mInfo.VerticallyCollided
        = true := by
  have e : (collide (boxWorld [slabAhead])
        (playerWith { restingInfo with ServerMovement := Vec3.mk (3 / 10) 0 0 })).mInfo.ServerMovement
        = Vec3.mk (3 / 10) (1 / 2) 0 := by
    norm_num [collide, stepConsidered, collideNormal, collideStep, collideWithBlocks, boxWorld,
      DoBoxCollision, axisOffset, overlapsOthers, overlapsOn, CollisionAxis.coord,
      CollisionAxis.vec, BBox.Translate, BBox.Extend, BBox.IntersectsWith, Vec3.Add, Vec3.LenSqr,
      Vec3HzDistSqr, StepHeight, playerWith, restingInfo, slabAhead]
  refine ⟨rfl, e, ?_⟩
  simp only [travelResolve, checkCollisions, e]
  norm_num [playerWith, restingInfo]

/-- The normal resolve leaves a zero X velocity at zero. -/
theorem collideNormal_X_zero (w : World) (p : Player) (h : p.mInfo.ServerMovement.X = 0) :
    (collideNormal w p).X = 0 := by
  unfold collideNormal collideWithBlocks
  split_ifs <;> simp_all

/-- The normal resolve leaves a zero Y velocity at zero. -/
theorem collideNormal_Y_zero (w : World) (p : Player) (h : p.mInfo.ServerMovement.Y = 0) :
    (collideNormal w p).Y = 0 := by
  unfold collideNormal collideWithBlocks
  split_ifs <;> simp_all

/-- The normal resolve leaves a zero Z velocity at zero. -/
theorem collideNormal_Z_zero (w : World) (p : Player) (h : p.mInfo.ServerMovement.Z = 0) :
    (collideNormal w p).Z = 0 := by
  unfold collideNormal collideWithBlocks
  split_ifs <;> simp_all

/-- The velocity `collide` leaves is the stepped one when the step-up is
accepted and the normally resolved one otherwise. -/
theorem collide_serverMovement (w : World) (p : Player) :
    (collide w p).mInfo.ServerMovement
      = if stepAccepted w p then collideStep w p else collideNormal w p := by
  unfold collide stepAccepted
  by_cases h1 : stepConsidered w p = true
  · by_cases h2 : Vec3HzDistSqr (collideNormal w p) < Vec3HzDistSqr (collideStep w p)
    · simp [h1, h2]
    · simp [h1, h2]
  · simp [h1]

/-- The collision flags after `collide` and `checkCollisions`, from the velocity
before and after `collide`. -/
theorem travelResolve_flags (w : World) (p : Player) :
    (travelResolve w p).mInfo.XCollision
        = ! FloatEqualThreshold p.mInfo.ServerMovement.X (collide w p).mInfo.ServerMovement.X
            (1 / 100000)
    ∧ (travelResolve w p).mInfo.ZCollision
        = ! FloatEqualThreshold p.mInfo.ServerMovement.Z (collide w p).mInfo.ServerMovement.Z
            (1 / 100000)
    ∧ (travelResolve w p).mInfo.VerticallyCollided
        = decide (p.mInfo.ServerMovement.Y ≠ (collide w p).mInfo.ServerMovement.Y)
    ∧ (travelResolve w p).mInfo.OnGround
        = (decide (p.mInfo.ServerMovement.Y ≠ (collide w p).mInfo.ServerMovement.Y)
            && decide (p.mInfo.ServerMovement.Y < 0)) := by
  simp [travelResolve, checkCollisions]

/-- The spec-modelled `DoBoxCollision` returns velocity zero for velocity zero. -/
theorem doBoxCollision_zero (a : CollisionAxis) (bb : BBox) (list : List BBox) :
    (DoBoxCollision a bb list 0).2 = 0 := by
  have h : ∀ l : List BBox, l.foldl (fun d nearby => axisOffset a bb nearby d) 0 = 0 := by
    intro l
    induction l with
    | nil => rfl
    | cons b l ih =>
      have hb : axisOffset a bb b 0 = 0 := by
        unfold axisOffset
        split_ifs <;> simp_all
      simp only [List.foldl_cons, hb, ih]
  simp [DoBoxCollision, h]

/-- C14, amended: if the X (or Z) component of the server movement is zero on
entry to `collide`, then after `collide` and `checkCollisions` the flag
`XCollision` (`ZCollision`) is false, for a `DoBoxCollision` that returns
velocity zero for velocity zero; if the Y component is zero on entry,
`VerticallyCollided` is true exactly when the step-up is accepted with a
non-zero stepped Y velocity. -/
theorem zero_velocity_axis_flags (w : World) (p : Player)
    (hzero : ∀ a bb l, (w.DoBoxCollision a bb l 0).2 = 0) :
    (p.mInfo.ServerMovement.X = 0 → (travelResolve w p).mInfo.XCollision = false)
    ∧ (p.mInfo.ServerMovement.Z = 0 → (travelResolve w p).mInfo.ZCollision = false)
    ∧ (p.mInfo.ServerMovement.Y = 0 →
        ((travelResolve w p).mInfo.VerticallyCollided = true
          ↔ stepAccepted w p = true ∧ (collideStep w p).Y ≠ 0)) := by
  obtain ⟨fx, fz, fy, _⟩ := travelResolve_flags w p
  refine ⟨?_, ?_, ?_⟩
  · intro h
    have e : (collide w p).mInfo.ServerMovement.X = 0 := by
      rw [collide_serverMovement]
      split_ifs
      · simp [collideStep, h, hzero]
      · exact collideNormal_X_zero w p h
    rw [fx, h, e]
    simp [FloatEqualThreshold]
  · intro h
    have e : (collide w p).mInfo.ServerMovement.Z = 0 := by
      rw [collide_serverMovement]
      split_ifs
      · simp [collideStep, h, hzero]
      · exact collideNormal_Z_zero w p h
    rw [fz, h, e]
    simp [FloatEqualThreshold]
  · intro h
    rw [fy, h, collide_serverMovement]
    by_cases ha : stepAccepted w p = true
    · simp only [ha, if_true, true_and, decide_eq_true_eq]
      exact ⟨fun hne e => hne e.symm, fun hne e => hne e.symm⟩
    · simp [ha, collideNormal_Y_zero w p h]

/-- The zero-velocity axes of the player moving with `(0.3, 0, 0)` into the slab. -/
theorem zero_velocity_axis_flags_witness :
    (travelResolve (boxWorld [slabAhead])
        (playerWith { restingInfo with ServerMovement := Vec3.mk (3 / 10) 0 0 })).mInfo.ZCollision
      = false :=
  (zero_velocity_axis_flags (boxWorld [slabAhead])
    (playerWith { restingInfo with ServerMovement := Vec3.mk (3 / 10) 0 0 })
    (fun a bb l => doBoxCollision_zero a bb l)).2.1 rfl

/-! ### Deadzone -/

/-- C15, as stated, fails: a player rising with Y velocity `0.082` in an empty
world, under gravity `0.08`, ends `aiStep` with Y velocity
`(0.082 - 0.08) · 0.98 = 0.00196`, which is neither zero nor at least `0.003`
in magnitude. -/
theorem aiStep_leaves_small_velocity :
    (aiStep (boxWorld [])
        (playerWith { restingInfo with ServerMovement := Vec3.mk 0 (41 / 500) 0 })).mInfo.ServerMovement.Y
      = 49 / 25000
    ∧ ¬ (|(aiStep (boxWorld [])
        (playerWith { restingInfo with ServerMovement := Vec3.mk 0 (41 / 500) 0 })).mInfo.ServerMovement.Y|
          ≥ 3 / 1000
        ∨ (aiStep (boxWorld [])
        (playerWith { restingInfo with ServerMovement := Vec3.mk 0 (41 / 500) 0 })).mInfo.ServerMovement.Y
          = 0) := by
  have e : (aiStep (boxWorld [])
        (playerWith { restingInfo with ServerMovement := Vec3.mk 0 (41 / 500) 0 })).mInfo.ServerMovement.Y
      = 49 / 25000 := by
    norm_num [aiStep, aiStepDeadzone, aiStepBeforeTravel, travel, travelBeforeCollide,
      travelResolve, travelAfterCollisions, checkUnsupportedMovementScenarios, checkCollisions,
      simulateAddedMovementForce, simulateGravity, simulateHorizontalFriction,
      maybeBackOffFromEdge, collide, stepConsidered, collideNormal, collideWithBlocks,
      Player.setServerMovement, MovementInfo.getFrictionInfluencedSpeed, FloatEqualThreshold,
      boxWorld, airBlock, playerWith, restingInfo, GravityMultiplier, Vec3.Add, Vec3.LenSqr,
      PosFromVec3, BlockPos.down, abs_of_pos]
  rw [e]
  norm_num [abs_of_pos]

/-- C15, amended: the deadzone holds where `aiStep` applies it, at its start.
After the first part of every simulation step (the reset of an immobile player
and the deadzone), each component `v` of the server-predicted movement
satisfies `|v| ≥ 0.003` or `v = 0`, for X, Y and Z, and the rest of the step
(motion sent by the server, jump, forces, collisions, gravity, friction) runs
from that movement. -/
theorem aiStep_deadzone_on_entry (w : World) (p : Player) :
    (|(aiStepDeadzone p).mInfo.ServerMovement.X| ≥ 3 / 1000
        ∨ (aiStepDeadzone p).mInfo.ServerMovement.X = 0)
    ∧ (|(aiStepDeadzone p).mInfo.ServerMovement.Y| ≥ 3 / 1000
        ∨ (aiStepDeadzone p).mInfo.ServerMovement.Y = 0)
    ∧ (|(aiStepDeadzone p).mInfo.ServerMovement.Z| ≥ 3 / 1000
        ∨ (aiStepDeadzone p).mInfo.ServerMovement.Z = 0)
    ∧ aiStep w p
        = checkUnsupportedMovementScenarios w
            (travel w (aiStepBeforeTravel w (aiStepDeadzone p))) := by
  refine ⟨?_, ?_, ?_, rfl⟩
  · simp only [aiStepDeadzone, Player.setServerMovement]
    split_ifs <;> first | exact Or.inr rfl | (left; simp_all)
  · simp only [aiStepDeadzone, Player.setServerMovement]
    split_ifs <;> first | exact Or.inr rfl | (left; simp_all)
  · simp only [aiStepDeadzone, Player.setServerMovement]
    split_ifs <;> first | exact Or.inr rfl | (left; simp_all)

/-! ### On-ground coherence -/

/-- The collision flags are not written by `checkUnsupportedMovementScenarios`. -/
theorem checkUnsupported_flags (w : World) (r : Player) :
    (checkUnsupportedMovementScenarios w r).mInfo.OnGround = r.mInfo.OnGround
    ∧ (checkUnsupportedMovementScenarios w r).mInfo.VerticallyCollided = r.mInfo.VerticallyCollided
    ∧ (checkUnsupportedMovementScenarios w r).mInfo.XCollision = r.mInfo.XCollision
    ∧ (checkUnsupportedMovementScenarios w r).mInfo.ZCollision = r.mInfo.ZCollision := by
  unfold checkUnsupportedMovementScenarios setMovementToClient
  simp only []
  split_ifs <;> exact ⟨rfl, rfl, rfl, rfl⟩

/-- The collision flags are not written by the last part of `travel`. -/
theorem travelAfterCollisions_flags (w : World) (bf : ℚ) (near : Bool) (r : Player) :
    (travelAfterCollisions w bf near r).mInfo.OnGround = r.mInfo.OnGround
    ∧ (travelAfterCollisions w bf near r).mInfo.VerticallyCollided = r.mInfo.VerticallyCollided
    ∧ (travelAfterCollisions w bf near r).mInfo.XCollision = r.mInfo.XCollision
    ∧ (travelAfterCollisions w bf near r).mInfo.ZCollision = r.mInfo.ZCollision := by
  obtain ⟨h1, h2, h3, h4⟩ := checkUnsupported_flags w r
  unfold travelAfterCollisions simulateHorizontalFriction simulateGravity Player.setServerMovement
  simp only []
  split_ifs <;> exact ⟨h1, h2, h3, h4⟩

/-- The collision flags at the end of a full step of `updateMovementState` are
the ones `checkCollisions` computed. -/
theorem fullStep_flags (w : World) (p : Player) (hfull : exemptCondition p = false) :
    (updateMovementState w p).1.mInfo.OnGround
        = (travelResolve w (fullStepBeforeCollide w p)).mInfo.OnGround
    ∧ (updateMovementState w p).1.mInfo.VerticallyCollided
        = (travelResolve w (fullStepBeforeCollide w p)).mInfo.VerticallyCollided
    ∧ (updateMovementState w p).1.mInfo.XCollision
        = (travelResolve w (fullStepBeforeCollide w p)).mInfo.XCollision
    ∧ (updateMovementState w p).1.mInfo.ZCollision
        = (travelResolve w (fullStepBeforeCollide w p)).mInfo.ZCollision := by
  have hu : ∀ r : Player, (checkUnsupportedMovementScenarios w r).mInfo.OnGround = r.mInfo.OnGround
      ∧ (checkUnsupportedMovementScenarios w r).mInfo.VerticallyCollided
          = r.mInfo.VerticallyCollided
      ∧ (checkUnsupportedMovementScenarios w r).mInfo.XCollision = r.mInfo.XCollision
      ∧ (checkUnsupportedMovementScenarios w r).mInfo.ZCollision = r.mInfo.ZCollision :=
    checkUnsupported_flags w
  simp only [updateMovementState, hfull, Bool.false_eq_true, if_false, aiStep, travel,
    MovementInfo.UpdateTickStatus, fullStepBeforeCollide]
  refine ⟨?_, ?_, ?_, ?_⟩
  · rw [(hu _).1, (travelAfterCollisions_flags w _ _ _).1]
  · rw [(hu _).2.1, (travelAfterCollisions_flags w _ _ _).2.1]
  · rw [(hu _).2.2.1, (travelAfterCollisions_flags w _ _ _).2.2.1]
  · rw [(hu _).2.2.2, (travelAfterCollisions_flags w _ _ _).2.2.2]

/-- C16, as stated, fails: a player standing on a floor with the Y velocity
`-0.0784` that gravity left collides vertically in a full step, and at the
end of the step, with `OnGround` and `VerticallyCollided` set, the collided Y
component of the server movement is `-0.0784` again, not zero: gravity is
applied after `checkCollisions`. -/
theorem collided_y_not_zero_after_full_step :
    (updateMovementState (boxWorld [floorBox])
        (playerWith { restingInfo with ServerMovement := Vec3.mk 0 (-(49 / 625)) 0 })).1.mInfo.OnGround
      = true
    ∧ (updateMovementState (boxWorld [floorBox])
        (playerWith { restingInfo with ServerMovement := Vec3.mk 0 (-(49 / 625)) 0 })).1.mInfo.VerticallyCollided
      = true
    ∧ (updateMovementState (boxWorld [floorBox])
        (playerWith { restingInfo with ServerMovement := Vec3.mk 0 (-(49 / 625)) 0 })).1.mInfo.ServerMovement.Y
      = -(49 / 625)
    ∧ (updateMovementState (boxWorld [floorBox])
        (playerWith { restingInfo with ServerMovement := Vec3.mk 0 (-(49 / 625)) 0 })).1.mInfo.ServerMovement.Y
      ≠ 0 := by
  have e : (updateMovementState (boxWorld [floorBox])
        (playerWith { restingInfo with ServerMovement := Vec3.mk 0 (-(49 / 625)) 0 })).1.mInfo
      = { restingInfo with ServerMovement := Vec3.mk 0 (-(49 / 625)) 0,
                           MotionTicks := 6, RefreshBlockTicks := 1, JumpCooldownTicks := -1 } := by
    norm_num [updateMovementState, exemptCondition, aiStep, aiStepDeadzone, aiStepBeforeTravel,
      travel, travelBeforeCollide,
      travelResolve, travelAfterCollisions, checkUnsupportedMovementScenarios, checkCollisions,
      simulateAddedMovementForce, simulateGravity, simulateHorizontalFriction,
      maybeBackOffFromEdge, collide, stepConsidered, collideNormal, collideWithBlocks,
      Player.setServerMovement, MovementInfo.getFrictionInfluencedSpeed, FloatEqualThreshold,
      MovementInfo.UpdateTickStatus, wrapUint32, wrapInt32,
      DoBoxCollision, axisOffset, overlapsOthers, overlapsOn, CollisionAxis.coord,
      CollisionAxis.vec, BBox.Translate, BBox.Extend, BBox.IntersectsWith,
      boxWorld, airBlock, playerWith, restingInfo, floorBox, GravityMultiplier, Vec3.Add,
      Vec3.LenSqr, PosFromVec3, BlockPos.down, abs_of_pos, abs_of_neg]
    rfl
  rw [e]
  norm_num [restingInfo]

/-- Outside an unsupported rewind scenario `checkUnsupportedMovementScenarios`
changes nothing. -/
theorem checkUnsupported_supported (w : World) (r : Player)
    (h : (checkUnsupportedMovementScenarios w r).mInfo.InUnsupportedRewindScenario = false) :
    checkUnsupportedMovementScenarios w r = r := by
  unfold checkUnsupportedMovementScenarios setMovementToClient at h ⊢
  simp only [] at h ⊢
  split_ifs at h ⊢ <;> simp_all

/-- `checkCollisions` sets every collided component of the server movement to
zero. -/
theorem checkCollisions_zeroes (old : Vec3) (q : Player) :
    ((checkCollisions old q).mInfo.VerticallyCollided = true →
        (checkCollisions old q).mInfo.ServerMovement.Y = 0)
    ∧ ((checkCollisions old q).mInfo.XCollision = true →
        (checkCollisions old q).mInfo.ServerMovement.X = 0)
    ∧ ((checkCollisions old q).mInfo.ZCollision = true →
        (checkCollisions old q).mInfo.ServerMovement.Z = 0) := by
  unfold checkCollisions
  simp only []
  refine ⟨?_, ?_, ?_⟩ <;> intro h <;> split_ifs <;> simp_all

/-- Outside an unsupported rewind scenario the last part of `travel` keeps a
zero X or Z component of the server movement at zero. -/
theorem travelAfterCollisions_horizontal_zero (w : World) (bf : ℚ) (near : Bool) (r : Player)
    (h : (travelAfterCollisions w bf near r).mInfo.InUnsupportedRewindScenario = false) :
    (r.mInfo.ServerMovement.X = 0 → (travelAfterCollisions w bf near r).mInfo.ServerMovement.X = 0)
    ∧ (r.mInfo.ServerMovement.Z = 0 →
        (travelAfterCollisions w bf near r).mInfo.ServerMovement.Z = 0) := by
  have hu : (checkUnsupportedMovementScenarios w r).mInfo.InUnsupportedRewindScenario = false := by
    unfold travelAfterCollisions simulateHorizontalFriction simulateGravity
      Player.setServerMovement at h
    simp only [] at h
    split_ifs at h <;> simp_all
  have e := checkUnsupported_supported w r hu
  unfold travelAfterCollisions simulateHorizontalFriction simulateGravity Player.setServerMovement
  simp only [e]
  constructor <;> intro hz <;> split_ifs <;> simp_all

/-- C16, amended: after every call of `updateMovementState` (exempt or full
step) `OnGround` implies `VerticallyCollided`; after a full step `OnGround`
holds exactly when `collide` changed the Y velocity and the Y velocity before
`collide` was below zero; `checkCollisions` sets every collided component of
the server movement to zero, and at the end of a full step that is not in an
unsupported rewind scenario a collided X or Z component is still zero. (The Y
component has gravity applied after `checkCollisions`.) -/
theorem onGround_coherence (w : World) (p : Player) :
    ((updateMovementState w p).1.mInfo.OnGround = true →
        (updateMovementState w p).1.mInfo.VerticallyCollided = true)
    ∧ (exemptCondition p = false →
        ((updateMovementState w p).1.mInfo.OnGround = true ↔
          ((fullStepBeforeCollide w p).mInfo.ServerMovement.Y
              ≠ (collide w (fullStepBeforeCollide w p)).mInfo.ServerMovement.Y
            ∧ (fullStepBeforeCollide w p).mInfo.ServerMovement.Y < 0)))
    ∧ (∀ (old : Vec3) (q : Player),
        ((checkCollisions old q).mInfo.VerticallyCollided = true →
            (checkCollisions old q).mInfo.ServerMovement.Y = 0)
        ∧ ((checkCollisions old q).mInfo.XCollision = true →
            (checkCollisions old q).mInfo.ServerMovement.X = 0)
        ∧ ((checkCollisions old q).mInfo.ZCollision = true →
            (checkCollisions old q).mInfo.ServerMovement.Z = 0))
    ∧ (exemptCondition p = false →
        (updateMovementState w p).1.mInfo.InUnsupportedRewindScenario = false →
        ((updateMovementState w p).1.mInfo.XCollision = true →
            (updateMovementState w p).1.mInfo.ServerMovement.X = 0)
        ∧ ((updateMovementState w p).1.mInfo.ZCollision = true →
            (updateMovementState w p).1.mInfo.ServerMovement.Z = 0)) := by
  refine ⟨?_, ?_, checkCollisions_zeroes, ?_⟩
  · by_cases hex : exemptCondition p = true
    · intro _
      simp [updateMovementState, hex, MovementInfo.UpdateTickStatus]
    · have hfull : exemptCondition p = false := by simpa using hex
      obtain ⟨h1, h2, _, _⟩ := fullStep_flags w p hfull
      obtain ⟨_, _, f3, f4⟩ := travelResolve_flags w (fullStepBeforeCollide w p)
      rw [h1, h2, f3, f4]
      intro h
      simp only [Bool.and_eq_true] at h
      exact h.1
  · intro hfull
    obtain ⟨h1, _, _, _⟩ := fullStep_flags w p hfull
    obtain ⟨_, _, _, f4⟩ := travelResolve_flags w (fullStepBeforeCollide w p)
    rw [h1, f4]
    simp
  · intro hfull hsup
    obtain ⟨_, _, h3, h4⟩ := fullStep_flags w p hfull
    rw [h3, h4]
    have hz := checkCollisions_zeroes
    simp only [updateMovementState, hfull, Bool.false_eq_true, if_false, aiStep, travel,
      MovementInfo.UpdateTickStatus] at hsup ⊢
    have e1 := checkUnsupported_supported w _ hsup
    rw [e1] at hsup ⊢
    have hh := travelAfterCollisions_horizontal_zero w _ _ _ hsup
    constructor
    · intro hx
      exact hh.1 ((hz _ _).2.1 hx)
    · intro hx
      exact hh.2 ((hz _ _).2.2 hx)

/-- The floor example: the player standing on the floor is on the ground and
vertically collided after the step. -/
theorem onGround_coherence_witness :
    (updateMovementState (boxWorld [floorBox])
        (playerWith { restingInfo with ServerMovement := Vec3.mk 0 (-(49 / 625)) 0 })).1.mInfo.OnGround
      = true
    ∧ (updateMovementState (boxWorld [floorBox])
        (playerWith { restingInfo with ServerMovement := Vec3.mk 0 (-(49 / 625)) 0 })).1.mInfo.VerticallyCollided
      = true := by
  have e : (updateMovementState (boxWorld [floorBox])
        (playerWith { restingInfo with ServerMovement := Vec3.mk 0 (-(49 / 625)) 0 })).1.mInfo.OnGround
      = true := by
    norm_num [updateMovementState, exemptCondition, aiStep, aiStepDeadzone, aiStepBeforeTravel,
      travel, travelBeforeCollide,
      travelResolve, travelAfterCollisions, checkUnsupportedMovementScenarios, checkCollisions,
      simulateAddedMovementForce, simulateGravity, simulateHorizontalFriction,
      maybeBackOffFromEdge, collide, stepConsidered, collideNormal, collideWithBlocks,
      Player.setServerMovement, MovementInfo.getFrictionInfluencedSpeed, FloatEqualThreshold,
      MovementInfo.UpdateTickStatus, wrapUint32, wrapInt32,
      DoBoxCollision, axisOffset, overlapsOthers, overlapsOn, CollisionAxis.coord,
      CollisionAxis.vec, BBox.Translate, BBox.Extend, BBox.IntersectsWith,
      boxWorld, airBlock, playerWith, restingInfo, floorBox, GravityMultiplier, Vec3.Add,
      Vec3.LenSqr, PosFromVec3, BlockPos.down, abs_of_pos, abs_of_neg]
  exact ⟨e, (onGround_coherence (boxWorld [floorBox])
    (playerWith { restingInfo with ServerMovement := Vec3.mk 0 (-(49 / 625)) 0 })).1 e⟩

/-! ### Exemption and correction -/

/-- C17: whenever the player has been in a loaded chunk for fewer than 100
ticks, or is not ready, or is in the void, flying or no-clipping,
`updateMovementState` sets the server position to the client position and the
server movement to the client-predicted movement, does not run the physics
step (the state is the old one with the exemption fields and the tick counters
written, and no packet is written), returns false, and a `correctMovement`
issued in the resulting state writes no packet. -/
theorem exemption_snaps_to_client (w : World) (p : Player)
    (hex : p.inLoadedChunkTicks < 100 ∨ p.ready = false ∨ p.mInfo.InVoid = true
      ∨ p.mInfo.Flying = true ∨ p.mInfo.NoClip = true) :
    (updateMovementState w p).1.mInfo.ServerPosition = p.Position
    ∧ (updateMovementState w p).1.mInfo.ServerMovement = p.mInfo.ClientPredictedMovement
    ∧ (updateMovementState w p).1
        = { p with
            mInfo := { p.mInfo with
              OnGround := true, VerticallyCollided := true, ServerPosition := p.Position,
              OldServerMovement := p.mInfo.ClientMovement,
              ServerMovement := p.mInfo.ClientPredictedMovement, CanExempt := true,
              MotionTicks := wrapUint32 (p.mInfo.MotionTicks + 1),
              RefreshBlockTicks := wrapUint32 (p.mInfo.RefreshBlockTicks + 1),
              JumpCooldownTicks := wrapInt32 (p.mInfo.JumpCooldownTicks - 1) },
            AABB := p.AABB.Translate p.mInfo.ClientMovement }
    ∧ (updateMovementState w p).1.written = p.written
    ∧ (updateMovementState w p).2 = false
    ∧ (∀ w2 : World, correctMovement w2 (updateMovementState w p).1 = (updateMovementState w p).1)
    := by
  have hc : exemptCondition p = true := by
    unfold exemptCondition
    rcases hex with h | h | h | h | h <;> simp [h]
  have e : updateMovementState w p
      = ({ p with
            mInfo := { p.mInfo with
              OnGround := true, VerticallyCollided := true, ServerPosition := p.Position,
              OldServerMovement := p.mInfo.ClientMovement,
              ServerMovement := p.mInfo.ClientPredictedMovement, CanExempt := true,
              MotionTicks := wrapUint32 (p.mInfo.MotionTicks + 1),
              RefreshBlockTicks := wrapUint32 (p.mInfo.RefreshBlockTicks + 1),
              JumpCooldownTicks := wrapInt32 (p.mInfo.JumpCooldownTicks - 1) },
            AABB := p.AABB.Translate p.mInfo.ClientMovement }, false) := by
    simp [updateMovementState, hc, MovementInfo.UpdateTickStatus]
  rw [e]
  refine ⟨rfl, rfl, rfl, rfl, rfl, ?_⟩
  intro w2
  unfold correctMovement
  split_ifs <;> simp_all

/-- A player that is not ready: the step snaps the server position to the
client position `(0, 0, 0)` and returns false. -/
theorem exemption_snaps_to_client_witness :
    (updateMovementState (boxWorld [floorBox])
        { playerWith { restingInfo with ServerPosition := Vec3.mk 3 4 5 } with ready := false }).1.mInfo.ServerPosition
      = Vec3.mk 0 0 0
    ∧ (updateMovementState (boxWorld [floorBox])
        { playerWith { restingInfo with ServerPosition := Vec3.mk 3 4 5 } with ready := false }).2
      = false :=
  ⟨(exemption_snaps_to_client (boxWorld [floorBox])
      { playerWith { restingInfo with ServerPosition := Vec3.mk 3 4 5 } with ready := false }
      (Or.inr (Or.inl rfl))).1,
   (exemption_snaps_to_client (boxWorld [floorBox])
      { playerWith { restingInfo with ServerPosition := Vec3.mk 3 4 5 } with ready := false }
      (Or.inr (Or.inl rfl))).2.2.2.2.1⟩

/-- C18, as stated, fails in two places. In full authority mode, not
teleporting, not in an unsupported rewind scenario and one block away from the
client position, a player with `CanExempt` set gets no correction; and for the
same player with `CanExempt` clear the packet carries the server position
raised by `1.621` on Y, not by `1.62`. -/
theorem correction_needs_no_exempt_and_raises_1621 :
    ((driftedPlayer true).movementMode = AuthorityMode.ModeFullAuthoritative
      ∧ (driftedPlayer true).mInfo.Teleporting = false
      ∧ (driftedPlayer true).mInfo.InUnsupportedRewindScenario = false
      ∧ Vec3.LenSqr (Vec3.Sub (driftedPlayer true).mInfo.ServerPosition (driftedPlayer true).Position)
        > 9 / 100 + (driftedPlayer true).mInfo.StepClipOffset ^ 2)
    ∧ (validateMovement (boxWorld []) (driftedPlayer true)).written = []
    ∧ (validateMovement (boxWorld []) (driftedPlayer false)).written
      = [Written.CorrectPlayerMovePrediction (Vec3.mk 1 (1621 / 1000) 0) (Vec3.mk 0 0 0) true 40]
    ∧ (1621 / 1000 : ℚ) ≠ (driftedPlayer false).mInfo.ServerPosition.Y + 81 / 50 := by
  refine ⟨⟨rfl, rfl, rfl, ?_⟩, ?_, ?_, ?_⟩
  · norm_num [driftedPlayer, playerWith, restingInfo, Vec3.LenSqr, Vec3.Sub]
  · norm_num [validateMovement, correctMovement, driftedPlayer, playerWith, restingInfo,
      Vec3.LenSqr, Vec3.Sub]
  · norm_num [validateMovement, correctMovement, driftedPlayer, playerWith, restingInfo,
      Vec3.LenSqr, Vec3.Sub, Vec3.Add]
  · norm_num [driftedPlayer, playerWith, restingInfo]

/-- The packets `validateMovement` writes when it corrects. -/
theorem validateMovement_written (w : World) (p : Player)
    (hm : p.movementMode = AuthorityMode.ModeFullAuthoritative)
    (he : p.mInfo.CanExempt = false) (ht : p.mInfo.Teleporting = false)
    (hu : p.mInfo.InUnsupportedRewindScenario = false)
    (hd : Vec3.LenSqr (Vec3.Sub p.mInfo.ServerPosition p.Position)
      > 9 / 100 + p.mInfo.StepClipOffset ^ 2) :
    (validateMovement w p).written
      = p.written
        ++ ((if p.debuggerMovement then [Written.OomphDebug] else [])
          ++ (if p.mInfo.RefreshBlockTicks ≥ 30 then
                (w.GetNearbyBlocks p.AABB).map (fun e =>
                  Written.UpdateBlock
                    (BlockPos.mk (wrapInt32 e.1.X) (wrapInt32 e.1.Y) (wrapInt32 e.1.Z))
                    e.2.RuntimeID)
              else [])
          ++ (p.lastSentActorData.map Written.ActorData).toList
          ++ (p.lastSentAttributes.map Written.Attributes).toList)
        ++ [Written.CorrectPlayerMovePrediction
              (Vec3.Add p.mInfo.ServerPosition (Vec3.mk 0 (1621 / 1000) 0))
              p.mInfo.ServerMovement p.mInfo.OnGround p.ClientFrame] := by
  have hd' : ¬ Vec3.LenSqr (Vec3.Sub p.mInfo.ServerPosition p.Position)
      ≤ 9 / 100 + p.mInfo.StepClipOffset ^ 2 := not_le.mpr hd
  unfold validateMovement correctMovement
  cases hdbg : p.debuggerMovement <;> cases ha : p.lastSentActorData <;>
    cases hb : p.lastSentAttributes <;>
    by_cases hr : p.mInfo.RefreshBlockTicks ≥ 30 <;>
    simp [hm, he, ht, hu, hd', hdbg, ha, hb, hr] <;> norm_num

/-- C18, amended: `validateMovement` writes a `CorrectPlayerMovePrediction`
packet if and only if the authority mode is full authoritative, `CanExempt` is
clear, the player is neither teleporting nor in an unsupported-rewind
scenario, and `|server_position − client_position|² > 0.09 + step_clip_offset²`;
the packet is the last one written and carries the server position raised by
`1.62 + 0.001` on Y, the server velocity, the on-ground flag and the client
frame; otherwise `validateMovement` writes nothing but, at most, the debug
message. -/
theorem correction_emission_rule (w : World) (p : Player) :
    ((∃ pre pos delta g t, (validateMovement w p).written
          = p.written ++ pre ++ [Written.CorrectPlayerMovePrediction pos delta g t])
      ↔ (p.movementMode = AuthorityMode.ModeFullAuthoritative
          ∧ p.mInfo.CanExempt = false ∧ p.mInfo.Teleporting = false
          ∧ p.mInfo.InUnsupportedRewindScenario = false
          ∧ Vec3.LenSqr (Vec3.Sub p.mInfo.ServerPosition p.Position)
              > 9 / 100 + p.mInfo.StepClipOffset ^ 2))
    ∧ ((p.movementMode = AuthorityMode.ModeFullAuthoritative
          ∧ p.mInfo.CanExempt = false ∧ p.mInfo.Teleporting = false
          ∧ p.mInfo.InUnsupportedRewindScenario = false
          ∧ Vec3.LenSqr (Vec3.Sub p.mInfo.ServerPosition p.Position)
              > 9 / 100 + p.mInfo.StepClipOffset ^ 2) →
        ∃ pre, (validateMovement w p).written
            = p.written ++ pre
              ++ [Written.CorrectPlayerMovePrediction
                    (Vec3.mk p.mInfo.ServerPosition.X (p.mInfo.ServerPosition.Y + 1621 / 1000)
                      p.mInfo.ServerPosition.Z)
                    p.mInfo.ServerMovement p.mInfo.OnGround p.ClientFrame]
          ∧ ∀ pos delta g t, Written.CorrectPlayerMovePrediction pos delta g t ∉ pre)
    ∧ (¬ (p.movementMode = AuthorityMode.ModeFullAuthoritative
          ∧ p.mInfo.CanExempt = false ∧ p.mInfo.Teleporting = false
          ∧ p.mInfo.InUnsupportedRewindScenario = false
          ∧ Vec3.LenSqr (Vec3.Sub p.mInfo.ServerPosition p.Position)
              > 9 / 100 + p.mInfo.StepClipOffset ^ 2) →
        (validateMovement w p).written = p.written
          ∨ (validateMovement w p).written = p.written ++ [Written.OomphDebug]) := by
  have hyes : (p.movementMode = AuthorityMode.ModeFullAuthoritative
          ∧ p.mInfo.CanExempt = false ∧ p.mInfo.Teleporting = false
          ∧ p.mInfo.InUnsupportedRewindScenario = false
          ∧ Vec3.LenSqr (Vec3.Sub p.mInfo.ServerPosition p.Position)
              > 9 / 100 + p.mInfo.StepClipOffset ^ 2) →
        ∃ pre, (validateMovement w p).written
            = p.written ++ pre
              ++ [Written.CorrectPlayerMovePrediction
                    (Vec3.mk p.mInfo.ServerPosition.X (p.mInfo.ServerPosition.Y + 1621 / 1000)
                      p.mInfo.ServerPosition.Z)
                    p.mInfo.ServerMovement p.mInfo.OnGround p.ClientFrame]
          ∧ ∀ pos delta g t, Written.CorrectPlayerMovePrediction pos delta g t ∉ pre := by
    rintro ⟨hm, he, ht, hu, hd⟩
    refine ⟨(if p.debuggerMovement then [Written.OomphDebug] else [])
          ++ (if p.mInfo.RefreshBlockTicks ≥ 30 then
                (w.GetNearbyBlocks p.AABB).map (fun e =>
                  Written.UpdateBlock
                    (BlockPos.mk (wrapInt32 e.1.X) (wrapInt32 e.1.Y) (wrapInt32 e.1.Z))
                    e.2.RuntimeID)
              else [])
          ++ (p.lastSentActorData.map Written.ActorData).toList
          ++ (p.lastSentAttributes.map Written.Attributes).toList, ?_, ?_⟩
    · rw [validateMovement_written w p hm he ht hu hd]
      simp [Vec3.Add]
    · intro pos delta g t
      cases p.debuggerMovement <;> cases p.lastSentActorData <;>
        cases p.lastSentAttributes <;> by_cases hr : p.mInfo.RefreshBlockTicks ≥ 30 <;>
        simp [hr]
  have hno : ¬ (p.movementMode = AuthorityMode.ModeFullAuthoritative
          ∧ p.mInfo.CanExempt = false ∧ p.mInfo.Teleporting = false
          ∧ p.mInfo.InUnsupportedRewindScenario = false
          ∧ Vec3.LenSqr (Vec3.Sub p.mInfo.ServerPosition p.Position)
              > 9 / 100 + p.mInfo.StepClipOffset ^ 2) →
        (validateMovement w p).written = p.written
          ∨ (validateMovement w p).written = p.written ++ [Written.OomphDebug] := by
    intro hc
    unfold validateMovement correctMovement
    by_cases hm : p.movementMode = AuthorityMode.ModeFullAuthoritative
    · by_cases hd : Vec3.LenSqr (Vec3.Sub p.mInfo.ServerPosition p.Position)
          ≤ 9 / 100 + p.mInfo.StepClipOffset ^ 2
      · simp [hm, hd]
      · have hex : (p.mInfo.CanExempt || p.mInfo.Teleporting
            || p.mInfo.InUnsupportedRewindScenario) = true := by
          by_contra hcon
          apply hc
          simp only [Bool.or_eq_true, not_or, Bool.not_eq_true] at hcon
          exact ⟨hm, hcon.1.1, hcon.1.2, hcon.2, not_le.mp hd⟩
        cases hdbg : p.debuggerMovement <;> simp [hm, hd, hex]
    · simp [hm]
  refine ⟨⟨?_, ?_⟩, hyes, hno⟩
  · rintro ⟨pre, pos, delta, g, t, hw⟩
    by_contra hc
    rcases hno hc with e | e
    · rw [e] at hw
      have hl := congrArg List.length hw
      simp only [List.length_append, List.length_singleton] at hl
      omega
    · rw [e, List.append_assoc] at hw
      have h2 := List.append_cancel_left hw
      cases pre with
      | nil => simp at h2
      | cons x pre =>
        have hl := congrArg List.length h2
        simp only [List.length_append, List.length_singleton, List.length_cons,
          List.length_nil] at hl
        omega
  · intro hc
    obtain ⟨pre, hw, _⟩ := hyes hc
    exact ⟨pre, _, _, _, _, hw⟩

/-- The drifted player with `CanExempt` clear is corrected to `(1, 1.621, 0)`. -/
theorem correction_emission_rule_witness :
    ∃ pre, (validateMovement (boxWorld []) (driftedPlayer false)).written
        = (driftedPlayer false).written ++ pre
          ++ [Written.CorrectPlayerMovePrediction
                (Vec3.mk (driftedPlayer false).mInfo.ServerPosition.X
                  ((driftedPlayer false).mInfo.ServerPosition.Y + 1621 / 1000)
                  (driftedPlayer false).mInfo.ServerPosition.Z)
                (driftedPlayer false).mInfo.ServerMovement (driftedPlayer false).mInfo.OnGround
                (driftedPlayer false).ClientFrame]
      ∧ ∀ pos delta g t, Written.CorrectPlayerMovePrediction pos delta g t ∉ pre :=
  (correction_emission_rule (boxWorld []) (driftedPlayer false)).2.1
    ⟨rfl, rfl, rfl, rfl, by norm_num [driftedPlayer, playerWith, restingInfo, Vec3.LenSqr, Vec3.Sub]⟩

/-! ### Step-clip offset -/

/-- `checkUnsupportedMovementScenarios` does not write the step-clip offset. -/
theorem checkUnsupported_offset (w : World) (r : Player) :
    (checkUnsupportedMovementScenarios w r).mInfo.StepClipOffset = r.mInfo.StepClipOffset := by
  unfold checkUnsupportedMovementScenarios setMovementToClient
  simp only []
  split_ifs <;> rfl

/-- The last part of `travel` does not write the step-clip offset. -/
theorem travelAfterCollisions_offset (w : World) (bf : ℚ) (near : Bool) (r : Player) :
    (travelAfterCollisions w bf near r).mInfo.StepClipOffset = r.mInfo.StepClipOffset := by
  have h := checkUnsupported_offset w r
  unfold travelAfterCollisions simulateHorizontalFriction simulateGravity Player.setServerMovement
  simp only []
  split_ifs <;> exact h

/-- `collide` adds the stepped Y velocity to the step-clip offset when the
step-up is accepted, and leaves the offset alone otherwise. -/
theorem collide_offset (w : World) (q : Player) :
    (collide w q).mInfo.StepClipOffset
      = q.mInfo.StepClipOffset + (if stepAccepted w q then (collideStep w q).Y else 0) := by
  unfold collide stepAccepted
  by_cases h1 : stepConsidered w q = true
  · by_cases h2 : Vec3HzDistSqr (collideNormal w q) < Vec3HzDistSqr (collideStep w q)
    · simp [h1, h2]
    · simp [h1, h2]
  · simp [h1]

/-- `maybeBackOffFromEdge` does not write the step-clip offset. -/
theorem maybeBackOffFromEdge_offset (w : World) (r : Player) :
    (maybeBackOffFromEdge w r).mInfo.StepClipOffset = r.mInfo.StepClipOffset := by
  unfold maybeBackOffFromEdge Player.setServerMovement
  simp only []
  split_ifs <;> first | rfl | (split <;> rfl)

/-- The first part of `travel` decays the step-clip offset. -/
theorem travelBeforeCollide_offset (w : World) (r : Player) :
    (travelBeforeCollide w r).player.mInfo.StepClipOffset = decayedOffset r.mInfo.StepClipOffset := by
  have hset : ∀ (q : Player) (v : Vec3),
      (q.setServerMovement v).mInfo.StepClipOffset = q.mInfo.StepClipOffset := fun _ _ => rfl
  have hforce : ∀ (q : Player) (f : ℚ),
      (simulateAddedMovementForce w q f).mInfo.StepClipOffset = q.mInfo.StepClipOffset := by
    intro q f
    unfold simulateAddedMovementForce
    simp only []
    split_ifs <;> rfl
  have hite : ∀ (c : Prop) [Decidable c] (a b : Player),
      (if c then a else b).mInfo.StepClipOffset
        = if c then a.mInfo.StepClipOffset else b.mInfo.StepClipOffset := by
    intro c _ a b
    split_ifs <;> rfl
  unfold travelBeforeCollide
  simp only [maybeBackOffFromEdge_offset, hite, hset, hforce, decayedOffset]
  split_ifs <;> rfl

/-- The parts of `aiStep` before `travel` do not write the step-clip offset. -/
theorem aiStepBeforeTravel_offset (w : World) (r : Player) :
    (aiStepBeforeTravel w (aiStepDeadzone r)).mInfo.StepClipOffset = r.mInfo.StepClipOffset := by
  have hset : ∀ (q : Player) (v : Vec3),
      (q.setServerMovement v).mInfo.StepClipOffset = q.mInfo.StepClipOffset := fun _ _ => rfl
  have hjump : ∀ q : Player,
      (simulateJump w q).mInfo.StepClipOffset = q.mInfo.StepClipOffset := by
    intro q
    unfold simulateJump
    simp only []
    split_ifs <;> rfl
  have hite : ∀ (c : Prop) [Decidable c] (a b : Player),
      (if c then a else b).mInfo.StepClipOffset
        = if c then a.mInfo.StepClipOffset else b.mInfo.StepClipOffset := by
    intro c _ a b
    split_ifs <;> rfl
  have hdead : (aiStepDeadzone r).mInfo.StepClipOffset = r.mInfo.StepClipOffset := by
    unfold aiStepDeadzone
    simp only [hset, hite, ite_self]
  unfold aiStepBeforeTravel
  simp only [hite, hset, hjump, hdead, ite_self]

/-- The step-clip offset over a full step of `updateMovementState`: the decay of
`travel`, plus the stepped Y velocity when `collide` accepts the step-up. -/
theorem fullStep_offset (w : World) (p : Player) (hfull : exemptCondition p = false) :
    (updateMovementState w p).1.mInfo.StepClipOffset
      = decayedOffset p.mInfo.StepClipOffset
        + (if stepAccepted w (fullStepBeforeCollide w p)
            then (collideStep w (fullStepBeforeCollide w p)).Y else 0) := by
  have e1 : (updateMovementState w p).1.mInfo.StepClipOffset
      = (collide w (fullStepBeforeCollide w p)).mInfo.StepClipOffset := by
    simp only [updateMovementState, hfull, Bool.false_eq_true, if_false, aiStep, travel,
      MovementInfo.UpdateTickStatus, fullStepBeforeCollide, checkUnsupported_offset,
      travelAfterCollisions_offset]
    simp [travelResolve, checkCollisions]
  have e2 : (fullStepBeforeCollide w p).mInfo.StepClipOffset
      = decayedOffset p.mInfo.StepClipOffset := by
    unfold fullStepBeforeCollide
    rw [travelBeforeCollide_offset, aiStepBeforeTravel_offset]
  rw [e1, collide_offset, e2]

/-- In a world without boxes no step-up is accepted. -/
theorem stepAccepted_no_boxes (w : World) (h : ∀ b, w.GetNearbyBBoxes b = []) (q : Player) :
    stepAccepted w q = false := by
  have hn : collideNormal w q = q.mInfo.ServerMovement := by
    unfold collideNormal collideWithBlocks
    simp [h]
  simp [stepAccepted, stepConsidered, hn]

/-- Repeated decay of the step-clip offset. -/
theorem decayedOffset_iterate (n : Nat) (o : ℚ) :
    decayedOffset^[n] o = if o > 0 then o * (2 / 5) ^ n else o := by
  induction n generalizing o with
  | zero => simp
  | succ n ih =>
    rw [Function.iterate_succ_apply, ih]
    unfold decayedOffset StepClipMultiplier
    by_cases ho : o > 0
    · have h2 : o * (2 / 5) > 0 := by positivity
      simp only [ho, h2, if_true]
      ring
    · simp only [ho, if_false]

/-- The step-clip offset over a run splits at any point of the run. -/
theorem runOffset_append (o : ℚ) (a b : List (World × Player)) :
    runOffset o (a ++ b) = runOffset (runOffset o a) b := by
  induction a generalizing o with
  | nil => rfl
  | cons s a ih => exact ih _

/-- Over a run of full steps without an accepted step-up the step-clip offset
only decays. -/
theorem runOffset_quiet (run : List (World × Player)) (o : ℚ) (h : quietRun o run) :
    runOffset o run = decayedOffset^[run.length] o := by
  induction run generalizing o with
  | nil => rfl
  | cons s run ih =>
    obtain ⟨h1, h2, h3⟩ := h
    have e : stepOffset s.1 s.2 o = decayedOffset o := by
      unfold stepOffset
      rw [fullStep_offset s.1 _ h1, h2]
      simp [Player.withOffset]
    simp only [runOffset, List.length_cons, Function.iterate_succ_apply]
    rw [ih _ h3, e]

/-- Steps of a player that is not exempt, in a world without boxes, form a quiet
run. -/
theorem quietRun_replicate (w : World) (h : ∀ b, w.GetNearbyBBoxes b = []) (p : Player)
    (hp : exemptCondition p = false) (n : Nat) (o : ℚ) :
    quietRun o (List.replicate n (w, p)) := by
  induction n generalizing o with
  | zero => exact True.intro
  | succ n ih =>
    refine ⟨?_, stepAccepted_no_boxes w h _, ih _⟩
    simpa [exemptCondition, Player.withOffset] using hp

/-- One full step of the walker against the step six tenths high: the step-up
is accepted and adds `0.6` to the decayed step-clip offset. -/
theorem walker_stepOffset (o : ℚ) :
    stepOffset (boxWorld [floorBox, stepBox]) walker o = decayedOffset o + 3 / 5 := by
  have hfull : exemptCondition (walker.withOffset o) = false := by
    simp [exemptCondition, Player.withOffset, walker, playerWith, restingInfo]
  have hq : fullStepBeforeCollide (boxWorld [floorBox, stepBox]) (walker.withOffset o)
      = (playerWith { restingInfo with
          ServerMovement := Vec3.mk (3 / 10) (-(49 / 625)) 0 }).withOffset (decayedOffset o) := by
    by_cases ho : o > 0
    · norm_num [fullStepBeforeCollide, travelBeforeCollide, aiStepBeforeTravel, aiStepDeadzone,
        simulateAddedMovementForce, maybeBackOffFromEdge, Player.setServerMovement,
        Player.withOffset, MovementInfo.getFrictionInfluencedSpeed, decayedOffset, ho,
        boxWorld, airBlock, walker, playerWith, restingInfo, PosFromVec3, BlockPos.down,
        abs_of_pos, abs_of_neg]
    · norm_num [fullStepBeforeCollide, travelBeforeCollide, aiStepBeforeTravel, aiStepDeadzone,
        simulateAddedMovementForce, maybeBackOffFromEdge, Player.setServerMovement,
        Player.withOffset, MovementInfo.getFrictionInfluencedSpeed, decayedOffset, ho,
        boxWorld, airBlock, walker, playerWith, restingInfo, PosFromVec3, BlockPos.down,
        abs_of_pos, abs_of_neg]
  have hacc : stepAccepted (boxWorld [floorBox, stepBox])
      ((playerWith { restingInfo with
          ServerMovement := Vec3.mk (3 / 10) (-(49 / 625)) 0 }).withOffset (decayedOffset o))
      = true
    ∧ (collideStep (boxWorld [floorBox, stepBox])
      ((playerWith { restingInfo with
          ServerMovement := Vec3.mk (3 / 10) (-(49 / 625)) 0 }).withOffset (decayedOffset o))).Y
      = 3 / 5 := by
    constructor
    · norm_num [stepAccepted, stepConsidered, collideNormal, collideStep, collideWithBlocks,
        boxWorld, DoBoxCollision, axisOffset, overlapsOthers, overlapsOn, CollisionAxis.coord,
        CollisionAxis.vec, BBox.Translate, BBox.Extend, BBox.IntersectsWith, Vec3.Add,
        Vec3.LenSqr, Vec3HzDistSqr, StepHeight, Player.withOffset, playerWith, restingInfo,
        floorBox, stepBox, abs_of_pos, abs_of_neg]
    · norm_num [collideStep, boxWorld, DoBoxCollision, axisOffset, overlapsOthers, overlapsOn,
        CollisionAxis.coord, CollisionAxis.vec, BBox.Translate, BBox.Extend,
        BBox.IntersectsWith, Vec3.Add, StepHeight, Player.withOffset, playerWith, restingInfo,
        floorBox, stepBox]
  unfold stepOffset
  rw [fullStep_offset _ _ hfull, hq, hacc.1, hacc.2]
  simp [Player.withOffset]

/-- C19, as stated, fails: starting with a step-clip offset of zero, four
consecutive steps up a stair with risers of the step height `0.6` raise the
offset to `0.9744`; the ten full steps that follow, in a world without boxes,
accept no step-up and leave `0.9744 · 0.4^10 ≈ 1.02e-4`, which is not below
`1e-4`. -/
theorem stepClip_offset_not_below_bound :
    runOffset 0 (List.replicate 4 (boxWorld [floorBox, stepBox], walker)) = 609 / 625
    ∧ (List.replicate 10 (boxWorld [], playerWith restingInfo)).length = 10
    ∧ quietRun (609 / 625) (List.replicate 10 (boxWorld [], playerWith restingInfo))
    ∧ runOffset 0 (List.replicate 4 (boxWorld [floorBox, stepBox], walker)
          ++ List.replicate 10 (boxWorld [], playerWith restingInfo))
        = 609 / 625 * (2 / 5) ^ 10
    ∧ ¬ (runOffset 0 (List.replicate 4 (boxWorld [floorBox, stepBox], walker)
          ++ List.replicate 10 (boxWorld [], playerWith restingInfo)) < 1 / 10000) := by
  have hclimb : runOffset 0 (List.replicate 4 (boxWorld [floorBox, stepBox], walker))
      = 609 / 625 := by
    simp only [List.replicate, runOffset, walker_stepOffset]
    norm_num [decayedOffset, StepClipMultiplier]
  have hquiet : quietRun (609 / 625) (List.replicate 10 (boxWorld [], playerWith restingInfo)) :=
    quietRun_replicate (boxWorld []) (fun _ => rfl) (playerWith restingInfo)
      (by simp [exemptCondition, playerWith, restingInfo]) 10 (609 / 625)
  have hrun : runOffset 0 (List.replicate 4 (boxWorld [floorBox, stepBox], walker)
        ++ List.replicate 10 (boxWorld [], playerWith restingInfo))
      = 609 / 625 * (2 / 5) ^ 10 := by
    rw [runOffset_append, hclimb, runOffset_quiet _ _ hquiet, decayedOffset_iterate]
    norm_num
  refine ⟨hclimb, by simp, hquiet, hrun, ?_⟩
  rw [hrun]
  norm_num

/-- C19, amended: over every run of 10 consecutive full (non-exempt) steps in
which no step-up is accepted, a positive `StepClipOffset` is multiplied by
`0.4^10` and a non-positive one is unchanged; so the offset is `< 1e-4` at
the end of the run exactly when it was below `15625/16384 ≈ 0.9537` at its
start. -/
theorem stepClip_decay (o : ℚ) (run : List (World × Player))
    (hlen : run.length = 10) (hquiet : quietRun o run) :
    runOffset o run = (if o > 0 then o * (2 / 5) ^ 10 else o)
    ∧ (runOffset o run < 1 / 10000 ↔ o < 15625 / 16384) := by
  have e : runOffset o run = (if o > 0 then o * (2 / 5) ^ 10 else o) := by
    rw [runOffset_quiet run o hquiet, hlen, decayedOffset_iterate]
  refine ⟨e, ?_⟩
  rw [e]
  by_cases ho : o > 0
  · simp only [ho, if_true]
    constructor
    · intro h
      norm_num at h
      linarith
    · intro h
      norm_num
      linarith
  · simp only [ho, if_false]
    have ho' : o ≤ 0 := not_lt.mp ho
    constructor
    · intro _
      linarith
    · intro _
      linarith

/-- Ten full steps in a world without boxes from a step-clip offset of `0.5`. -/
theorem stepClip_decay_witness :
    runOffset (1 / 2) (List.replicate 10 (boxWorld [], playerWith restingInfo)) < 1 / 10000 :=
  ((stepClip_decay (1 / 2) (List.replicate 10 (boxWorld [], playerWith restingInfo)) (by simp)
    (quietRun_replicate (boxWorld []) (fun _ => rfl) (playerWith restingInfo)
      (by simp [exemptCondition, playerWith, restingInfo]) 10 (1 / 2))).2).mpr (by norm_num)

/-! ### Sneak edge back-off -/

/-- A loop that has exited within its fuel has exited after some number of
passes, on the value those passes give. -/
theorem loopFuel_some {α : Type} (cond : α → Bool) (step : α → α) :
    ∀ (fuel : ℕ) (a r : α), loopFuel cond step fuel a = some r →
      ∃ n, n ≤ fuel ∧ ExitsAfter (fun x => cond x = true) step a n ∧ r = step^[n] a := by
  intro fuel
  induction fuel with
  | zero =>
    intro a r h
    by_cases hc : cond a = true
    · simp [loopFuel, hc] at h
    · simp [loopFuel, hc] at h
      exact ⟨0, le_refl 0, ⟨fun i hi => absurd hi (Nat.not_lt_zero i), hc⟩, h.symm⟩
  | succ fuel ih =>
    intro a r h
    by_cases hc : cond a = true
    · simp only [loopFuel, hc, if_true] at h
      obtain ⟨n, hn, he, hr⟩ := ih (step a) r h
      refine ⟨n + 1, by omega, ⟨?_, ?_⟩, ?_⟩
      · intro i hi
        cases i with
        | zero => exact hc
        | succ j =>
          rw [Function.iterate_succ_apply]
          exact he.1 j (by omega)
      · rw [Function.iterate_succ_apply]
        exact he.2
      · rw [Function.iterate_succ_apply]
        exact hr
    · simp [loopFuel, hc] at h
      exact ⟨0, Nat.zero_le _, ⟨fun i hi => absurd hi (Nat.not_lt_zero i), hc⟩, h.symm⟩

/-- The step-up is accepted exactly under the three conditions of `collide`:
ground state, a collision of the normal resolve on X or Z, and a stepped
result that is strictly farther horizontally. -/
theorem stepAccepted_iff (w : World) (p : Player) :
    stepAccepted w p = true ↔
      ((p.mInfo.OnGround = true
          ∨ (p.mInfo.ServerMovement.Y ≠ (collideNormal w p).Y ∧ p.mInfo.ServerMovement.Y < 0))
        ∧ (p.mInfo.ServerMovement.X ≠ (collideNormal w p).X
          ∨ p.mInfo.ServerMovement.Z ≠ (collideNormal w p).Z)
        ∧ Vec3HzDistSqr (collideNormal w p) < Vec3HzDistSqr (collideStep w p)) := by
  simp only [stepAccepted, stepConsidered, Bool.and_eq_true, Bool.or_eq_true, decide_eq_true_eq]
  tauto

/-- C23: `collide` replaces the normally resolved velocity by the stepped
velocity if and only if the player had ground state (on-ground, or Y-collided
while moving down), the normal resolve collided on X or Z, and the stepped
result's horizontal distance² is strictly greater than the normal result's;
exactly in that case `StepClipOffset` grows by the stepped Y velocity, and in
every other case `StepClipOffset` is unchanged by `collide` and the result is
the normal resolve. -/
theorem stepUp_acceptance (w : World) (p : Player) :
    (((p.mInfo.OnGround = true
          ∨ (p.mInfo.ServerMovement.Y ≠ (collideNormal w p).Y ∧ p.mInfo.ServerMovement.Y < 0))
        ∧ (p.mInfo.ServerMovement.X ≠ (collideNormal w p).X
          ∨ p.mInfo.ServerMovement.Z ≠ (collideNormal w p).Z)
        ∧ Vec3HzDistSqr (collideNormal w p) < Vec3HzDistSqr (collideStep w p)) →
      (collide w p).mInfo.ServerMovement = collideStep w p
      ∧ (collide w p).mInfo.StepClipOffset = p.mInfo.StepClipOffset + (collideStep w p).Y
      ∧ (collide w p).AABB = p.AABB.Translate (collideStep w p))
    ∧ (¬ ((p.mInfo.OnGround = true
          ∨ (p.mInfo.ServerMovement.Y ≠ (collideNormal w p).Y ∧ p.mInfo.ServerMovement.Y < 0))
        ∧ (p.mInfo.ServerMovement.X ≠ (collideNormal w p).X
          ∨ p.mInfo.ServerMovement.Z ≠ (collideNormal w p).Z)
        ∧ Vec3HzDistSqr (collideNormal w p) < Vec3HzDistSqr (collideStep w p)) →
      (collide w p).mInfo.ServerMovement = collideNormal w p
      ∧ (collide w p).mInfo.StepClipOffset = p.mInfo.StepClipOffset
      ∧ (collide w p).AABB = p.AABB.Translate (collideNormal w p)) := by
  have haabb : (collide w p).AABB
      = p.AABB.Translate (if stepAccepted w p then collideStep w p else collideNormal w p) := by
    unfold collide stepAccepted
    by_cases h1 : stepConsidered w p = true
    · by_cases h2 : Vec3HzDistSqr (collideNormal w p) < Vec3HzDistSqr (collideStep w p)
      · simp [h1, h2]
      · simp [h1, h2]
    · simp [h1]
  constructor
  · intro hc
    have ha : stepAccepted w p = true := (stepAccepted_iff w p).mpr hc
    rw [collide_serverMovement, collide_offset, haabb, ha]
    simp
  · intro hc
    have ha : stepAccepted w p = false := by
      cases hs : stepAccepted w p with
      | false => rfl
      | true => exact absurd ((stepAccepted_iff w p).mp hs) hc
    rw [collide_serverMovement, collide_offset, haabb, ha]
    simp

/-- The player walking into the slab half a block high: the step-up is accepted,
the velocity becomes `(0.3, 0.5, 0)` and the step-clip offset grows by `0.5`. -/
theorem stepUp_acceptance_witness :
    (collide (boxWorld [slabAhead])
        (playerWith { restingInfo with ServerMovement := Vec3.mk (3 / 10) 0 0 })).mInfo.ServerMovement
      = collideStep (boxWorld [slabAhead])
          (playerWith { restingInfo with ServerMovement := Vec3.mk (3 / 10) 0 0 })
    ∧ collideStep (boxWorld [slabAhead])
          (playerWith { restingInfo with ServerMovement := Vec3.mk (3 / 10) 0 0 })
      = Vec3.mk (3 / 10) (1 / 2) 0 := by
  have hn : collideNormal (boxWorld [slabAhead])
      (playerWith { restingInfo with ServerMovement := Vec3.mk (3 / 10) 0 0 })
      = Vec3.mk (1 / 10) 0 0 := by
    norm_num [collideNormal, collideWithBlocks, boxWorld,
      DoBoxCollision, axisOffset, overlapsOthers, overlapsOn, CollisionAxis.coord,
      CollisionAxis.vec, BBox.Translate, BBox.Extend, BBox.IntersectsWith, Vec3.Add, Vec3.LenSqr,
      playerWith, restingInfo, slabAhead]
  have hs : collideStep (boxWorld [slabAhead])
      (playerWith { restingInfo with ServerMovement := Vec3.mk (3 / 10) 0 0 })
      = Vec3.mk (3 / 10) (1 / 2) 0 := by
    norm_num [collideStep, boxWorld,
      DoBoxCollision, axisOffset, overlapsOthers, overlapsOn, CollisionAxis.coord,
      CollisionAxis.vec, BBox.Translate, BBox.Extend, BBox.IntersectsWith, Vec3.Add,
      StepHeight, playerWith, restingInfo, slabAhead]
  exact ⟨((stepUp_acceptance (boxWorld [slabAhead])
      (playerWith { restingInfo with ServerMovement := Vec3.mk (3 / 10) 0 0 })).1
      ⟨Or.inl rfl, Or.inl (by rw [hn]; norm_num [playerWith]),
        by rw [hn, hs]; norm_num [Vec3HzDistSqr]⟩).1, hs⟩

/-! ### Return value of `updateMovementState` -/

/-- The frame of the step is not written by `maybeBackOffFromEdge`. -/
theorem maybeBackOffFromEdge_frame (w : World) (r : Player) :
    stepFrame (maybeBackOffFromEdge w r) = stepFrame r := by
  unfold maybeBackOffFromEdge Player.setServerMovement
  simp only []
  split_ifs <;> first | rfl | (split <;> rfl)

/-- The frame of the step is not written by `collide`. -/
theorem collide_frame (w : World) (r : Player) : stepFrame (collide w r) = stepFrame r := by
  unfold collide
  simp only []
  split_ifs <;> rfl

/-- The frame of the step is not written by the deadzone part of `aiStep`. -/
theorem aiStepDeadzone_frame (r : Player) : stepFrame (aiStepDeadzone r) = stepFrame r := by
  unfold aiStepDeadzone Player.setServerMovement
  simp only []
  split_ifs <;> rfl

/-- The frame of the step is not written by `simulateJump`. -/
theorem simulateJump_frame (w : World) (q : Player) :
    stepFrame (simulateJump w q) = stepFrame q := by
  unfold simulateJump
  simp only []
  split_ifs <;> rfl

/-- The frame of the step is not written by the middle part of `aiStep`. -/
theorem aiStepBeforeTravel_frame (w : World) (r : Player) :
    stepFrame (aiStepBeforeTravel w r) = stepFrame r := by
  unfold aiStepBeforeTravel
  simp only []
  split_ifs <;> first | rfl | exact simulateJump_frame w _

/-- The frame of the step is not written by the first part of `travel`. -/
theorem travelBeforeCollide_frame (w : World) (r : Player) :
    stepFrame (travelBeforeCollide w r).player = stepFrame r := by
  have hset : ∀ (q : Player) (v : Vec3), stepFrame (q.setServerMovement v) = stepFrame q :=
    fun _ _ => rfl
  have hforce : ∀ (q : Player) (f : ℚ),
      stepFrame (simulateAddedMovementForce w q f) = stepFrame q := by
    intro q f
    unfold simulateAddedMovementForce
    simp only []
    split_ifs <;> rfl
  have hite : ∀ (c : Prop) [Decidable c] (a b : Player),
      stepFrame (if c then a else b) = if c then stepFrame a else stepFrame b := by
    intro c _ a b
    split_ifs <;> rfl
  unfold travelBeforeCollide
  simp only [maybeBackOffFromEdge_frame, hite, hset, hforce]
  split_ifs <;> rfl

/-- The frame of the step is not written up to the end of collision resolution. -/
theorem aiStepResolved_frame (w : World) (p : Player) :
    stepFrame (aiStepResolved w p) = stepFrame p := by
  have h1 : ∀ q : Player, stepFrame (travelResolve w q) = stepFrame (collide w q) := fun _ => rfl
  unfold aiStepResolved
  rw [h1, collide_frame, travelBeforeCollide_frame, aiStepBeforeTravel_frame,
    aiStepDeadzone_frame]

/-- With a liquid among the blocks near the player's box,
`checkUnsupportedMovementScenarios` marks the player and sets the server
position and movement to the client's; nothing else of the record changes. -/
theorem checkUnsupported_liquid (w : World) (r : Player)
    (h : (w.GetNearbyBlocks r.AABB).any (fun e => e.2.Liquid) = true) :
    checkUnsupportedMovementScenarios w r
      = { r with mInfo := { r.mInfo with InUnsupportedRewindScenario := true,
                                         ServerPosition := r.Position,
                                         ServerMovement := r.mInfo.ClientPredictedMovement } } := by
  unfold checkUnsupportedMovementScenarios setMovementToClient
  simp [h]

/-- Without a block near any box, `travel` leaves an unmarked player
unmarked. -/
theorem travel_supported (w : World) (hb : ∀ b, w.GetNearbyBlocks b = []) (p : Player)
    (hp : p.mInfo.InUnsupportedRewindScenario = false) :
    (travel w p).mInfo.InUnsupportedRewindScenario = false := by
  have h1 : ∀ q : Player, stepFrame (travelResolve w q) = stepFrame (collide w q) := fun _ => rfl
  have hf : stepFrame (travelResolve w (travelBeforeCollide w p).player) = stepFrame p := by
    rw [h1, collide_frame, travelBeforeCollide_frame]
  have hr : (travelResolve w (travelBeforeCollide w p).player).mInfo.InUnsupportedRewindScenario
      = false := by
    have := congrArg (fun x => x.2.2) hf
    simpa [stepFrame, hp] using this
  have hc : checkUnsupportedMovementScenarios w (travelResolve w (travelBeforeCollide w p).player)
      = travelResolve w (travelBeforeCollide w p).player := by
    unfold checkUnsupportedMovementScenarios
    simp [hb, hr]
  unfold travel travelAfterCollisions simulateHorizontalFriction simulateGravity
    Player.setServerMovement
  simp only [hc]
  split_ifs <;> simp_all

/-! ### Friction factor -/

/-- Outside an unsupported rewind scenario the last part of `travel` multiplies
the X and Z server movement by the friction it is given. -/
theorem travelAfterCollisions_friction (w : World) (bf : ℚ) (near : Bool) (r : Player)
    (h : (travelAfterCollisions w bf near r).mInfo.InUnsupportedRewindScenario = false) :
    (travelAfterCollisions w bf near r).mInfo.ServerMovement.X = r.mInfo.ServerMovement.X * bf
    ∧ (travelAfterCollisions w bf near r).mInfo.ServerMovement.Z
        = r.mInfo.ServerMovement.Z * bf := by
  have hu : (checkUnsupportedMovementScenarios w r).mInfo.InUnsupportedRewindScenario = false := by
    unfold travelAfterCollisions simulateHorizontalFriction simulateGravity
      Player.setServerMovement at h
    simp only [] at h
    split_ifs at h <;> simp_all
  have e := checkUnsupported_supported w r hu
  rw [e] at hu
  unfold travelAfterCollisions simulateHorizontalFriction simulateGravity Player.setServerMovement
  simp only [e]
  constructor <;> split_ifs <;> simp_all

/-- The friction `travel` computes before the move. -/
theorem travelBeforeCollide_blockFriction (w : World) (p : Player) :
    (travelBeforeCollide w p).blockFriction
      = if p.mInfo.OnGround then
          match (w.Block (PosFromVec3 p.mInfo.ServerPosition).down).Friction with
          | some f => w.DefaultAirFriction * f
          | none => w.DefaultAirFriction * (3 / 5)
        else w.DefaultAirFriction := by
  unfold travelBeforeCollide
  simp only []
  split_ifs <;> rfl

/-- C26: in `travel`, the friction factor multiplied into the X and Z server
movement at the end of the step is fixed from the `OnGround` flag as it was at
the start of the step and from the block under the server position before the
move (the air friction when airborne; on the ground the air friction times
the block's friction, or times 0.6 for a block without one), whatever
`OnGround` value `checkCollisions` computes in this step. -/
theorem friction_fixed_at_start (w : World) (p : Player)
    (hsup : (travel w p).mInfo.InUnsupportedRewindScenario = false) :
    (p.mInfo.OnGround = false →
      (travel w p).mInfo.ServerMovement.X
          = (travelResolve w (travelBeforeCollide w p).player).mInfo.ServerMovement.X
            * w.DefaultAirFriction
      ∧ (travel w p).mInfo.ServerMovement.Z
          = (travelResolve w (travelBeforeCollide w p).player).mInfo.ServerMovement.Z
            * w.DefaultAirFriction)
    ∧ (p.mInfo.OnGround = true →
      ∀ f, (w.Block (PosFromVec3 p.mInfo.ServerPosition).down).Friction = some f →
        (travel w p).mInfo.ServerMovement.X
            = (travelResolve w (travelBeforeCollide w p).player).mInfo.ServerMovement.X
              * (w.DefaultAirFriction * f)
        ∧ (travel w p).mInfo.ServerMovement.Z
            = (travelResolve w (travelBeforeCollide w p).player).mInfo.ServerMovement.Z
              * (w.DefaultAirFriction * f))
    ∧ (p.mInfo.OnGround = true →
      (w.Block (PosFromVec3 p.mInfo.ServerPosition).down).Friction = none →
        (travel w p).mInfo.ServerMovement.X
            = (travelResolve w (travelBeforeCollide w p).player).mInfo.ServerMovement.X
              * (w.DefaultAirFriction * (3 / 5))
        ∧ (travel w p).mInfo.ServerMovement.Z
            = (travelResolve w (travelBeforeCollide w p).player).mInfo.ServerMovement.Z
              * (w.DefaultAirFriction * (3 / 5))) := by
  have hf := travelBeforeCollide_blockFriction w p
  have hm := travelAfterCollisions_friction w (travelBeforeCollide w p).blockFriction
    (travelBeforeCollide w p).nearClimableBlock
    (travelResolve w (travelBeforeCollide w p).player) hsup
  refine ⟨?_, ?_, ?_⟩
  · intro hg
    rw [hg] at hf
    simp only [Bool.false_eq_true, if_false] at hf
    rw [← hf]
    exact hm
  · intro hg f hfr
    rw [hg, hfr] at hf
    simp only [if_true] at hf
    rw [← hf]
    exact hm
  · intro hg hfr
    rw [hg, hfr] at hf
    simp only [if_true] at hf
    rw [← hf]
    exact hm


/-- Over the floor, a step that starts in the air and lands is damped by the air
friction, and a step that starts on the ground and leaves it by the ground
factor. -/
theorem friction_fixed_at_start_witness :
    ((travelResolve (boxWorld [floorBox])
        (travelBeforeCollide (boxWorld [floorBox]) lander).player).mInfo.OnGround = true
      ∧ (travel (boxWorld [floorBox]) lander).mInfo.ServerMovement.X
          = (travelResolve (boxWorld [floorBox])
              (travelBeforeCollide (boxWorld [floorBox]) lander).player).mInfo.ServerMovement.X
            * (boxWorld [floorBox]).DefaultAirFriction)
    ∧ ((travelResolve (boxWorld [floorBox])
        (travelBeforeCollide (boxWorld [floorBox]) leaper).player).mInfo.OnGround = false
      ∧ (travel (boxWorld [floorBox]) leaper).mInfo.ServerMovement.X
          = (travelResolve (boxWorld [floorBox])
              (travelBeforeCollide (boxWorld [floorBox]) leaper).player).mInfo.ServerMovement.X
            * ((boxWorld [floorBox]).DefaultAirFriction * (3 / 5))) :=
  ⟨⟨by
      norm_num [travelBeforeCollide, travelResolve, checkCollisions,
        simulateAddedMovementForce, maybeBackOffFromEdge, collide, stepConsidered, collideNormal,
        collideWithBlocks, Player.setServerMovement, MovementInfo.getFrictionInfluencedSpeed,
        FloatEqualThreshold, boxWorld, airBlock, playerWith, restingInfo, lander, floorBox,
        Vec3.Add, Vec3.LenSqr, PosFromVec3, BlockPos.down, BBox.IntersectsWith, BBox.Extend,
        BBox.Translate, DoBoxCollision, axisOffset, overlapsOthers, overlapsOn, CollisionAxis.coord,
        CollisionAxis.vec, GravityMultiplier, abs_of_pos, abs_of_neg],
    ((friction_fixed_at_start (boxWorld [floorBox]) lander
      (travel_supported (boxWorld [floorBox]) (fun _ => rfl) lander rfl)).1 rfl).1⟩,
   ⟨by
      norm_num [travelBeforeCollide, travelResolve, checkCollisions,
        simulateAddedMovementForce, maybeBackOffFromEdge, collide, stepConsidered, collideNormal,
        collideWithBlocks, Player.setServerMovement, MovementInfo.getFrictionInfluencedSpeed,
        FloatEqualThreshold, boxWorld, airBlock, playerWith, restingInfo, leaper, floorBox,
        Vec3.Add, Vec3.LenSqr, PosFromVec3, BlockPos.down, BBox.IntersectsWith, BBox.Extend,
        BBox.Translate, DoBoxCollision, axisOffset, overlapsOthers, overlapsOn, CollisionAxis.coord,
        CollisionAxis.vec, GravityMultiplier, abs_of_pos, abs_of_neg],
    ((friction_fixed_at_start (boxWorld [floorBox]) leaper
      (travel_supported (boxWorld [floorBox]) (fun _ => rfl) leaper rfl)).2.2 rfl rfl).1⟩⟩

/-! ### Unsupported rewind scenario: the step -/

/-- The last part of `travel` with a liquid near the player's box: the movement
is the one the client predicted, with the Y component `0.2` under the
climbable rebound; the box, the position and the client prediction are kept. -/
theorem travelAfterCollisions_liquid (w : World) (bf : ℚ) (near : Bool) (r : Player)
    (h : (w.GetNearbyBlocks r.AABB).any (fun e => e.2.Liquid) = true) :
    (travelAfterCollisions w bf near r).mInfo.ServerMovement
        = (if near && (r.mInfo.HorizontallyCollided || r.mInfo.JumpBindPressed)
            then { r.mInfo.ClientPredictedMovement with Y := 1 / 5 }
            else r.mInfo.ClientPredictedMovement)
    ∧ (travelAfterCollisions w bf near r).AABB = r.AABB
    ∧ (travelAfterCollisions w bf near r).Position = r.Position
    ∧ (travelAfterCollisions w bf near r).mInfo.ClientPredictedMovement
        = r.mInfo.ClientPredictedMovement := by
  unfold travelAfterCollisions Player.setServerMovement
  rw [checkUnsupported_liquid w r h]
  simp only [Bool.not_true, Bool.false_eq_true, if_false]
  refine ⟨?_, ?_, ?_, ?_⟩ <;> split_ifs <;> rfl

/-- C22: if a liquid is among the blocks near the player's bounding box when
`travel` has resolved the collisions of the step, the player is marked
`InUnsupportedRewindScenario`; gravity and horizontal friction are not applied
(`travel` ends with the movement the client predicted, apart from the Y
component `0.2` of the climbable rebound); and at the end of `aiStep` the
server position is the client position and the server movement is the
client-predicted movement, the rebound included. -/
theorem unsupported_rewind (w : World) (p : Player)
    (h : (w.GetNearbyBlocks (aiStepResolved w p).AABB).any (fun e => e.2.Liquid) = true) :
    (aiStep w p).mInfo.InUnsupportedRewindScenario = true
    ∧ (aiStep w p).mInfo.ServerPosition = p.Position
    ∧ (aiStep w p).mInfo.ServerMovement = p.mInfo.ClientPredictedMovement
    ∧ (travel w (aiStepBeforeTravel w (aiStepDeadzone p))).mInfo.ServerMovement
        = (if (travelBeforeCollide w (aiStepBeforeTravel w (aiStepDeadzone p))).nearClimableBlock
              && ((aiStepResolved w p).mInfo.HorizontallyCollided
                  || (aiStepResolved w p).mInfo.JumpBindPressed)
            then { p.mInfo.ClientPredictedMovement with Y := 1 / 5 }
            else p.mInfo.ClientPredictedMovement) := by
  have hf := aiStepResolved_frame w p
  have hpos : (aiStepResolved w p).Position = p.Position := congrArg (fun x => x.1) hf
  have hcpm : (aiStepResolved w p).mInfo.ClientPredictedMovement
      = p.mInfo.ClientPredictedMovement := congrArg (fun x => x.2.1) hf
  have ht : travel w (aiStepBeforeTravel w (aiStepDeadzone p))
      = travelAfterCollisions w
          (travelBeforeCollide w (aiStepBeforeTravel w (aiStepDeadzone p))).blockFriction
          (travelBeforeCollide w (aiStepBeforeTravel w (aiStepDeadzone p))).nearClimableBlock
          (aiStepResolved w p) := rfl
  obtain ⟨hm, hbb, hp, hc⟩ := travelAfterCollisions_liquid w
    (travelBeforeCollide w (aiStepBeforeTravel w (aiStepDeadzone p))).blockFriction
    (travelBeforeCollide w (aiStepBeforeTravel w (aiStepDeadzone p))).nearClimableBlock
    (aiStepResolved w p) h
  have ha : aiStep w p
      = checkUnsupportedMovementScenarios w (travel w (aiStepBeforeTravel w (aiStepDeadzone p))) :=
    rfl
  have h2 : (w.GetNearbyBlocks (travel w (aiStepBeforeTravel w (aiStepDeadzone p))).AABB).any
      (fun e => e.2.Liquid) = true := by
    rw [ht, hbb]
    exact h
  rw [ha, checkUnsupported_liquid w _ h2]
  refine ⟨rfl, ?_, ?_, ?_⟩
  · show (travel w (aiStepBeforeTravel w (aiStepDeadzone p))).Position = p.Position
    rw [ht, hp, hpos]
  · show (travel w (aiStepBeforeTravel w (aiStepDeadzone p))).mInfo.ClientPredictedMovement
      = p.mInfo.ClientPredictedMovement
    rw [ht, hc, hcpm]
  · rw [ht, hm, hcpm]

/-- In the flooded world the swimmer, who holds the jump key next to a climbable
block, ends `travel` with the rebound Y component and ends `aiStep` on the
client's position and predicted movement. -/
theorem unsupported_rewind_witness :
    (aiStep (floodedWorld []) swimmer).mInfo.ServerPosition = Vec3.mk 1 2 3
    ∧ (aiStep (floodedWorld []) swimmer).mInfo.ServerMovement = Vec3.mk (1 / 10) (1 / 20) 0
    ∧ (travel (floodedWorld []) (aiStepBeforeTravel (floodedWorld [])
        (aiStepDeadzone swimmer))).mInfo.ServerMovement.Y = 1 / 5 :=
  ⟨(unsupported_rewind (floodedWorld []) swimmer rfl).2.1,
   (unsupported_rewind (floodedWorld []) swimmer rfl).2.2.1,
   by
    rw [(unsupported_rewind (floodedWorld []) swimmer rfl).2.2.2]
    have hn : (travelBeforeCollide (floodedWorld []) (aiStepBeforeTravel (floodedWorld [])
        (aiStepDeadzone swimmer))).nearClimableBlock = true := rfl
    have hj : (aiStepResolved (floodedWorld []) swimmer).mInfo.JumpBindPressed = true := by
      norm_num [aiStepResolved, aiStepDeadzone, aiStepBeforeTravel, travelBeforeCollide,
        travelResolve, checkCollisions, simulateAddedMovementForce, maybeBackOffFromEdge,
        collide, stepConsidered, collideNormal, collideWithBlocks, Player.setServerMovement,
        MovementInfo.getFrictionInfluencedSpeed, FloatEqualThreshold, floodedWorld, boxWorld,
        airBlock, playerWith, restingInfo, swimmer, ClampFloat, Vec3.Add, Vec3.LenSqr,
        PosFromVec3, BlockPos.down, BBox.IntersectsWith, BBox.Extend, BBox.Translate]
    simp [hn, hj]⟩

/-! ### Jump cooldown -/

/-- The jump cooldown is not written by `checkUnsupportedMovementScenarios`. -/
theorem checkUnsupported_cooldown (w : World) (r : Player) :
    (checkUnsupportedMovementScenarios w r).mInfo.JumpCooldownTicks
      = r.mInfo.JumpCooldownTicks := by
  unfold checkUnsupportedMovementScenarios setMovementToClient
  simp only []
  split_ifs <;> rfl

/-- The jump cooldown is not written by `travel`. -/
theorem travel_cooldown (w : World) (r : Player) :
    (travel w r).mInfo.JumpCooldownTicks = r.mInfo.JumpCooldownTicks := by
  have hset : ∀ (q : Player) (v : Vec3),
      (q.setServerMovement v).mInfo.JumpCooldownTicks = q.mInfo.JumpCooldownTicks :=
    fun _ _ => rfl
  have hforce : ∀ (q : Player) (f : ℚ),
      (simulateAddedMovementForce w q f).mInfo.JumpCooldownTicks = q.mInfo.JumpCooldownTicks := by
    intro q f
    unfold simulateAddedMovementForce
    simp only []
    split_ifs <;> rfl
  have hite : ∀ (c : Prop) [Decidable c] (a b : Player),
      (if c then a else b).mInfo.JumpCooldownTicks
        = if c then a.mInfo.JumpCooldownTicks else b.mInfo.JumpCooldownTicks := by
    intro c _ a b
    split_ifs <;> rfl
  have hback : ∀ q : Player,
      (maybeBackOffFromEdge w q).mInfo.JumpCooldownTicks = q.mInfo.JumpCooldownTicks := by
    intro q
    unfold maybeBackOffFromEdge Player.setServerMovement
    simp only []
    split_ifs <;> first | rfl | (split <;> rfl)
  have hcol : ∀ q : Player, (collide w q).mInfo.JumpCooldownTicks = q.mInfo.JumpCooldownTicks := by
    intro q
    unfold collide
    simp only []
    split_ifs <;> rfl
  have hres : ∀ q : Player,
      (travelResolve w q).mInfo.JumpCooldownTicks = q.mInfo.JumpCooldownTicks := by
    intro q
    exact hcol q
  have hbefore : (travelBeforeCollide w r).player.mInfo.JumpCooldownTicks
      = r.mInfo.JumpCooldownTicks := by
    unfold travelBeforeCollide
    simp only [hback, hite, hset, hforce, ite_self]
  have hafter : ∀ (bf : ℚ) (near : Bool) (q : Player),
      (travelAfterCollisions w bf near q).mInfo.JumpCooldownTicks = q.mInfo.JumpCooldownTicks := by
    intro bf near q
    have hc := checkUnsupported_cooldown w q
    unfold travelAfterCollisions simulateHorizontalFriction simulateGravity
      Player.setServerMovement
    simp only []
    split_ifs <;> exact hc
  unfold travel
  simp only [hafter, hres, hbefore]

/-- The middle part of `aiStep` as a case split on the test for the jump. -/
theorem aiStepBeforeTravel_jump (w : World) (q : Player) :
    (jumpSimulated q = true →
        (aiStepBeforeTravel w q).mInfo.ServerMovement.Y = q.mInfo.JumpVelocity
        ∧ (aiStepBeforeTravel w q).mInfo.JumpCooldownTicks = 10)
    ∧ (jumpSimulated q = false →
        (aiStepBeforeTravel w q).mInfo.ServerMovement
            = (if q.mInfo.MotionTicks = 0 then q.mInfo.ServerSentMovement
                else q.mInfo.ServerMovement)
        ∧ (aiStepBeforeTravel w q).mInfo.JumpCooldownTicks
            = (if q.mInfo.JumpBindPressed then q.mInfo.JumpCooldownTicks else 0)) := by
  by_cases hm : q.mInfo.MotionTicks = 0 <;> cases hj : q.mInfo.JumpBindPressed <;>
    cases hs : q.mInfo.Sprinting <;> cases hg : q.mInfo.OnGround <;>
    by_cases hc : q.mInfo.JumpCooldownTicks ≤ 0 <;>
    simp [aiStepBeforeTravel, jumpSimulated, simulateJump, Player.setServerMovement, hm, hj, hs,
      hg, hc]

/-- The deadzone part of `aiStep` does not write what the jump reads. -/
theorem aiStepDeadzone_jump (r : Player) :
    jumpSimulated (aiStepDeadzone r) = jumpSimulated r
    ∧ (aiStepDeadzone r).mInfo.JumpBindPressed = r.mInfo.JumpBindPressed
    ∧ (aiStepDeadzone r).mInfo.JumpCooldownTicks = r.mInfo.JumpCooldownTicks
    ∧ (aiStepDeadzone r).mInfo.JumpVelocity = r.mInfo.JumpVelocity
    ∧ (aiStepDeadzone r).mInfo.MotionTicks = r.mInfo.MotionTicks
    ∧ (aiStepDeadzone r).mInfo.ServerSentMovement = r.mInfo.ServerSentMovement := by
  unfold aiStepDeadzone Player.setServerMovement jumpSimulated
  simp only []
  split_ifs <;> exact ⟨rfl, rfl, rfl, rfl, rfl, rfl⟩

/-- The jump cooldown after a full step of `updateMovementState`: the one the
middle part of `aiStep` leaves, minus the one of `UpdateTickStatus`. -/
theorem fullStep_cooldown (w : World) (p : Player) (hfull : exemptCondition p = false) :
    (updateMovementState w p).1.mInfo.JumpCooldownTicks
      = wrapInt32 ((aiStepBeforeTravel w (aiStepDeadzone (beginFullStep p))).mInfo.JumpCooldownTicks
          - 1) := by
  have e : (updateMovementState w p).1 = finishFullStep (aiStep w (beginFullStep p)) := by
    simp [updateMovementState, hfull, finishFullStep, beginFullStep]
  have e2 : (finishFullStep (aiStep w (beginFullStep p))).mInfo.JumpCooldownTicks
      = wrapInt32 ((aiStep w (beginFullStep p)).mInfo.JumpCooldownTicks - 1) := rfl
  rw [e, e2]
  unfold aiStep
  rw [checkUnsupported_cooldown, travel_cooldown]

/-- The jump cooldown after a call of `updateMovementState` with the jump key
held: ten after a simulated jump, the cooldown of before otherwise, minus the
one of `UpdateTickStatus`. -/
theorem stepCooldown_held (w : World) (p : Player) (c : Int)
    (held : p.mInfo.JumpBindPressed = true) :
    stepCooldown w p c = wrapInt32 ((if stepJumps p c then 10 else c) - 1) := by
  unfold stepCooldown stepJumps
  by_cases he : exemptCondition (p.withCooldown c) = true
  · simp only [updateMovementState, he, if_true, MovementInfo.UpdateTickStatus, Bool.not_true,
      Bool.false_and, Bool.false_eq_true, if_false]
    rfl
  · have hf : exemptCondition (p.withCooldown c) = false := by simpa using he
    obtain ⟨h1, h2, h3, -, -, -⟩ := aiStepDeadzone_jump (beginFullStep (p.withCooldown c))
    have hjs : jumpSimulated (beginFullStep (p.withCooldown c))
        = jumpSimulated (p.withCooldown c) := rfl
    have hjb : (beginFullStep (p.withCooldown c)).mInfo.JumpBindPressed = true := held
    have hjc : (beginFullStep (p.withCooldown c)).mInfo.JumpCooldownTicks = c := rfl
    obtain ⟨ha, hb⟩ := aiStepBeforeTravel_jump w (aiStepDeadzone (beginFullStep (p.withCooldown c)))
    rw [h1, hjs] at ha hb
    rw [h2, h3, hjb, hjc] at hb
    rw [fullStep_cooldown w _ hf, hf]
    by_cases hj : jumpSimulated (p.withCooldown c) = true
    · rw [(ha hj).2, hj]
      rfl
    · have hjf : jumpSimulated (p.withCooldown c) = false := by simpa using hj
      rw [(hb hjf).2, hjf]
      rfl

/-- With the jump key held, no step simulates a jump while the carried cooldown
is positive. -/
theorem runJumps_cooling (run : List (World × Player)) :
    ∀ c : Int, 0 < c → c ≤ 9 → (∀ s ∈ run, s.2.mInfo.JumpBindPressed = true) →
      ∀ j : Nat, (j : Int) < c → (runJumps c run)[j]? ≠ some true := by
  induction run with
  | nil =>
    intro c _ _ _ j _
    simp [runJumps]
  | cons s run ih =>
    intro c h0 h9 held j hj
    have hno : stepJumps s.2 c = false := by
      have : ¬ c ≤ 0 := by omega
      simp [stepJumps, jumpSimulated, Player.withCooldown, this]
    cases j with
    | zero => simp [runJumps, hno]
    | succ j =>
      have hs := stepCooldown_held s.1 s.2 c (held s (List.mem_cons_self _ _))
      rw [hno] at hs
      have hw : wrapInt32 (c - 1) = c - 1 := by
        unfold wrapInt32
        norm_num
        omega
      simp only [Bool.false_eq_true, if_false, hw] at hs
      have hj2 : (j : Int) < c - 1 := by
        push_cast at hj
        omega
      have := ih (c - 1) (by omega) (by omega)
        (fun t ht => held t (List.mem_cons_of_mem _ ht)) j hj2
      simpa [runJumps, hs] using this

/-- C21: in a full step `aiStep` simulates a jump (the Y velocity becomes
`JumpVelocity` and the cooldown 10) exactly when the jump key is pressed, the
player is on the ground and the cooldown is at most zero; otherwise the
movement is not changed by a jump and the cooldown is kept with the key
pressed and cleared with the key released. Consequently, over every run of
consecutive steps with the jump key held, whatever the other fields of the
player at each step, if step `k` simulates a jump then none of the steps
`k + 1` to `k + 9` does. -/
theorem jump_cooldown :
    (∀ (w : World) (p : Player), jumpSimulated p = true →
        (aiStepBeforeTravel w (aiStepDeadzone p)).mInfo.ServerMovement.Y = p.mInfo.JumpVelocity
        ∧ (aiStepBeforeTravel w (aiStepDeadzone p)).mInfo.JumpCooldownTicks = 10)
    ∧ (∀ (w : World) (p : Player), jumpSimulated p = false →
        (aiStepBeforeTravel w (aiStepDeadzone p)).mInfo.ServerMovement
            = (if p.mInfo.MotionTicks = 0 then p.mInfo.ServerSentMovement
                else (aiStepDeadzone p).mInfo.ServerMovement)
        ∧ (aiStepBeforeTravel w (aiStepDeadzone p)).mInfo.JumpCooldownTicks
            = (if p.mInfo.JumpBindPressed then p.mInfo.JumpCooldownTicks else 0))
    ∧ (∀ (w : World) (p : Player), p.mInfo.JumpBindPressed = false →
        (aiStepBeforeTravel w (aiStepDeadzone p)).mInfo.JumpCooldownTicks = 0)
    ∧ (∀ (c : Int) (run : List (World × Player)),
        (∀ s ∈ run, s.2.mInfo.JumpBindPressed = true) →
        ∀ k j : Nat, (runJumps c run)[k]? = some true → k < j → j ≤ k + 9 →
          (runJumps c run)[j]? ≠ some true) := by
  have hA : ∀ (w : World) (p : Player), jumpSimulated p = true →
      (aiStepBeforeTravel w (aiStepDeadzone p)).mInfo.ServerMovement.Y = p.mInfo.JumpVelocity
      ∧ (aiStepBeforeTravel w (aiStepDeadzone p)).mInfo.JumpCooldownTicks = 10 := by
    intro w p h
    obtain ⟨h1, -, -, h4, -, -⟩ := aiStepDeadzone_jump p
    have := (aiStepBeforeTravel_jump w (aiStepDeadzone p)).1 (by rw [h1]; exact h)
    rw [h4] at this
    exact this
  have hB : ∀ (w : World) (p : Player), jumpSimulated p = false →
      (aiStepBeforeTravel w (aiStepDeadzone p)).mInfo.ServerMovement
          = (if p.mInfo.MotionTicks = 0 then p.mInfo.ServerSentMovement
              else (aiStepDeadzone p).mInfo.ServerMovement)
      ∧ (aiStepBeforeTravel w (aiStepDeadzone p)).mInfo.JumpCooldownTicks
          = (if p.mInfo.JumpBindPressed then p.mInfo.JumpCooldownTicks else 0) := by
    intro w p h
    obtain ⟨h1, h2, h3, -, h5, h6⟩ := aiStepDeadzone_jump p
    have := (aiStepBeforeTravel_jump w (aiStepDeadzone p)).2 (by rw [h1]; exact h)
    rw [h2, h3, h5, h6] at this
    exact this
  refine ⟨hA, hB, ?_, ?_⟩
  · intro w p h
    have hj : jumpSimulated p = false := by simp [jumpSimulated, h]
    rw [(hB w p hj).2, h]
    rfl
  · intro c run
    induction run generalizing c with
    | nil =>
      intro _ k j hk
      simp [runJumps] at hk
    | cons s run ih =>
      intro held k j hk hkj hj9
      cases k with
      | zero =>
        have hjmp : stepJumps s.2 c = true := by simpa [runJumps] using hk
        have hs := stepCooldown_held s.1 s.2 c (held s (List.mem_cons_self _ _))
        rw [hjmp] at hs
        have hw : wrapInt32 (10 - 1) = 9 := by
          unfold wrapInt32
          norm_num
        simp only [if_true, hw] at hs
        cases j with
        | zero => omega
        | succ j =>
          have := runJumps_cooling run 9 (by norm_num) (by norm_num)
            (fun t ht => held t (List.mem_cons_of_mem _ ht)) j (by
              have : j + 1 ≤ 9 := by omega
              omega)
          simpa [runJumps, hs] using this
      | succ k =>
        cases j with
        | zero => omega
        | succ j =>
          have hk2 : (runJumps (stepCooldown s.1 s.2 c) run)[k]? = some true := by
            simpa [runJumps] using hk
          have := ih (stepCooldown s.1 s.2 c)
            (fun t ht => held t (List.mem_cons_of_mem _ ht)) k j hk2 (by omega) (by omega)
          simpa [runJumps] using this

/-- Ten steps on the floor with the jump key held from a cooldown of zero: the
first step simulates a jump and the second does not. -/
theorem jump_cooldown_witness :
    (runJumps 0 (List.replicate 10 (boxWorld [floorBox], jumper)))[0]? = some true
    ∧ (runJumps 0 (List.replicate 10 (boxWorld [floorBox], jumper)))[1]? ≠ some true :=
  ⟨rfl, jump_cooldown.2.2.2 0 (List.replicate 10 (boxWorld [floorBox], jumper))
    (fun s hs => by rw [List.eq_of_mem_replicate hs]; rfl) 0 1 rfl (by decide) (by decide)⟩

end Movement

namespace acknowledgement

/-! ### Skipped entries and failed decodes of `SubChunkUpdate.Run` -/

/-- The chunk at a position after `Chunks.put`. -/
theorem Chunks.get_put (m : Chunks) (k pos : ChunkPos) (c : Chunk) :
    Chunks.get (Chunks.put m k c) pos = if k = pos then some c else Chunks.get m pos := by
  induction m with
  | nil => simp [Chunks.put, Chunks.get]
  | cons e m ih =>
    unfold Chunks.put
    by_cases h : e.1 = k
    · by_cases h2 : k = pos
      · simp [h, h2, Chunks.get]
      · have h3 : ¬ e.1 = pos := by rw [h]; exact h2
        simp [h, h2, h3, Chunks.get]
    · by_cases h2 : e.1 = pos
      · have h3 : ¬ k = pos := by rw [← h2]; exact fun hh => h hh.symm
        have h4 : ¬ pos = k := fun hh => h3 hh.symm
        simp [h, h2, h3, h4, Chunks.get]
      · simp [h, h2, Chunks.get, ih]

/-- The entry loop on an entry whose result is not `SubChunkResultSuccess`: the
entry is skipped with a debug notification. -/
theorem subChunkLoop_skip (d : Decoders) (position : Int × Int × Int) (entry : SubChunkEntry)
    (entries : List SubChunkEntry) (nc : Chunks) (s : State)
    (h : entry.Result ≠ SubChunkResultSuccess) :
    subChunkLoop d position (entry :: entries) nc s
      = subChunkLoop d position entries nc
          { s with calls := s.calls ++ [Call.Notify "unhandled subchunk result %d @ %v"] } := by
  rw [subChunkLoop]
  simp only [h, ne_eq, not_false_eq_true, if_true]

/-- What the entry loop does with one entry. -/
theorem subChunkLoop_one (d : Decoders) (position : Int × Int × Int) (entry : SubChunkEntry)
    (nc : Chunks) (s : State) :
    s.calls <+: (subChunkLoop d position [entry] nc s).2.1.calls
    ∧ (∀ p, Call.AddChunk p ∈ (subChunkLoop d position [entry] nc s).2.1.calls →
        Call.AddChunk p ∈ s.calls)
    ∧ (∀ pos, Chunks.get (subChunkLoop d position [entry] nc s).2.1.world pos = none
        ↔ Chunks.get s.world pos = none)
    ∧ (entry.Result = SubChunkResultSuccess →
        Call.DecodeSubChunk entry.RawPayload ∈ (subChunkLoop d position [entry] nc s).2.1.calls)
    ∧ (entry.Result = SubChunkResultSuccess → ∀ err,
        d.DecodeSubChunk entry.RawPayload (foundChunk d position entry nc s) = Except.error err →
        (subChunkLoop d position [entry] nc s).2.2 = true
        ∧ (subChunkLoop d position [entry] nc s).2.1.calls.getLast?
            = some (Call.Disconnect (Reason.ErrorInternalDecodeChunk err)))
    ∧ ((subChunkLoop d position [entry] nc s).2.2 = true →
        entry.Result = SubChunkResultSuccess
        ∧ ((∃ err, d.DecodeSubChunk entry.RawPayload (foundChunk d position entry nc s)
              = Except.error err)
          ∨ ∃ r, d.DecodeSubChunk entry.RawPayload (foundChunk d position entry nc s)
              = Except.ok r ∧ (foundChunk d position entry nc s).sub.length ≤ r.1)) := by
  by_cases h1 : entry.Result = SubChunkResultSuccess
  swap
  · rw [subChunkLoop_skip d position entry [] nc s h1]
    simp [subChunkLoop, h1]
  · have h61 : ¬ SubChunkResultSuccess = SubChunkResultSuccessAllAir := by decide
    cases hg : Chunks.get nc (ChunkPos.mk (Movement.wrapInt32 (position.1 + entry.Offset.1))
        (Movement.wrapInt32 (position.2.2 + entry.Offset.2.2))) with
    | some c =>
      cases hd : d.DecodeSubChunk entry.RawPayload c with
      | error err =>
        simp [subChunkLoop, foundChunk, h1, h61, hg, hd]
      | ok r =>
        by_cases hr : r.1 < c.sub.length
        · simp [subChunkLoop, foundChunk, h1, h61, hg, hd, hr]
        · simp [subChunkLoop, foundChunk, h1, h61, hg, hd, hr]
          exact not_lt.mp hr
    | none =>
      cases hw : Chunks.get s.world (ChunkPos.mk (Movement.wrapInt32 (position.1 + entry.Offset.1))
          (Movement.wrapInt32 (position.2.2 + entry.Offset.2.2))) with
      | some c =>
        cases hd : d.DecodeSubChunk entry.RawPayload c with
        | error err =>
          simp [subChunkLoop, foundChunk, h1, h61, hg, hw, hd]
        | ok r =>
          by_cases hr : r.1 < c.sub.length
          · simp [subChunkLoop, foundChunk, h1, h61, hg, hw, hd, hr, Chunks.get_put]
            intro pos
            split_ifs with hp
            · simp [← hp, hw]
            · rfl
          · simp [subChunkLoop, foundChunk, h1, h61, hg, hw, hd, hr]
            exact not_lt.mp hr
      | none =>
        cases hd : d.DecodeSubChunk entry.RawPayload d.New with
        | error err =>
          simp [subChunkLoop, foundChunk, h1, h61, hg, hw, hd]
        | ok r =>
          by_cases hr : r.1 < d.New.sub.length
          · simp [subChunkLoop, foundChunk, h1, h61, hg, hw, hd, hr]
          · simp [subChunkLoop, foundChunk, h1, h61, hg, hw, hd, hr]
            exact not_lt.mp hr

/-- The entry loop handles the first entry, returns if that returned, and goes
on with the rest otherwise. -/
theorem subChunkLoop_cons (d : Decoders) (position : Int × Int × Int) (entry : SubChunkEntry)
    (entries : List SubChunkEntry) (nc : Chunks) (s : State) :
    subChunkLoop d position (entry :: entries) nc s
      = if (subChunkLoop d position [entry] nc s).2.2 = true
        then subChunkLoop d position [entry] nc s
        else subChunkLoop d position entries (subChunkLoop d position [entry] nc s).1
              (subChunkLoop d position [entry] nc s).2.1 := by
  by_cases h1 : entry.Result = SubChunkResultSuccess
  swap
  · simp [subChunkLoop, h1]
  · have h61 : ¬ SubChunkResultSuccess = SubChunkResultSuccessAllAir := by decide
    cases hg : Chunks.get nc (ChunkPos.mk (Movement.wrapInt32 (position.1 + entry.Offset.1))
        (Movement.wrapInt32 (position.2.2 + entry.Offset.2.2))) with
    | some c =>
      cases hd : d.DecodeSubChunk entry.RawPayload c with
      | error err => simp [subChunkLoop, h1, h61, hg, hd]
      | ok r =>
        by_cases hr : r.1 < c.sub.length
        · simp [subChunkLoop, h1, h61, hg, hd, hr]
        · simp [subChunkLoop, h1, h61, hg, hd, hr]
    | none =>
      cases hw : Chunks.get s.world (ChunkPos.mk (Movement.wrapInt32 (position.1 + entry.Offset.1))
          (Movement.wrapInt32 (position.2.2 + entry.Offset.2.2))) with
      | some c =>
        cases hd : d.DecodeSubChunk entry.RawPayload c with
        | error err => simp [subChunkLoop, h1, h61, hg, hw, hd]
        | ok r =>
          by_cases hr : r.1 < c.sub.length
          · simp [subChunkLoop, h1, h61, hg, hw, hd, hr]
          · simp [subChunkLoop, h1, h61, hg, hw, hd, hr]
      | none =>
        cases hd : d.DecodeSubChunk entry.RawPayload d.New with
        | error err => simp [subChunkLoop, h1, h61, hg, hw, hd]
        | ok r =>
          by_cases hr : r.1 < d.New.sub.length
          · simp [subChunkLoop, h1, h61, hg, hw, hd, hr]
          · simp [subChunkLoop, h1, h61, hg, hw, hd, hr]

/-- The entry loop handles a first part of the entries, returns if that
returned, and goes on with the rest otherwise. -/
theorem subChunkLoop_append (d : Decoders) (position : Int × Int × Int)
    (pre rest : List SubChunkEntry) :
    ∀ (nc : Chunks) (s : State),
      subChunkLoop d position (pre ++ rest) nc s
        = if (subChunkLoop d position pre nc s).2.2 = true
          then subChunkLoop d position pre nc s
          else subChunkLoop d position rest (subChunkLoop d position pre nc s).1
                (subChunkLoop d position pre nc s).2.1 := by
  induction pre with
  | nil =>
    intro nc s
    simp [subChunkLoop]
  | cons entry pre ih =>
    intro nc s
    rw [List.cons_append, subChunkLoop_cons, subChunkLoop_cons d position entry pre]
    by_cases hf : (subChunkLoop d position [entry] nc s).2.2 = true
    · rw [if_pos hf, if_pos hf, if_pos hf]
    · rw [if_neg hf, if_neg hf]
      exact ih _ _

/-- The entry loop only adds calls, none of them `AddChunk`, and it stores
chunks in the world only at positions that hold one. -/
theorem subChunkLoop_frame (d : Decoders) (position : Int × Int × Int)
    (entries : List SubChunkEntry) :
    ∀ (nc : Chunks) (s : State),
      s.calls <+: (subChunkLoop d position entries nc s).2.1.calls
      ∧ (∀ p, Call.AddChunk p ∈ (subChunkLoop d position entries nc s).2.1.calls →
          Call.AddChunk p ∈ s.calls)
      ∧ (∀ pos, Chunks.get (subChunkLoop d position entries nc s).2.1.world pos = none
          ↔ Chunks.get s.world pos = none) := by
  induction entries with
  | nil =>
    intro nc s
    simp [subChunkLoop]
  | cons entry entries ih =>
    intro nc s
    obtain ⟨o1, o2, o3, -, -, -⟩ := subChunkLoop_one d position entry nc s
    rw [subChunkLoop_cons]
    by_cases hf : (subChunkLoop d position [entry] nc s).2.2 = true
    · rw [if_pos hf]
      exact ⟨o1, o2, o3⟩
    · rw [if_neg hf]
      obtain ⟨i1, i2, i3⟩ := ih (subChunkLoop d position [entry] nc s).1
        (subChunkLoop d position [entry] nc s).2.1
      exact ⟨o1.trans i1, fun p hp => o2 p (i2 p hp), fun pos => (i3 pos).trans (o3 pos)⟩

/-- An entry with the result `SubChunkResultSuccess` is decoded. -/
theorem subChunkLoop_decodes (d : Decoders) (position : Int × Int × Int) (entry : SubChunkEntry)
    (entries : List SubChunkEntry) (nc : Chunks) (s : State)
    (h : entry.Result = SubChunkResultSuccess) :
    Call.DecodeSubChunk entry.RawPayload
      ∈ (subChunkLoop d position (entry :: entries) nc s).2.1.calls := by
  obtain ⟨-, -, -, o4, -, -⟩ := subChunkLoop_one d position entry nc s
  rw [subChunkLoop_cons]
  by_cases hf : (subChunkLoop d position [entry] nc s).2.2 = true
  · rw [if_pos hf]
    exact o4 h
  · rw [if_neg hf]
    exact (subChunkLoop_frame d position entries _ _).1.subset (o4 h)

/-- When the loop reaches an entry with the result `SubChunkResultSuccess` and
the decoder fails on the chunk it is given, the loop returns at that entry, and
its last call is the disconnection with that error. -/
theorem subChunkLoop_fails_here (d : Decoders) (position : Int × Int × Int)
    (entry : SubChunkEntry) (entries : List SubChunkEntry) (nc : Chunks) (s : State)
    (err : String) (h : entry.Result = SubChunkResultSuccess)
    (hfail : d.DecodeSubChunk entry.RawPayload (foundChunk d position entry nc s)
      = Except.error err) :
    subChunkLoop d position (entry :: entries) nc s = subChunkLoop d position [entry] nc s
    ∧ (subChunkLoop d position (entry :: entries) nc s).2.2 = true
    ∧ (subChunkLoop d position (entry :: entries) nc s).2.1.calls.getLast?
        = some (Call.Disconnect (Reason.ErrorInternalDecodeChunk err)) := by
  obtain ⟨-, -, -, -, o5, -⟩ := subChunkLoop_one d position entry nc s
  obtain ⟨hf, hl⟩ := o5 h err hfail
  rw [subChunkLoop_cons, if_pos hf]
  exact ⟨rfl, hf, hl⟩

/-- The entry loop returns from inside only at an entry with the result
`SubChunkResultSuccess` that it has reached without a return, and on which
the decoder fails or gives an index outside the chunk. -/
theorem subChunkLoop_returns (d : Decoders) (position : Int × Int × Int)
    (entries : List SubChunkEntry) :
    ∀ (nc : Chunks) (s : State), (subChunkLoop d position entries nc s).2.2 = true →
      ∃ (pre : List SubChunkEntry) (entry : SubChunkEntry) (post : List SubChunkEntry),
        entries = pre ++ entry :: post
        ∧ (subChunkLoop d position pre nc s).2.2 = false
        ∧ entry.Result = SubChunkResultSuccess
        ∧ ((∃ err, d.DecodeSubChunk entry.RawPayload
              (foundChunk d position entry (subChunkLoop d position pre nc s).1
                (subChunkLoop d position pre nc s).2.1) = Except.error err)
          ∨ ∃ r, d.DecodeSubChunk entry.RawPayload
              (foundChunk d position entry (subChunkLoop d position pre nc s).1
                (subChunkLoop d position pre nc s).2.1) = Except.ok r
            ∧ (foundChunk d position entry (subChunkLoop d position pre nc s).1
                (subChunkLoop d position pre nc s).2.1).sub.length ≤ r.1) := by
  induction entries with
  | nil =>
    intro nc s h
    simp [subChunkLoop] at h
  | cons entry entries ih =>
    intro nc s h
    obtain ⟨-, -, -, -, -, o6⟩ := subChunkLoop_one d position entry nc s
    rw [subChunkLoop_cons] at h
    by_cases hf : (subChunkLoop d position [entry] nc s).2.2 = true
    · obtain ⟨hr, hd⟩ := o6 hf
      exact ⟨[], entry, entries, rfl, by simp [subChunkLoop], hr, by simpa [subChunkLoop] using hd⟩
    · rw [if_neg hf] at h
      obtain ⟨pre, e, post, he, hp, hr, hd⟩ := ih _ _ h
      have hfalse : (subChunkLoop d position [entry] nc s).2.2 = false := by simpa using hf
      have hc : subChunkLoop d position (entry :: pre) nc s
          = subChunkLoop d position pre (subChunkLoop d position [entry] nc s).1
              (subChunkLoop d position [entry] nc s).2.1 := by
        rw [subChunkLoop_cons, if_neg hf]
      refine ⟨entry :: pre, e, post, by rw [he]; rfl, ?_, hr, ?_⟩
      · rw [hc]
        exact hp
      · rw [hc]
        exact hd

/-- C28: in `SubChunkUpdate.Run` an entry whose `Result` differs from
`SubChunkResultSuccess`, as `SubChunkResultSuccessAllAir` does, is skipped with
a debug notification only: no chunk is looked up, created or modified. An
entry that reaches the all-air guard therefore satisfies it and is decoded.
When the decoder fails on an entry, on the chunk it is given for it, the loop
returns there with the disconnection as its last call; the run then ends with
that disconnection, makes no `AddChunk` call and leaves every position of the
world without a chunk as it was, so no chunk created during the call is
added. The same holds for the calls and the world whenever the run returns
from inside the loop, which happens only at an entry on which the decoder
fails or gives an index outside the chunk. -/
theorem subChunk_skip_and_decode_failure (d : Decoders) :
    (∀ (position : Int × Int × Int) (entry : SubChunkEntry) (entries : List SubChunkEntry)
        (nc : Chunks) (s : State), entry.Result ≠ SubChunkResultSuccess →
        subChunkLoop d position (entry :: entries) nc s
          = subChunkLoop d position entries nc
              { s with calls := s.calls ++ [Call.Notify "unhandled subchunk result %d @ %v"] })
    ∧ (∀ entry : SubChunkEntry, entry.Result = SubChunkResultSuccessAllAir →
        entry.Result ≠ SubChunkResultSuccess)
    ∧ (∀ (position : Int × Int × Int) (entry : SubChunkEntry) (entries : List SubChunkEntry)
        (nc : Chunks) (s : State), entry.Result = SubChunkResultSuccess →
        entry.Result ≠ SubChunkResultSuccessAllAir
        ∧ Call.DecodeSubChunk entry.RawPayload
            ∈ (subChunkLoop d position (entry :: entries) nc s).2.1.calls)
    ∧ (∀ (position : Int × Int × Int) (entry : SubChunkEntry) (entries : List SubChunkEntry)
        (nc : Chunks) (s : State) (err : String), entry.Result = SubChunkResultSuccess →
        d.DecodeSubChunk entry.RawPayload (foundChunk d position entry nc s) = Except.error err →
        (subChunkLoop d position (entry :: entries) nc s).2.2 = true
        ∧ (subChunkLoop d position (entry :: entries) nc s).2.1.calls.getLast?
            = some (Call.Disconnect (Reason.ErrorInternalDecodeChunk err)))
    ∧ (∀ (pk : SubChunk) (s : State) (pre : List SubChunkEntry) (entry : SubChunkEntry)
        (post : List SubChunkEntry) (err : String), pk.CacheEnabled = false →
        pk.SubChunkEntries = pre ++ entry :: post →
        (subChunkLoop d pk.Position pre [] s).2.2 = false →
        entry.Result = SubChunkResultSuccess →
        d.DecodeSubChunk entry.RawPayload
            (foundChunk d pk.Position entry (subChunkLoop d pk.Position pre [] s).1
              (subChunkLoop d pk.Position pre [] s).2.1) = Except.error err →
        (SubChunkUpdate.Run d pk s).calls.getLast?
            = some (Call.Disconnect (Reason.ErrorInternalDecodeChunk err))
        ∧ (∀ p, Call.AddChunk p ∈ (SubChunkUpdate.Run d pk s).calls → Call.AddChunk p ∈ s.calls)
        ∧ (∀ pos, Chunks.get (SubChunkUpdate.Run d pk s).world pos = none
            ↔ Chunks.get s.world pos = none))
    ∧ (∀ (pk : SubChunk) (s : State), pk.CacheEnabled = false →
        (subChunkLoop d pk.Position pk.SubChunkEntries [] s).2.2 = true →
        (∀ p, Call.AddChunk p ∈ (SubChunkUpdate.Run d pk s).calls → Call.AddChunk p ∈ s.calls)
        ∧ (∀ pos, Chunks.get (SubChunkUpdate.Run d pk s).world pos = none
            ↔ Chunks.get s.world pos = none)
        ∧ ∃ (pre : List SubChunkEntry) (entry : SubChunkEntry) (post : List SubChunkEntry),
            pk.SubChunkEntries = pre ++ entry :: post
            ∧ (subChunkLoop d pk.Position pre [] s).2.2 = false
            ∧ entry.Result = SubChunkResultSuccess
            ∧ ((∃ err, d.DecodeSubChunk entry.RawPayload
                  (foundChunk d pk.Position entry (subChunkLoop d pk.Position pre [] s).1
                    (subChunkLoop d pk.Position pre [] s).2.1) = Except.error err)
              ∨ ∃ r, d.DecodeSubChunk entry.RawPayload
                  (foundChunk d pk.Position entry (subChunkLoop d pk.Position pre [] s).1
                    (subChunkLoop d pk.Position pre [] s).2.1) = Except.ok r
                ∧ (foundChunk d pk.Position entry (subChunkLoop d pk.Position pre [] s).1
                    (subChunkLoop d pk.Position pre [] s).2.1).sub.length ≤ r.1)) := by
  refine ⟨fun position entry entries nc s h => subChunkLoop_skip d position entry entries nc s h,
    ?_, ?_, fun position entry entries nc s err h hfail =>
      (subChunkLoop_fails_here d position entry entries nc s err h hfail).2, ?_, ?_⟩
  · intro entry h
    rw [h]
    decide
  · intro position entry entries nc s h
    refine ⟨?_, subChunkLoop_decodes d position entry entries nc s h⟩
    rw [h]
    decide
  · intro pk s pre entry post err hc hsplit hpre hres hfail
    have hne : ¬ (subChunkLoop d pk.Position pre [] s).2.2 = true := by simp [hpre]
    have hloop : subChunkLoop d pk.Position pk.SubChunkEntries [] s
        = subChunkLoop d pk.Position (entry :: post) (subChunkLoop d pk.Position pre [] s).1
            (subChunkLoop d pk.Position pre [] s).2.1 := by
      rw [hsplit, subChunkLoop_append, if_neg hne]
    obtain ⟨-, hflag, hlast⟩ := subChunkLoop_fails_here d pk.Position entry post _ _ err hres hfail
    rw [← hloop] at hflag hlast
    have hrun : SubChunkUpdate.Run d pk s
        = (subChunkLoop d pk.Position pk.SubChunkEntries [] s).2.1 := by
      simp [SubChunkUpdate.Run, hc, hflag]
    obtain ⟨-, f2, f3⟩ := subChunkLoop_frame d pk.Position pk.SubChunkEntries [] s
    rw [hrun]
    exact ⟨hlast, f2, f3⟩
  · intro pk s hc hflag
    have hrun : SubChunkUpdate.Run d pk s
        = (subChunkLoop d pk.Position pk.SubChunkEntries [] s).2.1 := by
      simp [SubChunkUpdate.Run, hc, hflag]
    obtain ⟨-, f2, f3⟩ := subChunkLoop_frame d pk.Position pk.SubChunkEntries [] s
    rw [hrun]
    exact ⟨f2, f3, subChunkLoop_returns d pk.Position pk.SubChunkEntries [] s hflag⟩

/-- On the sample packet the all-air entry is skipped and the second entry is
decoded into a new chunk; on that chunk the decoder, which succeeds on a new
one, fails for the third entry, and the run ends with the disconnection and a
world still without chunks. -/
theorem subChunk_skip_and_decode_failure_witness :
    sampleDecoders.DecodeSubChunk [2] sampleDecoders.New = Except.ok (0, 7)
    ∧ (SubChunkUpdate.Run sampleDecoders samplePacket emptyState).calls.getLast?
        = some (Call.Disconnect
            (Reason.ErrorInternalDecodeChunk "first sub-chunk already stored"))
    ∧ Chunks.get (SubChunkUpdate.Run sampleDecoders samplePacket emptyState).world
        (ChunkPos.mk 1 0) = none :=
  ⟨rfl,
   ((subChunk_skip_and_decode_failure sampleDecoders).2.2.2.2.1 samplePacket emptyState
      [SubChunkEntry.mk (0, 0, 0) SubChunkResultSuccessAllAir [],
        SubChunkEntry.mk (1, 0, 0) SubChunkResultSuccess [1]]
      (SubChunkEntry.mk (1, 0, 0) SubChunkResultSuccess [2]) []
      "first sub-chunk already stored" rfl rfl (by decide) rfl rfl).1,
   (((subChunk_skip_and_decode_failure sampleDecoders).2.2.2.2.1 samplePacket emptyState
      [SubChunkEntry.mk (0, 0, 0) SubChunkResultSuccessAllAir [],
        SubChunkEntry.mk (1, 0, 0) SubChunkResultSuccess [1]]
      (SubChunkEntry.mk (1, 0, 0) SubChunkResultSuccess [2]) []
      "first sub-chunk already stored" rfl rfl (by decide) rfl rfl).2.2
        (ChunkPos.mk 1 0)).mpr rfl⟩

end acknowledgement

namespace handler

/-! ### Entity tracker -/

/-- The entity at a runtime id after `EntityMap.put`. -/
theorem EntityMap.find_put (m : EntityMap) (k rid : Nat) (x : Entity) :
    EntityMap.find (EntityMap.put m k x) rid = if k = rid then some x else EntityMap.find m rid := by
  induction m with
  | nil => simp [EntityMap.put, EntityMap.find]
  | cons e m ih =>
    unfold EntityMap.put
    by_cases h : e.1 = k
    · by_cases h2 : k = rid
      · simp [h, h2, EntityMap.find]
      · have h3 : ¬ e.1 = rid := by rw [h]; exact h2
        simp [h, h2, h3, EntityMap.find]
    · by_cases h2 : e.1 = rid
      · have h3 : ¬ k = rid := by rw [← h2]; exact fun hh => h hh.symm
        have h4 : ¬ rid = k := fun hh => h3 hh.symm
        simp [h, h2, h3, h4, EntityMap.find]
      · simp [h, h2, EntityMap.find, ih]

/-- C24: `moveEntity` on a tracked entity hands it one sample, at the given
tick: the received position with Y lowered by 1.62 when the entity is a
player, the received position unchanged otherwise; nothing else of the entity
and no other entity changes. For a runtime id that is not tracked it changes
nothing. -/
theorem moveEntity_foot_position (h : EntityHandler) (rid : Nat) (tick : Int) (pos : Vec3) :
    (∀ e, h.FindEntity rid = some e → e.IsPlayer = true →
        (h.moveEntity rid tick pos).FindEntity rid
          = some { e with received := e.received
                      ++ [{ Position := Vec3.mk pos.X (pos.Y - 81 / 50) pos.Z, Tick := tick }] })
    ∧ (∀ e, h.FindEntity rid = some e → e.IsPlayer = false →
        (h.moveEntity rid tick pos).FindEntity rid
          = some { e with received := e.received ++ [{ Position := pos, Tick := tick }] })
    ∧ (h.FindEntity rid = none → h.moveEntity rid tick pos = h)
    ∧ (∀ other, other ≠ rid → (h.moveEntity rid tick pos).FindEntity other = h.FindEntity other)
    ∧ (h.moveEntity rid tick pos).MaxRewindTicks = h.MaxRewindTicks := by
  unfold EntityHandler.FindEntity
  refine ⟨?_, ?_, ?_, ?_, ?_⟩
  · intro e he hp
    simp [EntityHandler.moveEntity, EntityHandler.FindEntity, he, hp, EntityMap.find_put,
      Entity.RecievePosition]
  · intro e he hp
    simp [EntityHandler.moveEntity, EntityHandler.FindEntity, he, hp, EntityMap.find_put,
      Entity.RecievePosition]
  · intro he
    simp [EntityHandler.moveEntity, EntityHandler.FindEntity, he]
  · intro other ho
    cases he : h.Entities.find rid with
    | none => simp [EntityHandler.moveEntity, EntityHandler.FindEntity, he]
    | some e =>
      have : ¬ rid = other := fun hh => ho hh.symm
      simp [EntityHandler.moveEntity, EntityHandler.FindEntity, he, EntityMap.find_put, this]
  · cases he : h.Entities.find rid with
    | none => simp [EntityHandler.moveEntity, EntityHandler.FindEntity, he]
    | some e => simp [EntityHandler.moveEntity, EntityHandler.FindEntity, he]

/-- On the sample handler a move of the tracked player to `(1, 64, 1)` at tick
40 stores the sample `(40, (1, 62.38, 1))`, and a move of the zombie stores the
position as received. -/
theorem moveEntity_foot_position_witness :
    (sampleHandler.moveEntity 8 40 (Vec3.mk 1 64 1)).FindEntity 8
        = some { otherPlayer with
            received := otherPlayer.received
              ++ [{ Position := Vec3.mk 1 (64 - 81 / 50) 1, Tick := 40 }] }
    ∧ (sampleHandler.moveEntity 7 40 (Vec3.mk 1 64 1)).FindEntity 7
        = some { zombie with
            received := zombie.received ++ [{ Position := Vec3.mk 1 64 1, Tick := 40 }] }
    ∧ sampleHandler.moveEntity 9 40 (Vec3.mk 1 64 1) = sampleHandler :=
  ⟨(moveEntity_foot_position sampleHandler 8 40 (Vec3.mk 1 64 1)).1 otherPlayer rfl rfl,
   (moveEntity_foot_position sampleHandler 7 40 (Vec3.mk 1 64 1)).2.1 zombie rfl rfl,
   (moveEntity_foot_position sampleHandler 9 40 (Vec3.mk 1 64 1)).2.2.1 rfl⟩

end handler

namespace processor

/-! ### Sprint and sneak toggles -/

/-- The first part of the case, given that `Move` keeps the toggles. -/
theorem authInputToggle_fields {ρ : Type} (H : Helpers ρ) (pk : PlayerAuthInput) (p : Player ρ)
    (hMove : keepsToggles (H.Move pk)) :
    (authInputToggle H pk p).clientTick = p.clientTick + 1
    ∧ (authInputToggle H pk p).sprinting
        = (if sprintFlag H pk then ! p.sprinting else p.sprinting)
    ∧ (authInputToggle H pk p).sneaking
        = (if (! sprintFlag H pk && sneakFlag H pk) then ! p.sneaking else p.sneaking) := by
  obtain ⟨m1, m2, m3⟩ := hMove { { p with clicking := false } with clientTick := p.clientTick + 1 }
  unfold authInputToggle
  simp only []
  cases h1 : sprintFlag H pk <;> cases h2 : sneakFlag H pk <;>
    simp [m1, m2, m3]

/-- C29: on a `PlayerAuthInput`, given that the methods the case calls write
none of the three fields, `ClientProcess` increments the client tick by
exactly 1; it inverts the sprinting flag exactly when the `StartSprinting` or
the `StopSprinting` input flag is present, so `StartSprinting` received while
sprinting turns sprinting off; and it inverts the sneaking flag exactly when
no sprint flag is present and the `StartSneaking` or the `StopSneaking` flag
is, so a packet with a sprint flag and a sneak flag leaves sneaking as it
was. -/
theorem sprint_sneak_toggle {ρ : Type} (H : Helpers ρ) (pk : PlayerAuthInput) (p : Player ρ)
    (hMove : keepsToggles (H.Move pk)) (hEffects : keepsToggles H.tickEffects)
    (hMovement : keepsToggles H.tickMovement) (hBlocks : keepsToggles H.tickNearbyBlocks)
    (hEntities : keepsToggles H.tickEntityLocations) (hChecks : keepsToggles (H.runChecks pk)) :
    (ClientProcessAuthInput H pk p).1.clientTick = p.clientTick + 1
    ∧ ((ClientProcessAuthInput H pk p).1.sprinting = ! p.sprinting ↔ sprintFlag H pk = true)
    ∧ ((ClientProcessAuthInput H pk p).1.sprinting = p.sprinting ↔ sprintFlag H pk = false)
    ∧ ((ClientProcessAuthInput H pk p).1.sneaking = ! p.sneaking
        ↔ (sprintFlag H pk = false ∧ sneakFlag H pk = true))
    ∧ ((ClientProcessAuthInput H pk p).1.sneaking = p.sneaking
        ↔ ¬ (sprintFlag H pk = false ∧ sneakFlag H pk = true))
    ∧ (p.sprinting = true → H.HasFlag pk.InputData InputFlagStartSprinting = true →
        (ClientProcessAuthInput H pk p).1.sprinting = false)
    ∧ (sprintFlag H pk = true → sneakFlag H pk = true →
        (ClientProcessAuthInput H pk p).1.sneaking = p.sneaking)
    ∧ (ClientProcessAuthInput H pk p).2 = false := by
  obtain ⟨t1, t2, t3⟩ := authInputToggle_fields H pk p hMove
  have hkeep : (ClientProcessAuthInput H pk p).1.clientTick = (authInputToggle H pk p).clientTick
      ∧ (ClientProcessAuthInput H pk p).1.sprinting = (authInputToggle H pk p).sprinting
      ∧ (ClientProcessAuthInput H pk p).1.sneaking = (authInputToggle H pk p).sneaking := by
    have a1 : ∀ q, (H.runChecks pk q).clientTick = q.clientTick := fun q => (hChecks q).1
    have a2 : ∀ q, (H.runChecks pk q).sprinting = q.sprinting := fun q => (hChecks q).2.1
    have a3 : ∀ q, (H.runChecks pk q).sneaking = q.sneaking := fun q => (hChecks q).2.2
    have b1 : ∀ q, (H.tickEntityLocations q).clientTick = q.clientTick := fun q => (hEntities q).1
    have b2 : ∀ q, (H.tickEntityLocations q).sprinting = q.sprinting := fun q => (hEntities q).2.1
    have b3 : ∀ q, (H.tickEntityLocations q).sneaking = q.sneaking := fun q => (hEntities q).2.2
    have c1 : ∀ q, (H.tickNearbyBlocks q).clientTick = q.clientTick := fun q => (hBlocks q).1
    have c2 : ∀ q, (H.tickNearbyBlocks q).sprinting = q.sprinting := fun q => (hBlocks q).2.1
    have c3 : ∀ q, (H.tickNearbyBlocks q).sneaking = q.sneaking := fun q => (hBlocks q).2.2
    have d1 : ∀ q, (H.tickMovement q).clientTick = q.clientTick := fun q => (hMovement q).1
    have d2 : ∀ q, (H.tickMovement q).sprinting = q.sprinting := fun q => (hMovement q).2.1
    have d3 : ∀ q, (H.tickMovement q).sneaking = q.sneaking := fun q => (hMovement q).2.2
    have e1 : ∀ q, (H.tickEffects q).clientTick = q.clientTick := fun q => (hEffects q).1
    have e2 : ∀ q, (H.tickEffects q).sprinting = q.sprinting := fun q => (hEffects q).2.1
    have e3 : ∀ q, (H.tickEffects q).sneaking = q.sneaking := fun q => (hEffects q).2.2
    unfold ClientProcessAuthInput
    simp only [a1, a2, a3, b1, b2, b3, c1, c2, c3, d1, d2, d3]
    refine ⟨?_, ?_, ?_⟩ <;> split_ifs <;> simp only [e1, e2, e3]
  obtain ⟨k1, k2, k3⟩ := hkeep
  rw [k1, k2, k3, t1, t2, t3]
  refine ⟨rfl, ?_, ?_, ?_, ?_, ?_, ?_, rfl⟩
  · cases sprintFlag H pk <;> cases p.sprinting <;> simp
  · cases sprintFlag H pk <;> cases p.sprinting <;> simp
  · cases sprintFlag H pk <;> cases sneakFlag H pk <;> cases p.sneaking <;> simp
  · cases sprintFlag H pk <;> cases sneakFlag H pk <;> cases p.sneaking <;> simp
  · intro hs hf
    have : sprintFlag H pk = true := by simp [sprintFlag, hf]
    simp [this, hs]
  · intro h1 h2
    simp [h1]

/-- An input carrying `InputFlagStartSprinting` and `InputFlagStartSneaking`, sent
while sprinting and sneaking: the client tick goes from 9 to 10, sprinting is
turned off and sneaking stays on. -/
theorem sprint_sneak_toggle_witness :
    (ClientProcessAuthInput plainHelpers startBoth sprinter).1.clientTick = 10
    ∧ (ClientProcessAuthInput plainHelpers startBoth sprinter).1.sprinting = false
    ∧ (ClientProcessAuthInput plainHelpers startBoth sprinter).1.sneaking = true :=
  ⟨(sprint_sneak_toggle plainHelpers startBoth sprinter (fun _ => ⟨rfl, rfl, rfl⟩)
      (fun _ => ⟨rfl, rfl, rfl⟩) (fun _ => ⟨rfl, rfl, rfl⟩) (fun _ => ⟨rfl, rfl, rfl⟩)
      (fun _ => ⟨rfl, rfl, rfl⟩) (fun _ => ⟨rfl, rfl, rfl⟩)).1,
   (sprint_sneak_toggle plainHelpers startBoth sprinter (fun _ => ⟨rfl, rfl, rfl⟩)
      (fun _ => ⟨rfl, rfl, rfl⟩) (fun _ => ⟨rfl, rfl, rfl⟩) (fun _ => ⟨rfl, rfl, rfl⟩)
      (fun _ => ⟨rfl, rfl, rfl⟩) (fun _ => ⟨rfl, rfl, rfl⟩)).2.2.2.2.2.1 rfl (by decide),
   (sprint_sneak_toggle plainHelpers startBoth sprinter (fun _ => ⟨rfl, rfl, rfl⟩)
      (fun _ => ⟨rfl, rfl, rfl⟩) (fun _ => ⟨rfl, rfl, rfl⟩) (fun _ => ⟨rfl, rfl, rfl⟩)
      (fun _ => ⟨rfl, rfl, rfl⟩) (fun _ => ⟨rfl, rfl, rfl⟩)).2.2.2.2.2.2.1 (by decide)
      (by decide)⟩

end processor

end Oomph
